import Mathlib

/-!
# GPU resource lifecycle: buffers, images, layout transitions, teardown queues

A shallow embedding of `src/AssetLinking.hpp` (`RenderEngineLink`, `AllocatedBuffer`,
`AllocatedImage`) and `src/src/GraphicsEngine/Vulkan/imageManager.hpp` (`ImageManager`).

Conventions of the embedding.

* Native handles and host pointers are natural numbers, `VK_NULL_HANDLE = 0`.
* The Vulkan / VMA driver is external.  Every driver call made by the source is appended to a
  chronological trace (`Trace`), and what the driver answers (result code and the contents of
  the output parameters after the call) is read from a `Device`, an arbitrary function of the
  trace up to and including that call.
* A C++ `throw` is the `Except.error` component of the returned pair; the state returned next to
  it is the state at the point of the throw (mutations made before a throw persist).
* The closures stored in `deletionQueue` capture `this` by reference; each lambda of the source
  is one constructor of a teardown type and its body is the matching branch of the
  `runTeardown` function.
-/

namespace GameEngine

/-! ## Vulkan vocabulary (values of the Vulkan 1.0 headers) -/

abbrev Handle := Nat
abbrev VkResult := Int
abbrev VkImageLayout := Nat
abbrev VkFlags := Nat

def VK_NULL_HANDLE : Handle := 0
def VK_SUCCESS : VkResult := 0

def VK_IMAGE_LAYOUT_UNDEFINED : VkImageLayout := 0
def VK_IMAGE_LAYOUT_DEPTH_STENCIL_ATTACHMENT_OPTIMAL : VkImageLayout := 3
def VK_IMAGE_LAYOUT_SHADER_READ_ONLY_OPTIMAL : VkImageLayout := 5
def VK_IMAGE_LAYOUT_TRANSFER_DST_OPTIMAL : VkImageLayout := 7

def VK_ACCESS_SHADER_READ_BIT : VkFlags := 0x20
def VK_ACCESS_DEPTH_STENCIL_ATTACHMENT_READ_BIT : VkFlags := 0x200
def VK_ACCESS_DEPTH_STENCIL_ATTACHMENT_WRITE_BIT : VkFlags := 0x400
def VK_ACCESS_TRANSFER_WRITE_BIT : VkFlags := 0x1000

def VK_PIPELINE_STAGE_TOP_OF_PIPE_BIT : VkFlags := 0x1
def VK_PIPELINE_STAGE_FRAGMENT_SHADER_BIT : VkFlags := 0x80
def VK_PIPELINE_STAGE_EARLY_FRAGMENT_TESTS_BIT : VkFlags := 0x100
def VK_PIPELINE_STAGE_TRANSFER_BIT : VkFlags := 0x1000

def VK_IMAGE_ASPECT_COLOR_BIT : VkFlags := 0x1
def VK_IMAGE_ASPECT_DEPTH_BIT : VkFlags := 0x2
def VK_IMAGE_ASPECT_STENCIL_BIT : VkFlags := 0x4

def VK_QUEUE_FAMILY_IGNORED : Nat := 4294967295

def VK_IMAGE_TYPE_2D : Nat := 1
def VK_IMAGE_VIEW_TYPE_2D : Nat := 1
def VK_SHARING_MODE_EXCLUSIVE : Nat := 0
def VK_FILTER_LINEAR : Nat := 1
def VK_SAMPLER_ADDRESS_MODE_REPEAT : Nat := 0
def VK_SAMPLER_MIPMAP_MODE_LINEAR : Nat := 1
def VK_BORDER_COLOR_INT_OPAQUE_BLACK : Nat := 3
def VK_COMPARE_OP_ALWAYS : Nat := 7
def VK_COMMAND_BUFFER_LEVEL_PRIMARY : Nat := 0
def VK_COMMAND_BUFFER_USAGE_ONE_TIME_SUBMIT_BIT : VkFlags := 0x1

/-- Conversion of a C++ `int` argument stored into a `uint32_t` field. -/
def toUInt32 (x : Int) : Nat := (x % 4294967296).toNat

/-! ## Driver calls, trace and device -/

/-- The `subresourceRange` member of a barrier or of an image view description. -/
structure VkImageSubresourceRange where
  aspectMask : VkFlags
  baseMipLevel : Nat
  levelCount : Nat
  baseArrayLayer : Nat
  layerCount : Nat
deriving DecidableEq, Repr

/-- The fields of `VkImageMemoryBarrier` that `transition` fills in. -/
structure VkImageMemoryBarrier where
  srcAccessMask : VkFlags
  dstAccessMask : VkFlags
  oldLayout : VkImageLayout
  newLayout : VkImageLayout
  srcQueueFamilyIndex : Nat
  dstQueueFamilyIndex : Nat
  image : Handle
  subresourceRange : VkImageSubresourceRange
deriving DecidableEq, Repr

/-- The fields of `VkImageCreateInfo` that `create` fills in. -/
structure VkImageCreateInfo where
  imageType : Nat
  extentWidth : Nat
  extentHeight : Nat
  extentDepth : Nat
  mipLevels : Nat
  arrayLayers : Nat
  format : Nat
  tiling : Nat
  initialLayout : VkImageLayout
  usage : VkFlags
  samples : Nat
  sharingMode : Nat
deriving DecidableEq, Repr

/-- The fields of `VkImageViewCreateInfo` that `create` fills in. -/
structure VkImageViewCreateInfo where
  image : Handle
  viewType : Nat
  format : Nat
  subresourceRange : VkImageSubresourceRange
deriving DecidableEq, Repr

/-- The fields of `VkSamplerCreateInfo` that `create` fills in.  `maxAnisotropy` holds the
settings level it is converted from; the three level-of-detail floats are the constant `0.0f`,
written `0`. -/
structure VkSamplerCreateInfo where
  magFilter : Nat
  minFilter : Nat
  addressModeU : Nat
  addressModeV : Nat
  addressModeW : Nat
  anisotropyEnable : Bool
  maxAnisotropy : Int
  borderColor : Nat
  unnormalizedCoordinates : Bool
  compareEnable : Bool
  compareOp : Nat
  mipmapMode : Nat
  mipLodBias : Int
  minLod : Int
  maxLod : Int
deriving DecidableEq, Repr

/-- The `VkBufferImageCopy` region built by `toImage`. -/
structure VkBufferImageCopy where
  bufferOffset : Nat
  bufferRowLength : Nat
  bufferImageHeight : Nat
  aspectMask : VkFlags
  mipLevel : Nat
  baseArrayLayer : Nat
  layerCount : Nat
  imageOffset : Int × Int × Int
  imageExtent : Nat × Nat × Nat
deriving DecidableEq, Repr

/-- One call into the Vulkan / VMA driver, with the arguments the source passes. -/
inductive DeviceCall where
  | vkAllocateCommandBuffers (device commandPool : Handle) (level count : Nat)
  | vkBeginCommandBuffer (commandBuffer : Handle) (flags : VkFlags)
  | vkEndCommandBuffer (commandBuffer : Handle)
  | vkQueueSubmit (queue : Handle) (commandBuffer : Handle)
  | vkQueueWaitIdle (queue : Handle)
  | vkFreeCommandBuffers (device commandPool commandBuffer : Handle)
  | vkCmdPipelineBarrier (commandBuffer : Handle) (sourceStage destinationStage : VkFlags)
      (barrier : VkImageMemoryBarrier)
  | vkCmdCopyBufferToImage (commandBuffer buffer image : Handle) (layout : VkImageLayout)
      (region : VkBufferImageCopy)
  | vmaCreateBuffer (allocator : Handle) (size : Nat) (usage : VkFlags) (allocationUsage : Nat)
  | vmaDestroyBuffer (allocator buffer allocation : Handle)
  | vmaMapMemory (allocator allocation : Handle)
  | vmaUnmapMemory (allocator allocation : Handle)
  | vmaCreateImage (allocator : Handle) (createInfo : VkImageCreateInfo) (allocationUsage : Nat)
  | vmaDestroyImage (allocator image allocation : Handle)
  | vkCreateImageView (device : Handle) (createInfo : VkImageViewCreateInfo)
  | vkDestroyImageView (device view : Handle)
  | vkCreateSampler (device : Handle) (createInfo : VkSamplerCreateInfo)
  | vkDestroySampler (device sampler : Handle)
deriving DecidableEq, Repr

/-- Chronological list of the driver calls issued so far. -/
abbrev Trace := List DeviceCall

/-- What the driver answers to a call: its result code and the contents of the (at most two)
output parameters after the call. -/
structure Response where
  result : VkResult
  handle : Handle
  allocation : Handle
deriving DecidableEq, Repr

/-- A driver: its answer to the latest call of a trace. -/
abbrev Device := Trace → Response

/-- Issue one driver call: log it and read the answer. -/
def issue (dev : Device) (c : DeviceCall) (w : Trace) : Response × Trace :=
  (dev (w ++ [c]), w ++ [c])

/-- The C++ exceptions thrown by the sources, one constructor per `throw` site message, and the
command submission failure of the spec (section 7). -/
inductive Exception where
  /-- Thrown as `std::runtime_error("failed to create buffer")`. -/
  | failedToCreateBuffer
  /-- Thrown as `std::runtime_error("failed to create texture image view!")`. -/
  | failedToCreateImageView
  /-- Thrown as `std::runtime_error("failed to create texture sampler!")`. -/
  | failedToCreateSampler
  /-- Thrown as `std::invalid_argument("unsupported layout transition!")`. -/
  | unsupportedLayoutTransition
  /-- Command submission failure (spec section 7), raised by `VulkanGraphicsEngineLink`. -/
  | commandSubmissionFailure
deriving DecidableEq, Repr

/-- Settings object read by sampler creation (only its anisotropy level is used). -/
structure Settings where
  anisotropicFilterLevel : Int
deriving DecidableEq, Repr

/-! ## `RenderEngineLink` (AssetLinking.hpp) -/

/-- The handles behind the pointers of `RenderEngineLink`; `graphicsQueue` is the value of
`device->get_queue(vkb::QueueType::graphics).value()`. -/
structure RenderEngineLink where
  settings : Settings
  device : Handle
  graphicsQueue : Handle
  commandPool : Handle
  allocator : Handle
deriving DecidableEq, Repr

/-- `RenderEngineLink::beginSingleTimeCommands`: both result codes are discarded. -/
def RenderEngineLink.beginSingleTimeCommands (dev : Device) (link : RenderEngineLink)
    (w : Trace) : Handle × Trace :=
  let (r, w1) := issue dev
    (.vkAllocateCommandBuffers link.device link.commandPool VK_COMMAND_BUFFER_LEVEL_PRIMARY 1) w
  let commandBuffer := r.handle
  let (_, w2) := issue dev
    (.vkBeginCommandBuffer commandBuffer VK_COMMAND_BUFFER_USAGE_ONE_TIME_SUBMIT_BIT) w1
  (commandBuffer, w2)

/-- `RenderEngineLink::endSingleTimeCommands`: all result codes are discarded. -/
def RenderEngineLink.endSingleTimeCommands (dev : Device) (link : RenderEngineLink)
    (commandBuffer : Handle) (w : Trace) : Trace :=
  let (_, w1) := issue dev (.vkEndCommandBuffer commandBuffer) w
  let (_, w2) := issue dev (.vkQueueSubmit link.graphicsQueue commandBuffer) w1
  let (_, w3) := issue dev (.vkQueueWaitIdle link.graphicsQueue) w2
  let (_, w4) := issue dev (.vkFreeCommandBuffers link.device link.commandPool commandBuffer) w3
  w4

/-! ## `VulkanGraphicsEngineLink` (used by `ImageManager`, header not among the sources) -/

/-- Modelled from the spec: `VulkanGraphicsEngineLink` (vulkanGraphicsEngineLink.hpp) is included
by imageManager.hpp but is not among the sources.  Section 3 gives its content: references to
device, command pool, memory allocator and settings. -/
structure VulkanGraphicsEngineLink where
  settings : Settings
  device : Handle
  graphicsQueue : Handle
  commandPool : Handle
  allocator : Handle
deriving DecidableEq, Repr

/-- Modelled from the spec: `VulkanGraphicsEngineLink::beginSingleTimeCommands` is not among the
sources.  Section 4.1: `begin()` allocates one primary command buffer from the shared pool and
opens it for single-submission recording; if buffer allocation fails the failure is surfaced as
a distinct error. -/
def VulkanGraphicsEngineLink.beginSingleTimeCommands (dev : Device)
    (link : VulkanGraphicsEngineLink) (w : Trace) : Except Exception Handle × Trace :=
  let (r, w1) := issue dev
    (.vkAllocateCommandBuffers link.device link.commandPool VK_COMMAND_BUFFER_LEVEL_PRIMARY 1) w
  if r.result ≠ VK_SUCCESS then (.error .commandSubmissionFailure, w1)
  else
    let commandBuffer := r.handle
    let (_, w2) := issue dev
      (.vkBeginCommandBuffer commandBuffer VK_COMMAND_BUFFER_USAGE_ONE_TIME_SUBMIT_BIT) w1
    (.ok commandBuffer, w2)

/-- Modelled from the spec: `VulkanGraphicsEngineLink::endSingleTimeCommands` is not among the
sources.  Section 4.1: `end(commandBuffer)` closes recording, submits it alone on the graphics
queue, blocks until the queue drains, then frees the command buffer; section 7: failure to
submit or to wait is a command submission failure. -/
def VulkanGraphicsEngineLink.endSingleTimeCommands (dev : Device)
    (link : VulkanGraphicsEngineLink) (commandBuffer : Handle) (w : Trace) :
    Except Exception Unit × Trace :=
  let (_, w1) := issue dev (.vkEndCommandBuffer commandBuffer) w
  let (r2, w2) := issue dev (.vkQueueSubmit link.graphicsQueue commandBuffer) w1
  if r2.result ≠ VK_SUCCESS then (.error .commandSubmissionFailure, w2)
  else
    let (r3, w3) := issue dev (.vkQueueWaitIdle link.graphicsQueue) w2
    if r3.result ≠ VK_SUCCESS then (.error .commandSubmissionFailure, w3)
    else
      let (_, w4) := issue dev
        (.vkFreeCommandBuffers link.device link.commandPool commandBuffer) w3
      (.ok (), w4)

/-! ## Deferred destruction queue entries -/

/-- The two closures `AllocatedBuffer::create` pushes on its `deletionQueue`. -/
inductive BufferTeardown where
  /-- The lambda `if (buffer != VK_NULL_HANDLE) { vmaDestroyBuffer(allocator, buffer,
  allocation); buffer = VK_NULL_HANDLE; }` -/
  | destroyBuffer
  /-- The lambda `vmaUnmapMemory(allocator, allocation);` -/
  | unmapMemory
deriving DecidableEq, Repr

/-- The three closures the image `create` functions push on their `deletionQueue`. -/
inductive ImageTeardown where
  /-- The lambda `if (image != VK_NULL_HANDLE) { vmaDestroyImage(allocator, image,
  allocation); image = VK_NULL_HANDLE; }` -/
  | destroyImage
  /-- The lambda `vkDestroyImageView(device, view, nullptr); view = VK_NULL_HANDLE;` -/
  | destroyImageView
  /-- The lambda `vkDestroySampler(device, sampler, nullptr); sampler = VK_NULL_HANDLE;` -/
  | destroySampler
deriving DecidableEq, Repr

/-! ## `AllocatedBuffer` (AssetLinking.hpp) -/

/-- The members of `AllocatedBuffer`. -/
structure AllocatedBuffer where
  data : Handle
  buffer : Handle
  deletionQueue : List BufferTeardown
  linkedRenderEngine : RenderEngineLink
  allocation : Handle
deriving DecidableEq, Repr

/-- A default-constructed `AllocatedBuffer` after `setEngineLink(link)`. -/
def AllocatedBuffer.fresh (link : RenderEngineLink) : AllocatedBuffer :=
  { data := VK_NULL_HANDLE, buffer := VK_NULL_HANDLE, deletionQueue := [],
    linkedRenderEngine := link, allocation := VK_NULL_HANDLE }

/-- `AllocatedBuffer::setEngineLink`. -/
def AllocatedBuffer.setEngineLink (renderEngineLink : RenderEngineLink)
    (self : AllocatedBuffer) : AllocatedBuffer :=
  { self with linkedRenderEngine := renderEngineLink }

/-- Body of one closure of the buffer `deletionQueue`, run on the object it captured. -/
def AllocatedBuffer.runTeardown (dev : Device) (f : BufferTeardown)
    (st : AllocatedBuffer × Trace) : AllocatedBuffer × Trace :=
  match f with
  | .destroyBuffer =>
    if st.1.buffer ≠ VK_NULL_HANDLE then
      let (_, w1) := issue dev
        (.vmaDestroyBuffer st.1.linkedRenderEngine.allocator st.1.buffer st.1.allocation) st.2
      ({ st.1 with buffer := VK_NULL_HANDLE }, w1)
    else st
  | .unmapMemory =>
    let (_, w1) := issue dev
      (.vmaUnmapMemory st.1.linkedRenderEngine.allocator st.1.allocation) st.2
    (st.1, w1)

/-- `AllocatedBuffer::destroy`. -/
def AllocatedBuffer.destroy (dev : Device) (self : AllocatedBuffer) (w : Trace) :
    AllocatedBuffer × Trace :=
  let st := self.deletionQueue.foldl (fun st f => AllocatedBuffer.runTeardown dev f st) (self, w)
  ({ st.1 with deletionQueue := [], data := VK_NULL_HANDLE }, st.2)

/-- `AllocatedBuffer::create`; the returned value is the mapped pointer. -/
def AllocatedBuffer.create (dev : Device) (size : Nat) (usage : VkFlags) (allocationUsage : Nat)
    (self : AllocatedBuffer) (w : Trace) : Except Exception Handle × AllocatedBuffer × Trace :=
  let (r, w1) := issue dev
    (.vmaCreateBuffer self.linkedRenderEngine.allocator size usage allocationUsage) w
  let self1 := { self with buffer := r.handle, allocation := r.allocation }
  if r.result ≠ VK_SUCCESS then (.error .failedToCreateBuffer, self1, w1)
  else
    let self2 := { self1 with deletionQueue := .destroyBuffer :: self1.deletionQueue }
    let (m, w2) := issue dev
      (.vmaMapMemory self2.linkedRenderEngine.allocator self2.allocation) w1
    let self3 := { self2 with data := m.handle }
    let self4 := { self3 with deletionQueue := .unmapMemory :: self3.deletionQueue }
    (.ok self4.data, self4, w2)

/-- The copy region `toImage` builds. -/
def copyRegion (width height : Nat) : VkBufferImageCopy :=
  { bufferOffset := 0, bufferRowLength := 0, bufferImageHeight := 0,
    aspectMask := VK_IMAGE_ASPECT_COLOR_BIT, mipLevel := 0, baseArrayLayer := 0, layerCount := 1,
    imageOffset := (0, 0, 0), imageExtent := (width, height, 1) }

/-- `AllocatedBuffer::toImage`. -/
def AllocatedBuffer.toImage (dev : Device) (self : AllocatedBuffer) (image : Handle)
    (width height : Nat) (w : Trace) : Trace :=
  let region := copyRegion width height
  let (commandBuffer, w1) := self.linkedRenderEngine.beginSingleTimeCommands dev w
  let (_, w2) := issue dev
    (.vkCmdCopyBufferToImage commandBuffer self.buffer image
      VK_IMAGE_LAYOUT_TRANSFER_DST_OPTIMAL region) w1
  self.linkedRenderEngine.endSingleTimeCommands dev commandBuffer w2

/-! ## `BufferManager` (used by `ImageManager::create`, header not among the sources) -/

/-- Modelled from the spec: `BufferManager` (bufferManager.hpp) is included by imageManager.hpp
but is not among the sources.  Section 4.3: a Buffer Resource owns a device buffer and holds a
reference to the Device Link. -/
structure BufferManager where
  buffer : Handle
  linkedRenderEngine : VulkanGraphicsEngineLink
deriving DecidableEq, Repr

/-- Modelled from the spec: `BufferManager::toImage` is not among the sources.  Section 4.3,
`copyToImage(imageHandle, width, height)`: records, via the One-Shot Command Executor, a region
copy from the full buffer contents into the top-level mip of the image at offset (0,0,0),
covering `width × height × 1` texels, the image being in transfer-destination layout. -/
def BufferManager.toImage (dev : Device) (self : BufferManager) (image : Handle)
    (width height : Nat) (w : Trace) : Except Exception Unit × Trace :=
  let region := copyRegion width height
  match self.linkedRenderEngine.beginSingleTimeCommands dev w with
  | (.error e, w1) => (.error e, w1)
  | (.ok commandBuffer, w1) =>
    let (_, w2) := issue dev
      (.vkCmdCopyBufferToImage commandBuffer self.buffer image
        VK_IMAGE_LAYOUT_TRANSFER_DST_OPTIMAL region) w1
    self.linkedRenderEngine.endSingleTimeCommands dev commandBuffer w2

/-! ## Barrier selection shared by the two `transition` functions -/

/-- The barrier as `transition` initialises it before the `if` chain (`VkImageMemoryBarrier
barrier{}` zero-initialises the access masks). -/
def initialBarrier (image : Handle) (oldLayout newLayout : VkImageLayout) :
    VkImageMemoryBarrier :=
  { srcAccessMask := 0, dstAccessMask := 0,
    oldLayout := oldLayout, newLayout := newLayout,
    srcQueueFamilyIndex := VK_QUEUE_FAMILY_IGNORED,
    dstQueueFamilyIndex := VK_QUEUE_FAMILY_IGNORED,
    image := image,
    subresourceRange :=
      { aspectMask :=
          if newLayout = VK_IMAGE_LAYOUT_DEPTH_STENCIL_ATTACHMENT_OPTIMAL
          then VK_IMAGE_ASPECT_DEPTH_BIT ||| VK_IMAGE_ASPECT_STENCIL_BIT
          else VK_IMAGE_ASPECT_COLOR_BIT,
        baseMipLevel := 0, levelCount := 1, baseArrayLayer := 0, layerCount := 1 } }

/-- The `if / else if / else if / else throw` chain of `transition` (identical text in
`ImageManager::transition` and `AllocatedImage::transition`): the completed barrier with
`sourceStage` and `destinationStage`, or the `std::invalid_argument`. -/
def selectBarrier (image : Handle) (oldLayout newLayout : VkImageLayout) :
    Except Exception (VkImageMemoryBarrier × VkFlags × VkFlags) :=
  let barrier := initialBarrier image oldLayout newLayout
  if oldLayout = VK_IMAGE_LAYOUT_UNDEFINED ∧
      newLayout = VK_IMAGE_LAYOUT_TRANSFER_DST_OPTIMAL then
    .ok ({ barrier with srcAccessMask := 0, dstAccessMask := VK_ACCESS_TRANSFER_WRITE_BIT },
      VK_PIPELINE_STAGE_TOP_OF_PIPE_BIT, VK_PIPELINE_STAGE_TRANSFER_BIT)
  else if oldLayout = VK_IMAGE_LAYOUT_TRANSFER_DST_OPTIMAL ∧
      newLayout = VK_IMAGE_LAYOUT_SHADER_READ_ONLY_OPTIMAL then
    .ok ({ barrier with srcAccessMask := VK_ACCESS_TRANSFER_WRITE_BIT,
                        dstAccessMask := VK_ACCESS_SHADER_READ_BIT },
      VK_PIPELINE_STAGE_TRANSFER_BIT, VK_PIPELINE_STAGE_FRAGMENT_SHADER_BIT)
  else if oldLayout = VK_IMAGE_LAYOUT_UNDEFINED ∧
      newLayout = VK_IMAGE_LAYOUT_DEPTH_STENCIL_ATTACHMENT_OPTIMAL then
    .ok ({ barrier with srcAccessMask := 0,
                        dstAccessMask := VK_ACCESS_DEPTH_STENCIL_ATTACHMENT_READ_BIT |||
                          VK_ACCESS_DEPTH_STENCIL_ATTACHMENT_WRITE_BIT },
      VK_PIPELINE_STAGE_TOP_OF_PIPE_BIT, VK_PIPELINE_STAGE_EARLY_FRAGMENT_TESTS_BIT)
  else .error .unsupportedLayoutTransition

/-! ## Descriptions built by the image `create` functions -/

/-- The `imageCreateInfo` of `create`; the `int` arguments land in `uint32_t` fields. -/
def imageCreateInfo (format tiling msaaSamples : Nat) (usage : VkFlags)
    (mipLevels width height : Int) : VkImageCreateInfo :=
  { imageType := VK_IMAGE_TYPE_2D,
    extentWidth := toUInt32 width, extentHeight := toUInt32 height, extentDepth := 1,
    mipLevels := toUInt32 mipLevels, arrayLayers := 1,
    format := format, tiling := tiling,
    initialLayout := VK_IMAGE_LAYOUT_UNDEFINED,
    usage := usage, samples := msaaSamples,
    sharingMode := VK_SHARING_MODE_EXCLUSIVE }

/-- The `imageViewCreateInfo` of `create`; `depth` is the condition of the aspect ternary. -/
def imageViewCreateInfo (image : Handle) (format : Nat) (depth : Bool) : VkImageViewCreateInfo :=
  { image := image, viewType := VK_IMAGE_VIEW_TYPE_2D, format := format,
    subresourceRange :=
      { aspectMask := if depth then VK_IMAGE_ASPECT_DEPTH_BIT else VK_IMAGE_ASPECT_COLOR_BIT,
        baseMipLevel := 0, levelCount := 1, baseArrayLayer := 0, layerCount := 1 } }

/-- The `samplerInfo` of `create`. -/
def samplerInfo (settings : Settings) : VkSamplerCreateInfo :=
  { magFilter := VK_FILTER_LINEAR, minFilter := VK_FILTER_LINEAR,
    addressModeU := VK_SAMPLER_ADDRESS_MODE_REPEAT,
    addressModeV := VK_SAMPLER_ADDRESS_MODE_REPEAT,
    addressModeW := VK_SAMPLER_ADDRESS_MODE_REPEAT,
    anisotropyEnable := decide (settings.anisotropicFilterLevel > 0),
    maxAnisotropy := settings.anisotropicFilterLevel,
    borderColor := VK_BORDER_COLOR_INT_OPAQUE_BLACK,
    unnormalizedCoordinates := false,
    compareEnable := false, compareOp := VK_COMPARE_OP_ALWAYS,
    mipmapMode := VK_SAMPLER_MIPMAP_MODE_LINEAR,
    mipLodBias := 0, minLod := 0, maxLod := 0 }

/-! ## `ImageManager` (imageManager.hpp) -/

/-- The enumeration `ImageType`. -/
inductive ImageType where
  | DEPTH
  | COLOR
  | TEXTURE
deriving DecidableEq, Repr

/-- The members of `ImageManager`; `linkedRenderEngine` is the link the pointer refers to. -/
structure ImageManager where
  image : Handle
  view : Handle
  sampler : Handle
  imageFormat : Nat
  imageLayout : VkImageLayout
  deletionQueue : List ImageTeardown
  linkedRenderEngine : VulkanGraphicsEngineLink
  allocation : Handle
deriving DecidableEq, Repr

/-- A default-constructed `ImageManager` after `setEngineLink(link)`: every member is
value-initialised (`{}`), so handles are null, the layout is `VK_IMAGE_LAYOUT_UNDEFINED` and the
queue is empty. -/
def ImageManager.fresh (link : VulkanGraphicsEngineLink) : ImageManager :=
  { image := VK_NULL_HANDLE, view := VK_NULL_HANDLE, sampler := VK_NULL_HANDLE,
    imageFormat := 0, imageLayout := VK_IMAGE_LAYOUT_UNDEFINED, deletionQueue := [],
    linkedRenderEngine := link, allocation := VK_NULL_HANDLE }

/-- `ImageManager::setEngineLink`. -/
def ImageManager.setEngineLink (engineLink : VulkanGraphicsEngineLink) (self : ImageManager) :
    ImageManager :=
  { self with linkedRenderEngine := engineLink }

/-- Body of one closure of the `ImageManager` `deletionQueue`, run on the object it captured. -/
def ImageManager.runTeardown (dev : Device) (f : ImageTeardown) (st : ImageManager × Trace) :
    ImageManager × Trace :=
  match f with
  | .destroyImage =>
    if st.1.image ≠ VK_NULL_HANDLE then
      let (_, w1) := issue dev
        (.vmaDestroyImage st.1.linkedRenderEngine.allocator st.1.image st.1.allocation) st.2
      ({ st.1 with image := VK_NULL_HANDLE }, w1)
    else st
  | .destroyImageView =>
    let (_, w1) := issue dev (.vkDestroyImageView st.1.linkedRenderEngine.device st.1.view) st.2
    ({ st.1 with view := VK_NULL_HANDLE }, w1)
  | .destroySampler =>
    let (_, w1) := issue dev (.vkDestroySampler st.1.linkedRenderEngine.device st.1.sampler) st.2
    ({ st.1 with sampler := VK_NULL_HANDLE }, w1)

/-- `ImageManager::destroy`. -/
def ImageManager.destroy (dev : Device) (self : ImageManager) (w : Trace) :
    ImageManager × Trace :=
  let st := self.deletionQueue.foldl (fun st f => ImageManager.runTeardown dev f st) (self, w)
  ({ st.1 with deletionQueue := [] }, st.2)

/-- `ImageManager::transition`. -/
def ImageManager.transition (dev : Device) (oldLayout newLayout : VkImageLayout)
    (self : ImageManager) (w : Trace) : Except Exception Unit × ImageManager × Trace :=
  match selectBarrier self.image oldLayout newLayout with
  | .error e => (.error e, self, w)
  | .ok (barrier, sourceStage, destinationStage) =>
    match self.linkedRenderEngine.beginSingleTimeCommands dev w with
    | (.error e, w1) => (.error e, self, w1)
    | (.ok commandBuffer, w1) =>
      let (_, w2) := issue dev
        (.vkCmdPipelineBarrier commandBuffer sourceStage destinationStage barrier) w1
      match self.linkedRenderEngine.endSingleTimeCommands dev commandBuffer w2 with
      | (.error e, w3) => (.error e, self, w3)
      | (.ok _, w3) => (.ok (), { self with imageLayout := newLayout }, w3)

/-- The part of `ImageManager::create` inside `if (imageType == ImageType::TEXTURE)`. -/
def ImageManager.createSampler (dev : Device) (self : ImageManager) (w : Trace) :
    Except Exception Unit × ImageManager × Trace :=
  let (r, w1) := issue dev
    (.vkCreateSampler self.linkedRenderEngine.device
      (samplerInfo self.linkedRenderEngine.settings)) w
  let self1 := { self with sampler := r.handle }
  if r.result ≠ VK_SUCCESS then (.error .failedToCreateSampler, self1, w1)
  else
    let self2 := { self1 with deletionQueue := .destroySampler :: self1.deletionQueue }
    self2.transition dev VK_IMAGE_LAYOUT_TRANSFER_DST_OPTIMAL
      VK_IMAGE_LAYOUT_SHADER_READ_ONLY_OPTIMAL w1

/-- The part of `ImageManager::create` inside `if (dataSource != nullptr)`. -/
def ImageManager.upload (dev : Device) (width height : Int) (imageType : ImageType)
    (dataSource : BufferManager) (self : ImageManager) (w : Trace) :
    Except Exception Unit × ImageManager × Trace :=
  match self.transition dev VK_IMAGE_LAYOUT_UNDEFINED VK_IMAGE_LAYOUT_TRANSFER_DST_OPTIMAL w with
  | (.error e, self1, w1) => (.error e, self1, w1)
  | (.ok _, self1, w1) =>
    match dataSource.toImage dev self1.image (toUInt32 width) (toUInt32 height) w1 with
    | (.error e, w2) => (.error e, self1, w2)
    | (.ok _, w2) =>
      if imageType = ImageType.TEXTURE then self1.createSampler dev w2
      else (.ok (), self1, w2)

/-- `ImageManager::create`; `dataSource = none` is the null pointer. -/
def ImageManager.create (dev : Device) (format tiling msaaSamples : Nat) (usage : VkFlags)
    (allocationUsage : Nat) (mipLevels width height : Int) (imageType : ImageType)
    (dataSource : Option BufferManager) (self : ImageManager) (w : Trace) :
    Except Exception Unit × ImageManager × Trace :=
  let (r, w1) := issue dev
    (.vmaCreateImage self.linkedRenderEngine.allocator
      (imageCreateInfo format tiling msaaSamples usage mipLevels width height) allocationUsage) w
  let self1 := { self with image := r.handle, allocation := r.allocation }
  let self2 := { self1 with deletionQueue := .destroyImage :: self1.deletionQueue }
  let self3 := { self2 with imageFormat := format, imageLayout := VK_IMAGE_LAYOUT_UNDEFINED }
  let (v, w2) := issue dev
    (.vkCreateImageView self3.linkedRenderEngine.device
      (imageViewCreateInfo self3.image format (decide (imageType = ImageType.DEPTH)))) w1
  let self4 := { self3 with view := v.handle }
  if v.result ≠ VK_SUCCESS then (.error .failedToCreateImageView, self4, w2)
  else
    let self5 := { self4 with deletionQueue := .destroyImageView :: self4.deletionQueue }
    match dataSource with
    | none => (.ok (), self5, w2)
    | some source => self5.upload dev width height imageType source w2

/-! ## `AllocatedImage` (AssetLinking.hpp) -/

/-- The members of `AllocatedImage` (it tracks no layout). -/
structure AllocatedImage where
  image : Handle
  view : Handle
  sampler : Handle
  deletionQueue : List ImageTeardown
  linkedRenderEngine : RenderEngineLink
  allocation : Handle
deriving DecidableEq, Repr

/-- A default-constructed `AllocatedImage` after `setEngineLink(link)`. -/
def AllocatedImage.fresh (link : RenderEngineLink) : AllocatedImage :=
  { image := VK_NULL_HANDLE, view := VK_NULL_HANDLE, sampler := VK_NULL_HANDLE,
    deletionQueue := [], linkedRenderEngine := link, allocation := VK_NULL_HANDLE }

/-- `AllocatedImage::setEngineLink`. -/
def AllocatedImage.setEngineLink (renderEngineLink : RenderEngineLink) (self : AllocatedImage) :
    AllocatedImage :=
  { self with linkedRenderEngine := renderEngineLink }

/-- Body of one closure of the `AllocatedImage` `deletionQueue`, run on the object it
captured. -/
def AllocatedImage.runTeardown (dev : Device) (f : ImageTeardown) (st : AllocatedImage × Trace) :
    AllocatedImage × Trace :=
  match f with
  | .destroyImage =>
    if st.1.image ≠ VK_NULL_HANDLE then
      let (_, w1) := issue dev
        (.vmaDestroyImage st.1.linkedRenderEngine.allocator st.1.image st.1.allocation) st.2
      ({ st.1 with image := VK_NULL_HANDLE }, w1)
    else st
  | .destroyImageView =>
    let (_, w1) := issue dev (.vkDestroyImageView st.1.linkedRenderEngine.device st.1.view) st.2
    ({ st.1 with view := VK_NULL_HANDLE }, w1)
  | .destroySampler =>
    let (_, w1) := issue dev (.vkDestroySampler st.1.linkedRenderEngine.device st.1.sampler) st.2
    ({ st.1 with sampler := VK_NULL_HANDLE }, w1)

/-- `AllocatedImage::destroy`. -/
def AllocatedImage.destroy (dev : Device) (self : AllocatedImage) (w : Trace) :
    AllocatedImage × Trace :=
  let st := self.deletionQueue.foldl (fun st f => AllocatedImage.runTeardown dev f st) (self, w)
  ({ st.1 with deletionQueue := [] }, st.2)

/-- `AllocatedImage::transition` (a `const` member: the object is not modified). -/
def AllocatedImage.transition (dev : Device) (oldLayout newLayout : VkImageLayout)
    (self : AllocatedImage) (w : Trace) : Except Exception Unit × Trace :=
  match selectBarrier self.image oldLayout newLayout with
  | .error e => (.error e, w)
  | .ok (barrier, sourceStage, destinationStage) =>
    let (commandBuffer, w1) := self.linkedRenderEngine.beginSingleTimeCommands dev w
    let (_, w2) := issue dev
      (.vkCmdPipelineBarrier commandBuffer sourceStage destinationStage barrier) w1
    (.ok (), self.linkedRenderEngine.endSingleTimeCommands dev commandBuffer w2)

/-- The part of `AllocatedImage::create` inside `if (asTexture)`. -/
def AllocatedImage.createSampler (dev : Device) (self : AllocatedImage) (w : Trace) :
    Except Exception Unit × AllocatedImage × Trace :=
  let (r, w1) := issue dev
    (.vkCreateSampler self.linkedRenderEngine.device
      (samplerInfo self.linkedRenderEngine.settings)) w
  let self1 := { self with sampler := r.handle }
  if r.result ≠ VK_SUCCESS then (.error .failedToCreateSampler, self1, w1)
  else
    let self2 := { self1 with deletionQueue := .destroySampler :: self1.deletionQueue }
    match self2.transition dev VK_IMAGE_LAYOUT_TRANSFER_DST_OPTIMAL
      VK_IMAGE_LAYOUT_SHADER_READ_ONLY_OPTIMAL w1 with
    | (.error e, w2) => (.error e, self2, w2)
    | (.ok _, w2) => (.ok (), self2, w2)

/-- The part of `AllocatedImage::create` inside `if (dataSource != nullptr)`. -/
def AllocatedImage.upload (dev : Device) (width height : Int) (asTexture : Bool)
    (dataSource : AllocatedBuffer) (self : AllocatedImage) (w : Trace) :
    Except Exception Unit × AllocatedImage × Trace :=
  match self.transition dev VK_IMAGE_LAYOUT_UNDEFINED VK_IMAGE_LAYOUT_TRANSFER_DST_OPTIMAL w with
  | (.error e, w1) => (.error e, self, w1)
  | (.ok _, w1) =>
    let w2 := dataSource.toImage dev self.image (toUInt32 width) (toUInt32 height) w1
    if asTexture then self.createSampler dev w2
    else (.ok (), self, w2)

/-- `AllocatedImage::create`; `dataSource = none` is the null pointer. -/
def AllocatedImage.create (dev : Device) (format tiling msaaSamples : Nat) (usage : VkFlags)
    (allocationUsage : Nat) (mipLevels width height : Int) (depth asTexture : Bool)
    (dataSource : Option AllocatedBuffer) (self : AllocatedImage) (w : Trace) :
    Except Exception Unit × AllocatedImage × Trace :=
  let (r, w1) := issue dev
    (.vmaCreateImage self.linkedRenderEngine.allocator
      (imageCreateInfo format tiling msaaSamples usage mipLevels width height) allocationUsage) w
  let self1 := { self with image := r.handle, allocation := r.allocation }
  let self2 := { self1 with deletionQueue := .destroyImage :: self1.deletionQueue }
  let (v, w2) := issue dev
    (.vkCreateImageView self2.linkedRenderEngine.device
      (imageViewCreateInfo self2.image format depth)) w1
  let self3 := { self2 with view := v.handle }
  if v.result ≠ VK_SUCCESS then (.error .failedToCreateImageView, self3, w2)
  else
    let self4 := { self3 with deletionQueue := .destroyImageView :: self3.deletionQueue }
    match dataSource with
    | none => (.ok (), self4, w2)
    | some source => self4.upload dev width height asTexture source w2

/-! ## `Vertex` (AssetLinking.hpp) -/

def VK_FORMAT_R32G32_SFLOAT : Nat := 103
def VK_FORMAT_R32G32B32_SFLOAT : Nat := 106

/-- The data members of `Vertex`, in declaration order: `pos`, `color`, `texCoord`, `normal`. -/
inductive VertexMember where
  | pos
  | color
  | texCoord
  | normal
deriving DecidableEq, Repr

/-- Number of `float` components of the glm type of a member: `glm::vec3` for `pos`, `color`
and `normal`, `glm::vec2` for `texCoord`. -/
def VertexMember.components : VertexMember → Nat
  | .pos => 3
  | .color => 3
  | .texCoord => 2
  | .normal => 3

/-- Size in bytes of a member: a glm vector is a packed sequence of 4-byte floats. -/
def VertexMember.sizeof (m : VertexMember) : Nat := 4 * m.components

/-- The members of `Vertex` in declaration order. -/
def Vertex.members : List VertexMember := [.pos, .color, .texCoord, .normal]

/-- The value of `offsetof(Vertex, m)`: every member has the alignment of `float`, so each
member starts where the previous one ends. -/
def Vertex.offsetof (m : VertexMember) : Nat :=
  ((Vertex.members.takeWhile (fun x => x != m)).map VertexMember.sizeof).sum

/-- The members of `VkVertexInputAttributeDescription`. -/
structure VkVertexInputAttributeDescription where
  location : Nat
  binding : Nat
  format : Nat
  offset : Nat
deriving DecidableEq, Repr

/-- Names of the members of `VkVertexInputAttributeDescription`. -/
inductive AttributeMember where
  | binding
  | location
  | format
  | offset
deriving DecidableEq, Repr

/-- One statement `attributeDescriptions[index].member = value;`. -/
structure AttributeAssignment where
  index : Nat
  member : AttributeMember
  value : Nat
deriving DecidableEq, Repr

/-- Store `value` in one member of a description. -/
def VkVertexInputAttributeDescription.assign (d : VkVertexInputAttributeDescription)
    (member : AttributeMember) (value : Nat) : VkVertexInputAttributeDescription :=
  match member with
  | .binding => { d with binding := value }
  | .location => { d with location := value }
  | .format => { d with format := value }
  | .offset => { d with offset := value }

/-- Apply `f` to the element at `index` of a list (no change when there is none). -/
def updateElement {α : Type} (f : α → α) : Nat → List α → List α
  | _, [] => []
  | 0, x :: xs => f x :: xs
  | n + 1, x :: xs => x :: updateElement f n xs

/-- The local `std::array<VkVertexInputAttributeDescription, 3>` while the body runs.
`std::array::operator[]` does no bounds check, so a store at an index that is not below the size
has undefined behaviour in C++; such stores are kept aside in `outOfBounds`, in order. -/
structure AttributeArray where
  elements : List VkVertexInputAttributeDescription
  outOfBounds : List AttributeAssignment
deriving DecidableEq, Repr

/-- Execute one assignment statement on the array. -/
def AttributeArray.assign (a : AttributeArray) (s : AttributeAssignment) : AttributeArray :=
  if s.index < a.elements.length then
    { a with elements := updateElement (fun d => d.assign s.member s.value) s.index a.elements }
  else { a with outOfBounds := a.outOfBounds ++ [s] }

/-- The sixteen assignment statements of `Vertex::getAttributeDescriptions`, in source order. -/
def Vertex.attributeAssignments : List AttributeAssignment :=
  [ { index := 0, member := .binding, value := 0 },
    { index := 0, member := .location, value := 0 },
    { index := 0, member := .format, value := VK_FORMAT_R32G32B32_SFLOAT },
    { index := 0, member := .offset, value := Vertex.offsetof .pos },
    { index := 1, member := .binding, value := 0 },
    { index := 1, member := .location, value := 1 },
    { index := 1, member := .format, value := VK_FORMAT_R32G32B32_SFLOAT },
    { index := 1, member := .offset, value := Vertex.offsetof .color },
    { index := 2, member := .binding, value := 0 },
    { index := 2, member := .location, value := 2 },
    { index := 2, member := .format, value := VK_FORMAT_R32G32_SFLOAT },
    { index := 2, member := .offset, value := Vertex.offsetof .texCoord },
    { index := 3, member := .binding, value := 0 },
    { index := 3, member := .location, value := 3 },
    { index := 3, member := .format, value := VK_FORMAT_R32G32_SFLOAT },
    { index := 3, member := .offset, value := Vertex.offsetof .texCoord } ]

/-- `Vertex::getAttributeDescriptions`: the value-initialised three-element array after the
sixteen assignments. -/
def Vertex.getAttributeDescriptions : AttributeArray :=
  Vertex.attributeAssignments.foldl AttributeArray.assign
    { elements := List.replicate 3
        { location := 0, binding := 0, format := 0, offset := 0 },
      outOfBounds := [] }

/-! ## Vocabulary for stating traces -/

/-- The `vkAllocateCommandBuffers` call that opens a one-shot round trip. -/
def allocateCall (device commandPool : Handle) : DeviceCall :=
  .vkAllocateCommandBuffers device commandPool VK_COMMAND_BUFFER_LEVEL_PRIMARY 1

/-- The command buffer handle the driver hands out when a round trip starts after trace `w`. -/
def allocatedCommandBuffer (dev : Device) (device commandPool : Handle) (w : Trace) : Handle :=
  (dev (w ++ [allocateCall device commandPool])).handle

/-- The seven driver calls of one complete round trip of the one-shot executor (allocate,
begin, the recorded command, end, submit, wait, free), in the order `beginSingleTimeCommands`
and `endSingleTimeCommands` issue them. -/
def roundTrip (device graphicsQueue commandPool commandBuffer : Handle)
    (recorded : DeviceCall) : List DeviceCall :=
  [allocateCall device commandPool,
   .vkBeginCommandBuffer commandBuffer VK_COMMAND_BUFFER_USAGE_ONE_TIME_SUBMIT_BIT,
   recorded,
   .vkEndCommandBuffer commandBuffer,
   .vkQueueSubmit graphicsQueue commandBuffer,
   .vkQueueWaitIdle graphicsQueue,
   .vkFreeCommandBuffers device commandPool commandBuffer]

/-- What a driver call contributes to an upload: a recorded layout barrier (with its layout
pair), a recorded buffer-to-image copy, or a sampler creation. -/
inductive Step where
  | barrier (oldLayout newLayout : VkImageLayout)
  | copyBufferToImage
  | createSampler
deriving DecidableEq, Repr

/-- The step a driver call stands for, if any. -/
def DeviceCall.step : DeviceCall → Option Step
  | .vkCmdPipelineBarrier _ _ _ barrier => some (.barrier barrier.oldLayout barrier.newLayout)
  | .vkCmdCopyBufferToImage _ _ _ _ _ => some .copyBufferToImage
  | .vkCreateSampler _ _ => some .createSampler
  | _ => none

/-- The barriers, copies and sampler creations of a trace, in order. -/
def steps (w : Trace) : List Step := w.filterMap DeviceCall.step

/-! ## Concrete inputs used to instantiate the theorems -/

/-- A driver that succeeds at every call and hands out fresh non-null handles. -/
def okDevice : Device := fun t =>
  { result := VK_SUCCESS, handle := t.length, allocation := t.length + 100 }

/-- A sample link for `ImageManager` and `BufferManager`. -/
def sampleVulkanLink : VulkanGraphicsEngineLink :=
  { settings := { anisotropicFilterLevel := 16 }, device := 1, graphicsQueue := 2,
    commandPool := 3, allocator := 4 }

/-- A sample link for `AllocatedBuffer` and `AllocatedImage`. -/
def sampleRenderLink : RenderEngineLink :=
  { settings := { anisotropicFilterLevel := 16 }, device := 1, graphicsQueue := 2,
    commandPool := 3, allocator := 4 }

/-- A sample data source for `ImageManager::create`. -/
def sampleSource : BufferManager := { buffer := 77, linkedRenderEngine := sampleVulkanLink }

/-- A sample data source for `AllocatedImage::create`. -/
def sampleAllocatedSource : AllocatedBuffer :=
  { data := 5, buffer := 77, deletionQueue := [.unmapMemory, .destroyBuffer],
    linkedRenderEngine := sampleRenderLink, allocation := 78 }

/-- A driver like `okDevice` except that `vmaMapMemory` fails (`VK_ERROR_MEMORY_MAP_FAILED`,
as for memory that is not host-visible) and leaves the pointer null. -/
def mapFailDevice : Device := fun t =>
  match t.getLast? with
  | some (.vmaMapMemory _ _) => { result := -5, handle := VK_NULL_HANDLE, allocation := 0 }
  | _ => okDevice t

/-- A driver like `okDevice` except that `vkCreateImageView` fails
(`VK_ERROR_OUT_OF_HOST_MEMORY`) and leaves the handle null. -/
def viewFailDevice : Device := fun t =>
  match t.getLast? with
  | some (.vkCreateImageView _ _) => { result := -1, handle := VK_NULL_HANDLE, allocation := 0 }
  | _ => okDevice t

/-- A driver like `okDevice` except that `vkCreateSampler` fails
(`VK_ERROR_OUT_OF_HOST_MEMORY`) and leaves the handle null. -/
def samplerFailDevice : Device := fun t =>
  match t.getLast? with
  | some (.vkCreateSampler _ _) => { result := -1, handle := VK_NULL_HANDLE, allocation := 0 }
  | _ => okDevice t

/-- A driver like `okDevice` except that `vmaCreateImage` fails
(`VK_ERROR_OUT_OF_DEVICE_MEMORY`) and leaves the image and allocation handles null. -/
def imageAllocFailDevice : Device := fun t =>
  match t.getLast? with
  | some (.vmaCreateImage _ _ _) =>
    { result := -2, handle := VK_NULL_HANDLE, allocation := VK_NULL_HANDLE }
  | _ => okDevice t

/-- A driver like `okDevice` except that `vkAllocateCommandBuffers` fails
(`VK_ERROR_OUT_OF_DEVICE_MEMORY`, handle left null) and `vkQueueSubmit` and `vkQueueWaitIdle`
fail (`VK_ERROR_DEVICE_LOST`). -/
def commandFailDevice : Device := fun t =>
  match t.getLast? with
  | some (.vkAllocateCommandBuffers _ _ _ _) =>
    { result := -2, handle := VK_NULL_HANDLE, allocation := 0 }
  | some (.vkQueueSubmit _ _) => { result := -4, handle := 0, allocation := 0 }
  | some (.vkQueueWaitIdle _) => { result := -4, handle := 0, allocation := 0 }
  | _ => okDevice t

/-! ## Layout transitions -/

/-- The `if` chain of `transition` throws exactly outside the three recognised pairs. -/
theorem selectBarrier_error_iff (image : Handle) (oldLayout newLayout : VkImageLayout) :
    selectBarrier image oldLayout newLayout = .error .unsupportedLayoutTransition ↔
      ¬ ((oldLayout = VK_IMAGE_LAYOUT_UNDEFINED ∧
            newLayout = VK_IMAGE_LAYOUT_TRANSFER_DST_OPTIMAL) ∨
          (oldLayout = VK_IMAGE_LAYOUT_TRANSFER_DST_OPTIMAL ∧
            newLayout = VK_IMAGE_LAYOUT_SHADER_READ_ONLY_OPTIMAL) ∨
          (oldLayout = VK_IMAGE_LAYOUT_UNDEFINED ∧
            newLayout = VK_IMAGE_LAYOUT_DEPTH_STENCIL_ATTACHMENT_OPTIMAL)) := by
  unfold selectBarrier
  simp only
  by_cases h1 : oldLayout = VK_IMAGE_LAYOUT_UNDEFINED ∧
      newLayout = VK_IMAGE_LAYOUT_TRANSFER_DST_OPTIMAL
  · rw [if_pos h1]
    simp only [reduceCtorEq, false_iff, not_not]
    exact Or.inl h1
  · rw [if_neg h1]
    by_cases h2 : oldLayout = VK_IMAGE_LAYOUT_TRANSFER_DST_OPTIMAL ∧
        newLayout = VK_IMAGE_LAYOUT_SHADER_READ_ONLY_OPTIMAL
    · rw [if_pos h2]
      simp only [reduceCtorEq, false_iff, not_not]
      exact Or.inr (Or.inl h2)
    · rw [if_neg h2]
      by_cases h3 : oldLayout = VK_IMAGE_LAYOUT_UNDEFINED ∧
          newLayout = VK_IMAGE_LAYOUT_DEPTH_STENCIL_ATTACHMENT_OPTIMAL
      · rw [if_pos h3]
        simp only [reduceCtorEq, false_iff, not_not]
        exact Or.inr (Or.inr h3)
      · rw [if_neg h3]
        simp only [true_iff]
        rintro (h | h | h)
        · exact h1 h
        · exact h2 h
        · exact h3 h

/-- The spec-modelled executor never raises the unsupported-transition error when it begins. -/
theorem VulkanGraphicsEngineLink_begin_error (dev : Device) (link : VulkanGraphicsEngineLink)
    (w : Trace) (e : Exception) (w1 : Trace)
    (h : link.beginSingleTimeCommands dev w = (.error e, w1)) :
    e = .commandSubmissionFailure := by
  unfold VulkanGraphicsEngineLink.beginSingleTimeCommands issue at h
  simp only at h
  split at h
  · simp only [Prod.mk.injEq, Except.error.injEq] at h
    exact h.1.symm
  · simp at h

/-- The spec-modelled executor never raises the unsupported-transition error when it ends. -/
theorem VulkanGraphicsEngineLink_end_error (dev : Device) (link : VulkanGraphicsEngineLink)
    (cb : Handle) (w : Trace) (e : Exception) (w1 : Trace)
    (h : link.endSingleTimeCommands dev cb w = (.error e, w1)) :
    e = .commandSubmissionFailure := by
  unfold VulkanGraphicsEngineLink.endSingleTimeCommands issue at h
  simp only at h
  split at h
  · simp only [Prod.mk.injEq, Except.error.injEq] at h
    exact h.1.symm
  · split at h
    · simp only [Prod.mk.injEq, Except.error.injEq] at h
      exact h.1.symm
    · simp at h

/-- `ImageManager::transition` throws `invalid_argument` exactly when the `if` chain does. -/
theorem ImageManager_transition_unsupported_iff (dev : Device)
    (oldLayout newLayout : VkImageLayout) (self : ImageManager) (w : Trace) :
    (self.transition dev oldLayout newLayout w).1 = .error .unsupportedLayoutTransition ↔
      selectBarrier self.image oldLayout newLayout = .error .unsupportedLayoutTransition := by
  unfold ImageManager.transition
  cases hsel : selectBarrier self.image oldLayout newLayout with
  | error e => simp
  | ok b =>
    obtain ⟨barrier, sourceStage, destinationStage⟩ := b
    simp only [reduceCtorEq, iff_false]
    cases hb : self.linkedRenderEngine.beginSingleTimeCommands dev w with
    | mk rb w1 =>
      cases rb with
      | error e =>
        have := VulkanGraphicsEngineLink_begin_error dev _ w e w1 hb
        simp [this]
      | ok cb =>
        simp only [issue]
        cases he : self.linkedRenderEngine.endSingleTimeCommands dev cb
            (w1 ++ [DeviceCall.vkCmdPipelineBarrier cb sourceStage destinationStage barrier]) with
        | mk re w3 =>
          cases re with
          | error e =>
            have := VulkanGraphicsEngineLink_end_error dev _ cb _ e w3 he
            simp [this]
          | ok u => simp

/-- `AllocatedImage::transition` throws `invalid_argument` exactly when the `if` chain does. -/
theorem AllocatedImage_transition_unsupported_iff (dev : Device)
    (oldLayout newLayout : VkImageLayout) (self : AllocatedImage) (w : Trace) :
    (self.transition dev oldLayout newLayout w).1 = .error .unsupportedLayoutTransition ↔
      selectBarrier self.image oldLayout newLayout = .error .unsupportedLayoutTransition := by
  unfold AllocatedImage.transition
  cases hsel : selectBarrier self.image oldLayout newLayout with
  | error e => simp
  | ok b => simp

/-- C1: in both implementations, whatever the object state (tracked layout included),
`transition(oldLayout, newLayout)` throws the unsupported-transition `invalid_argument` if and
only if the pair is none of (undefined, transfer-destination), (transfer-destination,
shader-read-only), (undefined, depth-stencil-attachment); in particular
`transition(undefined, shader-read-only)` throws it. -/
theorem C1_transition_unsupported_iff (dev : Device) (oldLayout newLayout : VkImageLayout)
    (w : Trace) :
    (∀ self : ImageManager,
      (self.transition dev oldLayout newLayout w).1 = .error .unsupportedLayoutTransition ↔
        ¬ ((oldLayout = VK_IMAGE_LAYOUT_UNDEFINED ∧
              newLayout = VK_IMAGE_LAYOUT_TRANSFER_DST_OPTIMAL) ∨
            (oldLayout = VK_IMAGE_LAYOUT_TRANSFER_DST_OPTIMAL ∧
              newLayout = VK_IMAGE_LAYOUT_SHADER_READ_ONLY_OPTIMAL) ∨
            (oldLayout = VK_IMAGE_LAYOUT_UNDEFINED ∧
              newLayout = VK_IMAGE_LAYOUT_DEPTH_STENCIL_ATTACHMENT_OPTIMAL))) ∧
    (∀ self : AllocatedImage,
      (self.transition dev oldLayout newLayout w).1 = .error .unsupportedLayoutTransition ↔
        ¬ ((oldLayout = VK_IMAGE_LAYOUT_UNDEFINED ∧
              newLayout = VK_IMAGE_LAYOUT_TRANSFER_DST_OPTIMAL) ∨
            (oldLayout = VK_IMAGE_LAYOUT_TRANSFER_DST_OPTIMAL ∧
              newLayout = VK_IMAGE_LAYOUT_SHADER_READ_ONLY_OPTIMAL) ∨
            (oldLayout = VK_IMAGE_LAYOUT_UNDEFINED ∧
              newLayout = VK_IMAGE_LAYOUT_DEPTH_STENCIL_ATTACHMENT_OPTIMAL))) ∧
    (∀ self : ImageManager,
      (self.transition dev VK_IMAGE_LAYOUT_UNDEFINED
        VK_IMAGE_LAYOUT_SHADER_READ_ONLY_OPTIMAL w).1 = .error .unsupportedLayoutTransition) ∧
    (∀ self : AllocatedImage,
      (self.transition dev VK_IMAGE_LAYOUT_UNDEFINED
        VK_IMAGE_LAYOUT_SHADER_READ_ONLY_OPTIMAL w).1 = .error .unsupportedLayoutTransition) := by
  refine ⟨fun self => ?_, fun self => ?_, fun self => ?_, fun self => ?_⟩
  · rw [ImageManager_transition_unsupported_iff, selectBarrier_error_iff]
  · rw [AllocatedImage_transition_unsupported_iff, selectBarrier_error_iff]
  · rw [ImageManager_transition_unsupported_iff, selectBarrier_error_iff]
    decide
  · rw [AllocatedImage_transition_unsupported_iff, selectBarrier_error_iff]
    decide

/-- Row 1 of the `if` chain: undefined to transfer-destination. -/
theorem selectBarrier_undefined_transferDst (image : Handle) :
    selectBarrier image VK_IMAGE_LAYOUT_UNDEFINED VK_IMAGE_LAYOUT_TRANSFER_DST_OPTIMAL =
      .ok ({ srcAccessMask := 0, dstAccessMask := VK_ACCESS_TRANSFER_WRITE_BIT,
             oldLayout := VK_IMAGE_LAYOUT_UNDEFINED,
             newLayout := VK_IMAGE_LAYOUT_TRANSFER_DST_OPTIMAL,
             srcQueueFamilyIndex := VK_QUEUE_FAMILY_IGNORED,
             dstQueueFamilyIndex := VK_QUEUE_FAMILY_IGNORED,
             image := image,
             subresourceRange :=
               { aspectMask := VK_IMAGE_ASPECT_COLOR_BIT, baseMipLevel := 0, levelCount := 1,
                 baseArrayLayer := 0, layerCount := 1 } },
           VK_PIPELINE_STAGE_TOP_OF_PIPE_BIT, VK_PIPELINE_STAGE_TRANSFER_BIT) := rfl

/-- Row 2 of the `if` chain: transfer-destination to shader-read-only. -/
theorem selectBarrier_transferDst_shaderRead (image : Handle) :
    selectBarrier image VK_IMAGE_LAYOUT_TRANSFER_DST_OPTIMAL
        VK_IMAGE_LAYOUT_SHADER_READ_ONLY_OPTIMAL =
      .ok ({ srcAccessMask := VK_ACCESS_TRANSFER_WRITE_BIT,
             dstAccessMask := VK_ACCESS_SHADER_READ_BIT,
             oldLayout := VK_IMAGE_LAYOUT_TRANSFER_DST_OPTIMAL,
             newLayout := VK_IMAGE_LAYOUT_SHADER_READ_ONLY_OPTIMAL,
             srcQueueFamilyIndex := VK_QUEUE_FAMILY_IGNORED,
             dstQueueFamilyIndex := VK_QUEUE_FAMILY_IGNORED,
             image := image,
             subresourceRange :=
               { aspectMask := VK_IMAGE_ASPECT_COLOR_BIT, baseMipLevel := 0, levelCount := 1,
                 baseArrayLayer := 0, layerCount := 1 } },
           VK_PIPELINE_STAGE_TRANSFER_BIT, VK_PIPELINE_STAGE_FRAGMENT_SHADER_BIT) := rfl

/-- Row 3 of the `if` chain: undefined to depth-stencil-attachment. -/
theorem selectBarrier_undefined_depthStencil (image : Handle) :
    selectBarrier image VK_IMAGE_LAYOUT_UNDEFINED
        VK_IMAGE_LAYOUT_DEPTH_STENCIL_ATTACHMENT_OPTIMAL =
      .ok ({ srcAccessMask := 0,
             dstAccessMask := VK_ACCESS_DEPTH_STENCIL_ATTACHMENT_READ_BIT |||
               VK_ACCESS_DEPTH_STENCIL_ATTACHMENT_WRITE_BIT,
             oldLayout := VK_IMAGE_LAYOUT_UNDEFINED,
             newLayout := VK_IMAGE_LAYOUT_DEPTH_STENCIL_ATTACHMENT_OPTIMAL,
             srcQueueFamilyIndex := VK_QUEUE_FAMILY_IGNORED,
             dstQueueFamilyIndex := VK_QUEUE_FAMILY_IGNORED,
             image := image,
             subresourceRange :=
               { aspectMask := VK_IMAGE_ASPECT_DEPTH_BIT ||| VK_IMAGE_ASPECT_STENCIL_BIT,
                 baseMipLevel := 0, levelCount := 1, baseArrayLayer := 0, layerCount := 1 } },
           VK_PIPELINE_STAGE_TOP_OF_PIPE_BIT, VK_PIPELINE_STAGE_EARLY_FRAGMENT_TESTS_BIT) := rfl

/-- What `AllocatedImage::transition` does once the `if` chain has selected a barrier: one
complete round trip recording the barrier; no result code is looked at. -/
theorem AllocatedImage_transition_of_select (dev : Device) (oldLayout newLayout : VkImageLayout)
    (self : AllocatedImage) (w : Trace) (barrier : VkImageMemoryBarrier)
    (sourceStage destinationStage : VkFlags)
    (h : selectBarrier self.image oldLayout newLayout =
      .ok (barrier, sourceStage, destinationStage)) :
    self.transition dev oldLayout newLayout w =
      (.ok (),
        w ++ roundTrip self.linkedRenderEngine.device self.linkedRenderEngine.graphicsQueue
          self.linkedRenderEngine.commandPool
          (allocatedCommandBuffer dev self.linkedRenderEngine.device
            self.linkedRenderEngine.commandPool w)
          (.vkCmdPipelineBarrier
            (allocatedCommandBuffer dev self.linkedRenderEngine.device
              self.linkedRenderEngine.commandPool w)
            sourceStage destinationStage barrier)) := by
  unfold AllocatedImage.transition
  rw [h]
  simp [RenderEngineLink.beginSingleTimeCommands, RenderEngineLink.endSingleTimeCommands, issue,
    roundTrip, allocatedCommandBuffer, allocateCall]

/-- The spec-modelled `beginSingleTimeCommands` as one conditional. -/
theorem VulkanGraphicsEngineLink_begin_eq (dev : Device) (link : VulkanGraphicsEngineLink)
    (w : Trace) :
    link.beginSingleTimeCommands dev w =
      if (dev (w ++ [allocateCall link.device link.commandPool])).result = VK_SUCCESS then
        (.ok (allocatedCommandBuffer dev link.device link.commandPool w),
          w ++ [allocateCall link.device link.commandPool,
                .vkBeginCommandBuffer (allocatedCommandBuffer dev link.device link.commandPool w)
                  VK_COMMAND_BUFFER_USAGE_ONE_TIME_SUBMIT_BIT])
      else
        (.error .commandSubmissionFailure,
          w ++ [allocateCall link.device link.commandPool]) := by
  unfold VulkanGraphicsEngineLink.beginSingleTimeCommands
  simp only [issue, allocatedCommandBuffer, allocateCall]
  by_cases h : (dev (w ++ [DeviceCall.vkAllocateCommandBuffers link.device link.commandPool
      VK_COMMAND_BUFFER_LEVEL_PRIMARY 1])).result = VK_SUCCESS
  · simp [h]
  · simp [h]

/-- The spec-modelled `endSingleTimeCommands` as nested conditionals. -/
theorem VulkanGraphicsEngineLink_end_eq (dev : Device) (link : VulkanGraphicsEngineLink)
    (cb : Handle) (w : Trace) :
    link.endSingleTimeCommands dev cb w =
      if (dev (w ++ [.vkEndCommandBuffer cb, .vkQueueSubmit link.graphicsQueue cb])).result =
          VK_SUCCESS then
        if (dev (w ++ [.vkEndCommandBuffer cb, .vkQueueSubmit link.graphicsQueue cb,
            .vkQueueWaitIdle link.graphicsQueue])).result = VK_SUCCESS then
          (.ok (), w ++ [.vkEndCommandBuffer cb, .vkQueueSubmit link.graphicsQueue cb,
            .vkQueueWaitIdle link.graphicsQueue,
            .vkFreeCommandBuffers link.device link.commandPool cb])
        else
          (.error .commandSubmissionFailure,
            w ++ [.vkEndCommandBuffer cb, .vkQueueSubmit link.graphicsQueue cb,
              .vkQueueWaitIdle link.graphicsQueue])
      else
        (.error .commandSubmissionFailure,
          w ++ [.vkEndCommandBuffer cb, .vkQueueSubmit link.graphicsQueue cb]) := by
  unfold VulkanGraphicsEngineLink.endSingleTimeCommands
  simp only [issue, List.append_assoc, List.singleton_append, List.cons_append, List.nil_append]
  by_cases h : (dev (w ++ [DeviceCall.vkEndCommandBuffer cb,
      DeviceCall.vkQueueSubmit link.graphicsQueue cb])).result = VK_SUCCESS
  · by_cases h2 : (dev (w ++ [DeviceCall.vkEndCommandBuffer cb,
        DeviceCall.vkQueueSubmit link.graphicsQueue cb,
        DeviceCall.vkQueueWaitIdle link.graphicsQueue])).result = VK_SUCCESS
    · simp [h, h2]
    · simp [h, h2]
  · simp [h]

/-- What `ImageManager::transition` does once the `if` chain has selected a barrier: the round
trip recording the barrier, cut short after the first of allocation, submission and wait that
the driver fails; the tracked layout is updated only when the round trip completes. -/
theorem ImageManager_transition_of_select (dev : Device)
    (oldLayout newLayout : VkImageLayout) (self : ImageManager) (w : Trace)
    (barrier : VkImageMemoryBarrier) (sourceStage destinationStage : VkFlags)
    (h : selectBarrier self.image oldLayout newLayout =
      .ok (barrier, sourceStage, destinationStage)) :
    self.transition dev oldLayout newLayout w =
      if (dev (w ++ (roundTrip self.linkedRenderEngine.device
            self.linkedRenderEngine.graphicsQueue self.linkedRenderEngine.commandPool
            (allocatedCommandBuffer dev self.linkedRenderEngine.device
              self.linkedRenderEngine.commandPool w)
            (.vkCmdPipelineBarrier
              (allocatedCommandBuffer dev self.linkedRenderEngine.device
                self.linkedRenderEngine.commandPool w)
              sourceStage destinationStage barrier)).take 1)).result ≠ VK_SUCCESS then
        (.error .commandSubmissionFailure, self,
          w ++ (roundTrip self.linkedRenderEngine.device
            self.linkedRenderEngine.graphicsQueue self.linkedRenderEngine.commandPool
            (allocatedCommandBuffer dev self.linkedRenderEngine.device
              self.linkedRenderEngine.commandPool w)
            (.vkCmdPipelineBarrier
              (allocatedCommandBuffer dev self.linkedRenderEngine.device
                self.linkedRenderEngine.commandPool w)
              sourceStage destinationStage barrier)).take 1)
      else if (dev (w ++ (roundTrip self.linkedRenderEngine.device
            self.linkedRenderEngine.graphicsQueue self.linkedRenderEngine.commandPool
            (allocatedCommandBuffer dev self.linkedRenderEngine.device
              self.linkedRenderEngine.commandPool w)
            (.vkCmdPipelineBarrier
              (allocatedCommandBuffer dev self.linkedRenderEngine.device
                self.linkedRenderEngine.commandPool w)
              sourceStage destinationStage barrier)).take 5)).result ≠ VK_SUCCESS then
        (.error .commandSubmissionFailure, self,
          w ++ (roundTrip self.linkedRenderEngine.device
            self.linkedRenderEngine.graphicsQueue self.linkedRenderEngine.commandPool
            (allocatedCommandBuffer dev self.linkedRenderEngine.device
              self.linkedRenderEngine.commandPool w)
            (.vkCmdPipelineBarrier
              (allocatedCommandBuffer dev self.linkedRenderEngine.device
                self.linkedRenderEngine.commandPool w)
              sourceStage destinationStage barrier)).take 5)
      else if (dev (w ++ (roundTrip self.linkedRenderEngine.device
            self.linkedRenderEngine.graphicsQueue self.linkedRenderEngine.commandPool
            (allocatedCommandBuffer dev self.linkedRenderEngine.device
              self.linkedRenderEngine.commandPool w)
            (.vkCmdPipelineBarrier
              (allocatedCommandBuffer dev self.linkedRenderEngine.device
                self.linkedRenderEngine.commandPool w)
              sourceStage destinationStage barrier)).take 6)).result ≠ VK_SUCCESS then
        (.error .commandSubmissionFailure, self,
          w ++ (roundTrip self.linkedRenderEngine.device
            self.linkedRenderEngine.graphicsQueue self.linkedRenderEngine.commandPool
            (allocatedCommandBuffer dev self.linkedRenderEngine.device
              self.linkedRenderEngine.commandPool w)
            (.vkCmdPipelineBarrier
              (allocatedCommandBuffer dev self.linkedRenderEngine.device
                self.linkedRenderEngine.commandPool w)
              sourceStage destinationStage barrier)).take 6)
      else
        (.ok (), { self with imageLayout := newLayout },
          w ++ roundTrip self.linkedRenderEngine.device
            self.linkedRenderEngine.graphicsQueue self.linkedRenderEngine.commandPool
            (allocatedCommandBuffer dev self.linkedRenderEngine.device
              self.linkedRenderEngine.commandPool w)
            (.vkCmdPipelineBarrier
              (allocatedCommandBuffer dev self.linkedRenderEngine.device
                self.linkedRenderEngine.commandPool w)
              sourceStage destinationStage barrier)) := by
  unfold ImageManager.transition
  rw [h]
  simp only [VulkanGraphicsEngineLink_begin_eq, issue, roundTrip, List.take_succ_cons,
    List.take_zero]
  by_cases h1 : (dev (w ++ [allocateCall self.linkedRenderEngine.device
      self.linkedRenderEngine.commandPool])).result = VK_SUCCESS
  · rw [if_pos h1]
    dsimp only
    rw [VulkanGraphicsEngineLink_end_eq]
    simp only [ne_eq, h1, not_true_eq_false, if_false, List.append_assoc, List.cons_append,
      List.nil_append]
    split_ifs <;> rfl
  · simp [h1]

/-- C2: for each of the three recognised transitions, the barrier `transition` records (the
third call of the one-shot round trip) carries exactly the masks and stages of the table:
undefined to transfer-destination uses source (no access, top-of-pipe) and destination
(transfer-write, transfer); transfer-destination to shader-read-only uses source
(transfer-write, transfer) and destination (shader-read, fragment-shader); undefined to
depth-stencil-attachment uses source (no access, top-of-pipe) and destination (depth-stencil
read or write, early-fragment-tests); and in every row the barrier covers one mip level and one
array layer starting at 0.  `AllocatedImage::transition` always completes the round trip; the
`ImageManager` round trip is cut short after the first of allocation (call 1), submission
(call 5) and wait (call 6) that the driver fails. -/
theorem C2_transition_barrier_table (dev : Device) (w : Trace) :
    (∀ self : AllocatedImage,
      let link := self.linkedRenderEngine
      let cb := allocatedCommandBuffer dev link.device link.commandPool w
      let trip := roundTrip link.device link.graphicsQueue link.commandPool cb
      self.transition dev VK_IMAGE_LAYOUT_UNDEFINED
          VK_IMAGE_LAYOUT_TRANSFER_DST_OPTIMAL w =
        (.ok (), w ++ trip
          (.vkCmdPipelineBarrier cb VK_PIPELINE_STAGE_TOP_OF_PIPE_BIT
          VK_PIPELINE_STAGE_TRANSFER_BIT
          { srcAccessMask := 0,
            dstAccessMask := VK_ACCESS_TRANSFER_WRITE_BIT,
            oldLayout := VK_IMAGE_LAYOUT_UNDEFINED,
            newLayout := VK_IMAGE_LAYOUT_TRANSFER_DST_OPTIMAL,
            srcQueueFamilyIndex := VK_QUEUE_FAMILY_IGNORED,
            dstQueueFamilyIndex := VK_QUEUE_FAMILY_IGNORED,
            image := self.image,
            subresourceRange :=
              { aspectMask := VK_IMAGE_ASPECT_COLOR_BIT,
                baseMipLevel := 0, levelCount := 1, baseArrayLayer := 0, layerCount := 1 } })) ∧
      self.transition dev VK_IMAGE_LAYOUT_TRANSFER_DST_OPTIMAL
          VK_IMAGE_LAYOUT_SHADER_READ_ONLY_OPTIMAL w =
        (.ok (), w ++ trip
          (.vkCmdPipelineBarrier cb VK_PIPELINE_STAGE_TRANSFER_BIT
          VK_PIPELINE_STAGE_FRAGMENT_SHADER_BIT
          { srcAccessMask := VK_ACCESS_TRANSFER_WRITE_BIT,
            dstAccessMask := VK_ACCESS_SHADER_READ_BIT,
            oldLayout := VK_IMAGE_LAYOUT_TRANSFER_DST_OPTIMAL,
            newLayout := VK_IMAGE_LAYOUT_SHADER_READ_ONLY_OPTIMAL,
            srcQueueFamilyIndex := VK_QUEUE_FAMILY_IGNORED,
            dstQueueFamilyIndex := VK_QUEUE_FAMILY_IGNORED,
            image := self.image,
            subresourceRange :=
              { aspectMask := VK_IMAGE_ASPECT_COLOR_BIT,
                baseMipLevel := 0, levelCount := 1, baseArrayLayer := 0, layerCount := 1 } })) ∧
      self.transition dev VK_IMAGE_LAYOUT_UNDEFINED
          VK_IMAGE_LAYOUT_DEPTH_STENCIL_ATTACHMENT_OPTIMAL w =
        (.ok (), w ++ trip
          (.vkCmdPipelineBarrier cb VK_PIPELINE_STAGE_TOP_OF_PIPE_BIT
          VK_PIPELINE_STAGE_EARLY_FRAGMENT_TESTS_BIT
          { srcAccessMask := 0,
            dstAccessMask := VK_ACCESS_DEPTH_STENCIL_ATTACHMENT_READ_BIT |||
              VK_ACCESS_DEPTH_STENCIL_ATTACHMENT_WRITE_BIT,
            oldLayout := VK_IMAGE_LAYOUT_UNDEFINED,
            newLayout := VK_IMAGE_LAYOUT_DEPTH_STENCIL_ATTACHMENT_OPTIMAL,
            srcQueueFamilyIndex := VK_QUEUE_FAMILY_IGNORED,
            dstQueueFamilyIndex := VK_QUEUE_FAMILY_IGNORED,
            image := self.image,
            subresourceRange :=
              { aspectMask := VK_IMAGE_ASPECT_DEPTH_BIT ||| VK_IMAGE_ASPECT_STENCIL_BIT,
                baseMipLevel := 0, levelCount := 1, baseArrayLayer := 0, layerCount := 1 } }))) ∧
    (∀ self : ImageManager,
      let link := self.linkedRenderEngine
      let cb := allocatedCommandBuffer dev link.device link.commandPool w
      let trip := roundTrip link.device link.graphicsQueue link.commandPool cb
      let outcome :
          VkImageLayout → List DeviceCall → Except Exception Unit × ImageManager × Trace :=
        fun newLayout calls =>
          if (dev (w ++ calls.take 1)).result ≠ VK_SUCCESS then
            (.error .commandSubmissionFailure, self, w ++ calls.take 1)
          else if (dev (w ++ calls.take 5)).result ≠ VK_SUCCESS then
            (.error .commandSubmissionFailure, self, w ++ calls.take 5)
          else if (dev (w ++ calls.take 6)).result ≠ VK_SUCCESS then
            (.error .commandSubmissionFailure, self, w ++ calls.take 6)
          else (.ok (), { self with imageLayout := newLayout }, w ++ calls)
      self.transition dev VK_IMAGE_LAYOUT_UNDEFINED
          VK_IMAGE_LAYOUT_TRANSFER_DST_OPTIMAL w =
        outcome VK_IMAGE_LAYOUT_TRANSFER_DST_OPTIMAL (trip
          (.vkCmdPipelineBarrier cb VK_PIPELINE_STAGE_TOP_OF_PIPE_BIT
          VK_PIPELINE_STAGE_TRANSFER_BIT
          { srcAccessMask := 0,
            dstAccessMask := VK_ACCESS_TRANSFER_WRITE_BIT,
            oldLayout := VK_IMAGE_LAYOUT_UNDEFINED,
            newLayout := VK_IMAGE_LAYOUT_TRANSFER_DST_OPTIMAL,
            srcQueueFamilyIndex := VK_QUEUE_FAMILY_IGNORED,
            dstQueueFamilyIndex := VK_QUEUE_FAMILY_IGNORED,
            image := self.image,
            subresourceRange :=
              { aspectMask := VK_IMAGE_ASPECT_COLOR_BIT,
                baseMipLevel := 0, levelCount := 1, baseArrayLayer := 0, layerCount := 1 } })) ∧
      self.transition dev VK_IMAGE_LAYOUT_TRANSFER_DST_OPTIMAL
          VK_IMAGE_LAYOUT_SHADER_READ_ONLY_OPTIMAL w =
        outcome VK_IMAGE_LAYOUT_SHADER_READ_ONLY_OPTIMAL (trip
          (.vkCmdPipelineBarrier cb VK_PIPELINE_STAGE_TRANSFER_BIT
          VK_PIPELINE_STAGE_FRAGMENT_SHADER_BIT
          { srcAccessMask := VK_ACCESS_TRANSFER_WRITE_BIT,
            dstAccessMask := VK_ACCESS_SHADER_READ_BIT,
            oldLayout := VK_IMAGE_LAYOUT_TRANSFER_DST_OPTIMAL,
            newLayout := VK_IMAGE_LAYOUT_SHADER_READ_ONLY_OPTIMAL,
            srcQueueFamilyIndex := VK_QUEUE_FAMILY_IGNORED,
            dstQueueFamilyIndex := VK_QUEUE_FAMILY_IGNORED,
            image := self.image,
            subresourceRange :=
              { aspectMask := VK_IMAGE_ASPECT_COLOR_BIT,
                baseMipLevel := 0, levelCount := 1, baseArrayLayer := 0, layerCount := 1 } })) ∧
      self.transition dev VK_IMAGE_LAYOUT_UNDEFINED
          VK_IMAGE_LAYOUT_DEPTH_STENCIL_ATTACHMENT_OPTIMAL w =
        outcome VK_IMAGE_LAYOUT_DEPTH_STENCIL_ATTACHMENT_OPTIMAL (trip
          (.vkCmdPipelineBarrier cb VK_PIPELINE_STAGE_TOP_OF_PIPE_BIT
          VK_PIPELINE_STAGE_EARLY_FRAGMENT_TESTS_BIT
          { srcAccessMask := 0,
            dstAccessMask := VK_ACCESS_DEPTH_STENCIL_ATTACHMENT_READ_BIT |||
              VK_ACCESS_DEPTH_STENCIL_ATTACHMENT_WRITE_BIT,
            oldLayout := VK_IMAGE_LAYOUT_UNDEFINED,
            newLayout := VK_IMAGE_LAYOUT_DEPTH_STENCIL_ATTACHMENT_OPTIMAL,
            srcQueueFamilyIndex := VK_QUEUE_FAMILY_IGNORED,
            dstQueueFamilyIndex := VK_QUEUE_FAMILY_IGNORED,
            image := self.image,
            subresourceRange :=
              { aspectMask := VK_IMAGE_ASPECT_DEPTH_BIT ||| VK_IMAGE_ASPECT_STENCIL_BIT,
                baseMipLevel := 0, levelCount := 1, baseArrayLayer := 0, layerCount := 1 } }))) := by
  refine ⟨fun self => ?_, fun self => ?_⟩
  · intro link cb trip
    exact ⟨AllocatedImage_transition_of_select dev _ _ self w _ _ _
        (selectBarrier_undefined_transferDst self.image),
      AllocatedImage_transition_of_select dev _ _ self w _ _ _
        (selectBarrier_transferDst_shaderRead self.image),
      AllocatedImage_transition_of_select dev _ _ self w _ _ _
        (selectBarrier_undefined_depthStencil self.image)⟩
  · intro link cb trip outcome
    exact ⟨ImageManager_transition_of_select dev _ _ self w _ _ _
        (selectBarrier_undefined_transferDst self.image),
      ImageManager_transition_of_select dev _ _ self w _ _ _
        (selectBarrier_transferDst_shaderRead self.image),
      ImageManager_transition_of_select dev _ _ self w _ _ _
        (selectBarrier_undefined_depthStencil self.image)⟩

/-- When `ImageManager::transition` returns normally the tracked layout is `newLayout`. -/
theorem ImageManager_transition_ok_layout (dev : Device) (oldLayout newLayout : VkImageLayout)
    (self : ImageManager) (w : Trace)
    (hok : (self.transition dev oldLayout newLayout w).1 = .ok ()) :
    (self.transition dev oldLayout newLayout w).2.1.imageLayout = newLayout := by
  cases hsel : selectBarrier self.image oldLayout newLayout with
  | error e =>
    unfold ImageManager.transition at hok
    rw [hsel] at hok
    simp at hok
  | ok b =>
    obtain ⟨barrier, sourceStage, destinationStage⟩ := b
    rw [ImageManager_transition_of_select dev _ _ self w _ _ _ hsel] at hok ⊢
    split_ifs at hok ⊢
    simp_all

/-- When the `if` chain throws, `ImageManager::transition` has touched nothing. -/
theorem ImageManager_transition_of_select_error (dev : Device)
    (oldLayout newLayout : VkImageLayout) (self : ImageManager) (w : Trace) (e : Exception)
    (h : selectBarrier self.image oldLayout newLayout = .error e) :
    self.transition dev oldLayout newLayout w = (.error e, self, w) := by
  unfold ImageManager.transition
  rw [h]

/-- When the `if` chain throws, `AllocatedImage::transition` has issued no driver call. -/
theorem AllocatedImage_transition_of_select_error (dev : Device)
    (oldLayout newLayout : VkImageLayout) (self : AllocatedImage) (w : Trace) (e : Exception)
    (h : selectBarrier self.image oldLayout newLayout = .error e) :
    self.transition dev oldLayout newLayout w = (.error e, w) := by
  unfold AllocatedImage.transition
  rw [h]

/-- On a driver that never fails, a recognised `ImageManager::transition` returns normally with
the tracked layout updated and nothing else changed. -/
theorem ImageManager_transition_of_select_okDevice (dev : Device)
    (hdev : ∀ t, (dev t).result = VK_SUCCESS)
    (oldLayout newLayout : VkImageLayout) (self : ImageManager) (w : Trace)
    (barrier : VkImageMemoryBarrier) (sourceStage destinationStage : VkFlags)
    (h : selectBarrier self.image oldLayout newLayout =
      .ok (barrier, sourceStage, destinationStage)) :
    self.transition dev oldLayout newLayout w =
      (.ok (), { self with imageLayout := newLayout },
        w ++ roundTrip self.linkedRenderEngine.device self.linkedRenderEngine.graphicsQueue
          self.linkedRenderEngine.commandPool
          (allocatedCommandBuffer dev self.linkedRenderEngine.device
            self.linkedRenderEngine.commandPool w)
          (.vkCmdPipelineBarrier
            (allocatedCommandBuffer dev self.linkedRenderEngine.device
              self.linkedRenderEngine.commandPool w)
            sourceStage destinationStage barrier)) := by
  rw [ImageManager_transition_of_select dev _ _ self w _ _ _ h]
  simp [hdev]

/-- C3: for every `ImageManager` state and every pair, after `transition(oldLayout, newLayout)`
the tracked layout is `newLayout` when the call returns normally; when the call throws the
unsupported-transition error the object (tracked layout included) and the driver trace are
exactly as before, so no barrier was recorded or submitted.  On a driver whose calls succeed,
from any state (in particular one tracking undefined) `transition(undefined,
transfer-destination)` returns normally leaving the tracked layout transfer-destination, and a
following `transition(transfer-destination, shader-read-only)` returns normally leaving it
shader-read-only.  `AllocatedImage`, which tracks no layout, likewise issues no driver call when
it throws the unsupported-transition error. -/
theorem C3_transition_tracked_layout (dev : Device) (oldLayout newLayout : VkImageLayout)
    (self : ImageManager) (w : Trace) :
    ((self.transition dev oldLayout newLayout w).1 = .ok () →
      (self.transition dev oldLayout newLayout w).2.1.imageLayout = newLayout) ∧
    ((self.transition dev oldLayout newLayout w).1 = .error .unsupportedLayoutTransition →
      (self.transition dev oldLayout newLayout w).2 = (self, w)) ∧
    ((∀ t, (dev t).result = VK_SUCCESS) →
      ∃ s1 w1 s2 w2,
        self.transition dev VK_IMAGE_LAYOUT_UNDEFINED VK_IMAGE_LAYOUT_TRANSFER_DST_OPTIMAL w =
          (.ok (), s1, w1) ∧
        s1.imageLayout = VK_IMAGE_LAYOUT_TRANSFER_DST_OPTIMAL ∧
        s1.transition dev VK_IMAGE_LAYOUT_TRANSFER_DST_OPTIMAL
          VK_IMAGE_LAYOUT_SHADER_READ_ONLY_OPTIMAL w1 = (.ok (), s2, w2) ∧
        s2.imageLayout = VK_IMAGE_LAYOUT_SHADER_READ_ONLY_OPTIMAL) ∧
    (∀ other : AllocatedImage,
      (other.transition dev oldLayout newLayout w).1 = .error .unsupportedLayoutTransition →
        (other.transition dev oldLayout newLayout w).2 = w) := by
  refine ⟨ImageManager_transition_ok_layout dev _ _ self w, fun h => ?_, fun hdev => ?_,
    fun other h => ?_⟩
  · rw [ImageManager_transition_unsupported_iff] at h
    rw [ImageManager_transition_of_select_error dev _ _ self w _ h]
  · refine ⟨_, _, _, _,
      ImageManager_transition_of_select_okDevice dev hdev _ _ self w _ _ _
        (selectBarrier_undefined_transferDst self.image), rfl,
      ImageManager_transition_of_select_okDevice dev hdev _ _ _ _ _ _ _
        (selectBarrier_transferDst_shaderRead _), rfl⟩
  · rw [AllocatedImage_transition_unsupported_iff] at h
    rw [AllocatedImage_transition_of_select_error dev _ _ other w _ h]

/-- C3 at concrete inputs: a fresh `ImageManager` on `okDevice` for the normal return and the
two-step sequence, and the skipped pair (undefined, shader-read-only) for the throw. -/
theorem C3_transition_tracked_layout_witness :
    ((ImageManager.fresh sampleVulkanLink).transition okDevice VK_IMAGE_LAYOUT_UNDEFINED
        VK_IMAGE_LAYOUT_TRANSFER_DST_OPTIMAL []).2.1.imageLayout =
      VK_IMAGE_LAYOUT_TRANSFER_DST_OPTIMAL ∧
    ((ImageManager.fresh sampleVulkanLink).transition okDevice VK_IMAGE_LAYOUT_UNDEFINED
        VK_IMAGE_LAYOUT_SHADER_READ_ONLY_OPTIMAL []).2 =
      (ImageManager.fresh sampleVulkanLink, []) ∧
    (∃ s1 w1 s2 w2,
      (ImageManager.fresh sampleVulkanLink).transition okDevice VK_IMAGE_LAYOUT_UNDEFINED
          VK_IMAGE_LAYOUT_TRANSFER_DST_OPTIMAL [] = (.ok (), s1, w1) ∧
        s1.imageLayout = VK_IMAGE_LAYOUT_TRANSFER_DST_OPTIMAL ∧
        s1.transition okDevice VK_IMAGE_LAYOUT_TRANSFER_DST_OPTIMAL
          VK_IMAGE_LAYOUT_SHADER_READ_ONLY_OPTIMAL w1 = (.ok (), s2, w2) ∧
        s2.imageLayout = VK_IMAGE_LAYOUT_SHADER_READ_ONLY_OPTIMAL) ∧
    ((AllocatedImage.fresh sampleRenderLink).transition okDevice VK_IMAGE_LAYOUT_UNDEFINED
        VK_IMAGE_LAYOUT_SHADER_READ_ONLY_OPTIMAL []).2 = [] :=
  ⟨(C3_transition_tracked_layout okDevice VK_IMAGE_LAYOUT_UNDEFINED
      VK_IMAGE_LAYOUT_TRANSFER_DST_OPTIMAL (ImageManager.fresh sampleVulkanLink) []).1 rfl,
   (C3_transition_tracked_layout okDevice VK_IMAGE_LAYOUT_UNDEFINED
      VK_IMAGE_LAYOUT_SHADER_READ_ONLY_OPTIMAL (ImageManager.fresh sampleVulkanLink) []).2.1 rfl,
   (C3_transition_tracked_layout okDevice VK_IMAGE_LAYOUT_UNDEFINED
      VK_IMAGE_LAYOUT_TRANSFER_DST_OPTIMAL (ImageManager.fresh sampleVulkanLink) []).2.2.1
      (fun _ => rfl),
   (C3_transition_tracked_layout okDevice VK_IMAGE_LAYOUT_UNDEFINED
      VK_IMAGE_LAYOUT_SHADER_READ_ONLY_OPTIMAL (ImageManager.fresh sampleVulkanLink) []).2.2.2
      (AllocatedImage.fresh sampleRenderLink) rfl⟩

/-! ## Destruction -/

/-- C4: `destroy` is idempotent on `AllocatedBuffer`, `ImageManager` and `AllocatedImage`: from
every object state and trace, a second `destroy` right after the first returns the same object
(every member as the first `destroy` left it) and the same trace (no driver call issued); and
`destroy` on an object on which `create` was never called returns the object and the trace
unchanged (no driver call, no handle changed). -/
theorem C4_destroy_idempotent (dev : Device) (w : Trace) :
    (∀ b : AllocatedBuffer,
      AllocatedBuffer.destroy dev (b.destroy dev w).1 (b.destroy dev w).2 = b.destroy dev w) ∧
    (∀ m : ImageManager,
      ImageManager.destroy dev (m.destroy dev w).1 (m.destroy dev w).2 = m.destroy dev w) ∧
    (∀ a : AllocatedImage,
      AllocatedImage.destroy dev (a.destroy dev w).1 (a.destroy dev w).2 = a.destroy dev w) ∧
    (∀ link : RenderEngineLink,
      (AllocatedBuffer.fresh link).destroy dev w = (AllocatedBuffer.fresh link, w)) ∧
    (∀ link : VulkanGraphicsEngineLink,
      (ImageManager.fresh link).destroy dev w = (ImageManager.fresh link, w)) ∧
    (∀ link : RenderEngineLink,
      (AllocatedImage.fresh link).destroy dev w = (AllocatedImage.fresh link, w)) := by
  refine ⟨fun b => ?_, fun m => ?_, fun a => ?_, fun link => rfl, fun link => rfl,
    fun link => rfl⟩
  · simp [AllocatedBuffer.destroy]
  · simp [ImageManager.destroy]
  · simp [AllocatedImage.destroy]

/-- One teardown closure of `ImageManager` never makes a null handle non-null. -/
theorem ImageManager_runTeardown_null (dev : Device) (f : ImageTeardown)
    (st : ImageManager × Trace) :
    (st.1.image = VK_NULL_HANDLE →
      (ImageManager.runTeardown dev f st).1.image = VK_NULL_HANDLE) ∧
    (st.1.view = VK_NULL_HANDLE → (ImageManager.runTeardown dev f st).1.view = VK_NULL_HANDLE) ∧
    (st.1.sampler = VK_NULL_HANDLE →
      (ImageManager.runTeardown dev f st).1.sampler = VK_NULL_HANDLE) := by
  cases f
  · unfold ImageManager.runTeardown
    by_cases h : st.1.image = VK_NULL_HANDLE
    · simp [h]
    · simp [h, issue]
  · simp [ImageManager.runTeardown, issue]
  · simp [ImageManager.runTeardown, issue]

/-- Running a whole `ImageManager` deletion queue never makes a null handle non-null. -/
theorem ImageManager_runAll_null (dev : Device) (q : List ImageTeardown) :
    ∀ st : ImageManager × Trace,
      (st.1.image = VK_NULL_HANDLE →
        (q.foldl (fun st f => ImageManager.runTeardown dev f st) st).1.image = VK_NULL_HANDLE) ∧
      (st.1.view = VK_NULL_HANDLE →
        (q.foldl (fun st f => ImageManager.runTeardown dev f st) st).1.view = VK_NULL_HANDLE) ∧
      (st.1.sampler = VK_NULL_HANDLE →
        (q.foldl (fun st f => ImageManager.runTeardown dev f st) st).1.sampler =
          VK_NULL_HANDLE) := by
  induction q with
  | nil => intro st; simp
  | cons f q ih =>
    intro st
    have h1 := ImageManager_runTeardown_null dev f st
    have h2 := ih (ImageManager.runTeardown dev f st)
    simp only [List.foldl_cons]
    exact ⟨fun h => h2.1 (h1.1 h), fun h => h2.2.1 (h1.2.1 h), fun h => h2.2.2 (h1.2.2 h)⟩

/-- One teardown closure of `AllocatedImage` never makes a null handle non-null. -/
theorem AllocatedImage_runTeardown_null (dev : Device) (f : ImageTeardown)
    (st : AllocatedImage × Trace) :
    (st.1.image = VK_NULL_HANDLE →
      (AllocatedImage.runTeardown dev f st).1.image = VK_NULL_HANDLE) ∧
    (st.1.view = VK_NULL_HANDLE → (AllocatedImage.runTeardown dev f st).1.view = VK_NULL_HANDLE) ∧
    (st.1.sampler = VK_NULL_HANDLE →
      (AllocatedImage.runTeardown dev f st).1.sampler = VK_NULL_HANDLE) := by
  cases f
  · unfold AllocatedImage.runTeardown
    by_cases h : st.1.image = VK_NULL_HANDLE
    · simp [h]
    · simp [h, issue]
  · simp [AllocatedImage.runTeardown, issue]
  · simp [AllocatedImage.runTeardown, issue]

/-- Running a whole `AllocatedImage` deletion queue never makes a null handle non-null. -/
theorem AllocatedImage_runAll_null (dev : Device) (q : List ImageTeardown) :
    ∀ st : AllocatedImage × Trace,
      (st.1.image = VK_NULL_HANDLE →
        (q.foldl (fun st f => AllocatedImage.runTeardown dev f st) st).1.image = VK_NULL_HANDLE) ∧
      (st.1.view = VK_NULL_HANDLE →
        (q.foldl (fun st f => AllocatedImage.runTeardown dev f st) st).1.view = VK_NULL_HANDLE) ∧
      (st.1.sampler = VK_NULL_HANDLE →
        (q.foldl (fun st f => AllocatedImage.runTeardown dev f st) st).1.sampler =
          VK_NULL_HANDLE) := by
  induction q with
  | nil => intro st; simp
  | cons f q ih =>
    intro st
    have h1 := AllocatedImage_runTeardown_null dev f st
    have h2 := ih (AllocatedImage.runTeardown dev f st)
    simp only [List.foldl_cons]
    exact ⟨fun h => h2.1 (h1.1 h), fun h => h2.2.1 (h1.2.1 h), fun h => h2.2.2 (h1.2.2 h)⟩

/-- One teardown closure of `AllocatedBuffer` never makes a null buffer handle non-null. -/
theorem AllocatedBuffer_runTeardown_null (dev : Device) (f : BufferTeardown)
    (st : AllocatedBuffer × Trace) :
    st.1.buffer = VK_NULL_HANDLE →
      (AllocatedBuffer.runTeardown dev f st).1.buffer = VK_NULL_HANDLE := by
  cases f
  · unfold AllocatedBuffer.runTeardown
    by_cases h : st.1.buffer = VK_NULL_HANDLE
    · simp [h]
    · simp [h, issue]
  · simp [AllocatedBuffer.runTeardown, issue]

/-- Running a whole `AllocatedBuffer` deletion queue never makes a null buffer handle
non-null. -/
theorem AllocatedBuffer_runAll_null (dev : Device) (q : List BufferTeardown) :
    ∀ st : AllocatedBuffer × Trace, st.1.buffer = VK_NULL_HANDLE →
      (q.foldl (fun st f => AllocatedBuffer.runTeardown dev f st) st).1.buffer =
        VK_NULL_HANDLE := by
  induction q with
  | nil => intro st h; simpa using h
  | cons f q ih =>
    intro st h
    simp only [List.foldl_cons]
    exact ih _ (AllocatedBuffer_runTeardown_null dev f st h)

/-! ## Image creation -/

/-- The outcome of `ImageManager::transition`, whatever the pair: either it returns normally
having changed only the tracked layout, or it throws (unsupported pair or command submission
failure) having changed nothing in the object. -/
theorem ImageManager_transition_cases (dev : Device) (oldLayout newLayout : VkImageLayout)
    (self : ImageManager) (w : Trace) :
    (∃ w1, self.transition dev oldLayout newLayout w =
      (.ok (), { self with imageLayout := newLayout }, w1)) ∨
    (∃ w1, self.transition dev oldLayout newLayout w =
      (.error .unsupportedLayoutTransition, self, w1)) ∨
    (∃ w1, self.transition dev oldLayout newLayout w =
      (.error .commandSubmissionFailure, self, w1)) := by
  cases hsel : selectBarrier self.image oldLayout newLayout with
  | error e =>
    have he : e = .unsupportedLayoutTransition := by
      unfold selectBarrier at hsel
      simp only at hsel
      split_ifs at hsel
      simp only [Except.error.injEq] at hsel
      exact hsel.symm
    subst he
    exact Or.inr (Or.inl ⟨w, ImageManager_transition_of_select_error dev _ _ self w _ hsel⟩)
  | ok b =>
    obtain ⟨barrier, sourceStage, destinationStage⟩ := b
    rw [ImageManager_transition_of_select dev _ _ self w _ _ _ hsel]
    split_ifs
    · exact Or.inr (Or.inr ⟨_, rfl⟩)
    · exact Or.inr (Or.inr ⟨_, rfl⟩)
    · exact Or.inr (Or.inr ⟨_, rfl⟩)
    · exact Or.inl ⟨_, rfl⟩

/-- The outcome of the spec-modelled `BufferManager::toImage`: normal return or command
submission failure. -/
theorem BufferManager_toImage_cases (dev : Device) (self : BufferManager) (image : Handle)
    (width height : Nat) (w : Trace) :
    (∃ w1, self.toImage dev image width height w = (.ok (), w1)) ∨
    (∃ w1, self.toImage dev image width height w = (.error .commandSubmissionFailure, w1)) := by
  unfold BufferManager.toImage
  simp only [VulkanGraphicsEngineLink_begin_eq, issue]
  by_cases h1 : (dev (w ++ [allocateCall self.linkedRenderEngine.device
      self.linkedRenderEngine.commandPool])).result = VK_SUCCESS
  · rw [if_pos h1]
    dsimp only
    rw [VulkanGraphicsEngineLink_end_eq]
    split_ifs
    · exact Or.inl ⟨_, rfl⟩
    · exact Or.inr ⟨_, rfl⟩
    · exact Or.inr ⟨_, rfl⟩
  · rw [if_neg h1]
    exact Or.inr ⟨_, rfl⟩

/-- The outcome of the sampler part of `ImageManager::create`. -/
theorem ImageManager_createSampler_cases (dev : Device) (self : ImageManager) (w : Trace) :
    (∃ t w1, (dev (t ++ [.vkCreateSampler self.linkedRenderEngine.device
          (samplerInfo self.linkedRenderEngine.settings)])).result = VK_SUCCESS ∧
      self.createSampler dev w =
        (.ok (),
          { self with
            sampler := (dev (t ++ [.vkCreateSampler self.linkedRenderEngine.device
              (samplerInfo self.linkedRenderEngine.settings)])).handle,
            deletionQueue := .destroySampler :: self.deletionQueue,
            imageLayout := VK_IMAGE_LAYOUT_SHADER_READ_ONLY_OPTIMAL }, w1)) ∨
    (∃ h w1, self.createSampler dev w =
        (.error .failedToCreateSampler, { self with sampler := h }, w1)) ∨
    (∃ s1 w1, self.createSampler dev w = (.error .commandSubmissionFailure, s1, w1) ∧
      s1.deletionQueue = .destroySampler :: self.deletionQueue) := by
  unfold ImageManager.createSampler
  simp only [issue]
  by_cases h1 : (dev (w ++ [.vkCreateSampler self.linkedRenderEngine.device
      (samplerInfo self.linkedRenderEngine.settings)])).result = VK_SUCCESS
  · simp only [ne_eq, h1, not_true_eq_false, if_false]
    rcases ImageManager_transition_cases dev VK_IMAGE_LAYOUT_TRANSFER_DST_OPTIMAL
        VK_IMAGE_LAYOUT_SHADER_READ_ONLY_OPTIMAL
        { self with
          sampler := (dev (w ++ [.vkCreateSampler self.linkedRenderEngine.device
            (samplerInfo self.linkedRenderEngine.settings)])).handle,
          deletionQueue := .destroySampler :: self.deletionQueue }
        (w ++ [.vkCreateSampler self.linkedRenderEngine.device
          (samplerInfo self.linkedRenderEngine.settings)]) with ⟨w1, h⟩ | ⟨w1, h⟩ | ⟨w1, h⟩
    · exact Or.inl ⟨w, w1, h1, h⟩
    · exfalso
      have := (ImageManager_transition_unsupported_iff dev _ _ _ _).mp (by rw [h])
      rw [selectBarrier_transferDst_shaderRead] at this
      simp at this
    · exact Or.inr (Or.inr ⟨_, w1, h, rfl⟩)
  · simp only [ne_eq, h1, not_false_eq_true, if_true]
    exact Or.inr (Or.inl ⟨_, _, rfl⟩)

/-- The outcome of the upload part of `ImageManager::create` (data source supplied). -/
theorem ImageManager_upload_cases (dev : Device) (width height : Int) (imageType : ImageType)
    (dataSource : BufferManager) (self : ImageManager) (w : Trace) :
    (imageType ≠ ImageType.TEXTURE ∧
      ∃ w1, self.upload dev width height imageType dataSource w =
        (.ok (), { self with imageLayout := VK_IMAGE_LAYOUT_TRANSFER_DST_OPTIMAL }, w1)) ∨
    (imageType = ImageType.TEXTURE ∧
      ∃ t w1, (dev (t ++ [.vkCreateSampler self.linkedRenderEngine.device
          (samplerInfo self.linkedRenderEngine.settings)])).result = VK_SUCCESS ∧
        self.upload dev width height imageType dataSource w =
          (.ok (),
            { self with
              sampler := (dev (t ++ [.vkCreateSampler self.linkedRenderEngine.device
                (samplerInfo self.linkedRenderEngine.settings)])).handle,
              deletionQueue := .destroySampler :: self.deletionQueue,
              imageLayout := VK_IMAGE_LAYOUT_SHADER_READ_ONLY_OPTIMAL }, w1)) ∨
    (imageType = ImageType.TEXTURE ∧
      ∃ h w1, self.upload dev width height imageType dataSource w =
        (.error .failedToCreateSampler,
          { self with sampler := h, imageLayout := VK_IMAGE_LAYOUT_TRANSFER_DST_OPTIMAL },
          w1)) ∨
    (∃ s1 w1, self.upload dev width height imageType dataSource w =
      (.error .commandSubmissionFailure, s1, w1)) := by
  unfold ImageManager.upload
  rcases ImageManager_transition_cases dev VK_IMAGE_LAYOUT_UNDEFINED
      VK_IMAGE_LAYOUT_TRANSFER_DST_OPTIMAL self w with ⟨w1, h⟩ | ⟨w1, h⟩ | ⟨w1, h⟩
  · rw [h]
    dsimp only
    rcases BufferManager_toImage_cases dev dataSource self.image (toUInt32 width)
        (toUInt32 height) w1 with ⟨w2, h2⟩ | ⟨w2, h2⟩
    · rw [h2]
      dsimp only
      by_cases hk : imageType = ImageType.TEXTURE
      · rw [if_pos hk]
        rcases ImageManager_createSampler_cases dev
            { self with imageLayout := VK_IMAGE_LAYOUT_TRANSFER_DST_OPTIMAL } w2 with
          ⟨t, w3, hs, h3⟩ | ⟨hd, w3, h3⟩ | ⟨s1, w3, h3, _⟩
        · exact Or.inr (Or.inl ⟨hk, t, w3, hs, h3⟩)
        · exact Or.inr (Or.inr (Or.inl ⟨hk, hd, w3, h3⟩))
        · exact Or.inr (Or.inr (Or.inr ⟨s1, w3, h3⟩))
      · rw [if_neg hk]
        exact Or.inl ⟨hk, w2, rfl⟩
    · rw [h2]
      exact Or.inr (Or.inr (Or.inr ⟨_, w2, rfl⟩))
  · exfalso
    have := (ImageManager_transition_unsupported_iff dev _ _ _ _).mp (by rw [h])
    rw [selectBarrier_undefined_transferDst] at this
    simp at this
  · rw [h]
    exact Or.inr (Or.inr (Or.inr ⟨_, w1, rfl⟩))

/-- The outcome of `ImageManager::create`, case by case: the view cannot be created; no data
source; data source and not a texture; data source and texture; sampler cannot be created;
command submission failure during the upload. -/
theorem ImageManager_create_cases (dev : Device) (format tiling msaaSamples : Nat)
    (usage : VkFlags) (allocationUsage : Nat) (mipLevels width height : Int)
    (imageType : ImageType) (dataSource : Option BufferManager) (self : ImageManager)
    (w : Trace) :
    ∃ img al v,
      (∃ w1, self.create dev format tiling msaaSamples usage allocationUsage mipLevels width
          height imageType dataSource w =
        (.error .failedToCreateImageView,
          { self with image := img, allocation := al, view := v, imageFormat := format,
                      imageLayout := VK_IMAGE_LAYOUT_UNDEFINED,
                      deletionQueue := .destroyImage :: self.deletionQueue }, w1)) ∨
      (dataSource = none ∧
        ∃ w1, self.create dev format tiling msaaSamples usage allocationUsage mipLevels width
            height imageType dataSource w =
          (.ok (),
            { self with image := img, allocation := al, view := v, imageFormat := format,
                        imageLayout := VK_IMAGE_LAYOUT_UNDEFINED,
                        deletionQueue :=
                          .destroyImageView :: .destroyImage :: self.deletionQueue }, w1)) ∨
      (dataSource ≠ none ∧ imageType ≠ ImageType.TEXTURE ∧
        ∃ w1, self.create dev format tiling msaaSamples usage allocationUsage mipLevels width
            height imageType dataSource w =
          (.ok (),
            { self with image := img, allocation := al, view := v, imageFormat := format,
                        imageLayout := VK_IMAGE_LAYOUT_TRANSFER_DST_OPTIMAL,
                        deletionQueue :=
                          .destroyImageView :: .destroyImage :: self.deletionQueue }, w1)) ∨
      (dataSource ≠ none ∧ imageType = ImageType.TEXTURE ∧
        ∃ t w1, (dev (t ++ [.vkCreateSampler self.linkedRenderEngine.device
            (samplerInfo self.linkedRenderEngine.settings)])).result = VK_SUCCESS ∧
          self.create dev format tiling msaaSamples usage allocationUsage mipLevels width
            height imageType dataSource w =
          (.ok (),
            { self with image := img, allocation := al, view := v, imageFormat := format,
                        imageLayout := VK_IMAGE_LAYOUT_SHADER_READ_ONLY_OPTIMAL,
                        sampler := (dev (t ++ [.vkCreateSampler self.linkedRenderEngine.device
                          (samplerInfo self.linkedRenderEngine.settings)])).handle,
                        deletionQueue :=
                          .destroySampler :: .destroyImageView :: .destroyImage ::
                            self.deletionQueue }, w1)) ∨
      (dataSource ≠ none ∧ imageType = ImageType.TEXTURE ∧
        ∃ h w1, self.create dev format tiling msaaSamples usage allocationUsage mipLevels width
            height imageType dataSource w =
          (.error .failedToCreateSampler,
            { self with image := img, allocation := al, view := v, imageFormat := format,
                        imageLayout := VK_IMAGE_LAYOUT_TRANSFER_DST_OPTIMAL,
                        sampler := h,
                        deletionQueue :=
                          .destroyImageView :: .destroyImage :: self.deletionQueue }, w1)) ∨
      (∃ s1 w1, self.create dev format tiling msaaSamples usage allocationUsage mipLevels width
          height imageType dataSource w = (.error .commandSubmissionFailure, s1, w1)) := by
  unfold ImageManager.create
  simp only [issue]
  refine ⟨(dev (w ++ [.vmaCreateImage self.linkedRenderEngine.allocator
      (imageCreateInfo format tiling msaaSamples usage mipLevels width height)
      allocationUsage])).handle,
    (dev (w ++ [.vmaCreateImage self.linkedRenderEngine.allocator
      (imageCreateInfo format tiling msaaSamples usage mipLevels width height)
      allocationUsage])).allocation,
    (dev (w ++ [.vmaCreateImage self.linkedRenderEngine.allocator
      (imageCreateInfo format tiling msaaSamples usage mipLevels width height)
      allocationUsage] ++ [.vkCreateImageView self.linkedRenderEngine.device
        (imageViewCreateInfo (dev (w ++ [.vmaCreateImage self.linkedRenderEngine.allocator
          (imageCreateInfo format tiling msaaSamples usage mipLevels width height)
          allocationUsage])).handle format (decide (imageType = ImageType.DEPTH)))])).handle,
    ?_⟩
  split_ifs with hv
  · exact Or.inl ⟨_, rfl⟩
  · cases dataSource with
    | none => exact Or.inr (Or.inl ⟨rfl, _, rfl⟩)
    | some source =>
      dsimp only
      rcases ImageManager_upload_cases dev width height imageType source _ _ with
        ⟨hk, w1, h⟩ | ⟨hk, t, w1, hs, h⟩ | ⟨hk, hd, w1, h⟩ | ⟨s1, w1, h⟩
      · exact Or.inr (Or.inr (Or.inl ⟨by simp, hk, w1, h⟩))
      · exact Or.inr (Or.inr (Or.inr (Or.inl ⟨by simp, hk, t, w1, hs, h⟩)))
      · exact Or.inr (Or.inr (Or.inr (Or.inr (Or.inl ⟨by simp, hk, hd, w1, h⟩))))
      · exact Or.inr (Or.inr (Or.inr (Or.inr (Or.inr ⟨s1, w1, h⟩))))

/-- The outcome of the sampler part of `AllocatedImage::create`. -/
theorem AllocatedImage_createSampler_cases (dev : Device) (self : AllocatedImage) (w : Trace) :
    (∃ t w1, (dev (t ++ [.vkCreateSampler self.linkedRenderEngine.device
          (samplerInfo self.linkedRenderEngine.settings)])).result = VK_SUCCESS ∧
      self.createSampler dev w =
        (.ok (),
          { self with
            sampler := (dev (t ++ [.vkCreateSampler self.linkedRenderEngine.device
              (samplerInfo self.linkedRenderEngine.settings)])).handle,
            deletionQueue := .destroySampler :: self.deletionQueue }, w1)) ∨
    (∃ h w1, self.createSampler dev w =
        (.error .failedToCreateSampler, { self with sampler := h }, w1)) := by
  unfold AllocatedImage.createSampler
  simp only [issue]
  by_cases h1 : (dev (w ++ [.vkCreateSampler self.linkedRenderEngine.device
      (samplerInfo self.linkedRenderEngine.settings)])).result = VK_SUCCESS
  · simp only [ne_eq, h1, not_true_eq_false, if_false]
    rw [AllocatedImage_transition_of_select dev _ _ _ _ _ _ _
      (selectBarrier_transferDst_shaderRead _)]
    exact Or.inl ⟨w, _, h1, rfl⟩
  · simp only [ne_eq, h1, not_false_eq_true, if_true]
    exact Or.inr ⟨_, _, rfl⟩

/-- The outcome of the upload part of `AllocatedImage::create` (data source supplied). -/
theorem AllocatedImage_upload_cases (dev : Device) (width height : Int) (asTexture : Bool)
    (dataSource : AllocatedBuffer) (self : AllocatedImage) (w : Trace) :
    (asTexture = false ∧
      ∃ w1, self.upload dev width height asTexture dataSource w = (.ok (), self, w1)) ∨
    (asTexture = true ∧
      ∃ t w1, (dev (t ++ [.vkCreateSampler self.linkedRenderEngine.device
          (samplerInfo self.linkedRenderEngine.settings)])).result = VK_SUCCESS ∧
        self.upload dev width height asTexture dataSource w =
          (.ok (),
            { self with
              sampler := (dev (t ++ [.vkCreateSampler self.linkedRenderEngine.device
                (samplerInfo self.linkedRenderEngine.settings)])).handle,
              deletionQueue := .destroySampler :: self.deletionQueue }, w1)) ∨
    (asTexture = true ∧
      ∃ h w1, self.upload dev width height asTexture dataSource w =
        (.error .failedToCreateSampler, { self with sampler := h }, w1)) := by
  unfold AllocatedImage.upload
  rw [AllocatedImage_transition_of_select dev _ _ _ _ _ _ _
    (selectBarrier_undefined_transferDst _)]
  dsimp only
  cases asTexture with
  | false => exact Or.inl ⟨rfl, _, rfl⟩
  | true =>
    simp only [if_true]
    rcases AllocatedImage_createSampler_cases dev self
        (dataSource.toImage dev self.image (toUInt32 width) (toUInt32 height)
          (w ++ roundTrip self.linkedRenderEngine.device self.linkedRenderEngine.graphicsQueue
            self.linkedRenderEngine.commandPool
            (allocatedCommandBuffer dev self.linkedRenderEngine.device
              self.linkedRenderEngine.commandPool w)
            (.vkCmdPipelineBarrier
              (allocatedCommandBuffer dev self.linkedRenderEngine.device
                self.linkedRenderEngine.commandPool w)
              VK_PIPELINE_STAGE_TOP_OF_PIPE_BIT VK_PIPELINE_STAGE_TRANSFER_BIT
              { srcAccessMask := 0, dstAccessMask := VK_ACCESS_TRANSFER_WRITE_BIT,
                oldLayout := VK_IMAGE_LAYOUT_UNDEFINED,
                newLayout := VK_IMAGE_LAYOUT_TRANSFER_DST_OPTIMAL,
                srcQueueFamilyIndex := VK_QUEUE_FAMILY_IGNORED,
                dstQueueFamilyIndex := VK_QUEUE_FAMILY_IGNORED,
                image := self.image,
                subresourceRange :=
                  { aspectMask := VK_IMAGE_ASPECT_COLOR_BIT, baseMipLevel := 0,
                    levelCount := 1, baseArrayLayer := 0, layerCount := 1 } }))) with
      ⟨t, w3, hs, h3⟩ | ⟨hd, w3, h3⟩
    · exact Or.inr (Or.inl ⟨trivial, t, w3, hs, h3⟩)
    · exact Or.inr (Or.inr ⟨trivial, hd, w3, h3⟩)

/-- The outcome of `AllocatedImage::create`, case by case. -/
theorem AllocatedImage_create_cases (dev : Device) (format tiling msaaSamples : Nat)
    (usage : VkFlags) (allocationUsage : Nat) (mipLevels width height : Int)
    (depth asTexture : Bool) (dataSource : Option AllocatedBuffer) (self : AllocatedImage)
    (w : Trace) :
    ∃ img al v,
      (∃ w1, self.create dev format tiling msaaSamples usage allocationUsage mipLevels width
          height depth asTexture dataSource w =
        (.error .failedToCreateImageView,
          { self with image := img, allocation := al, view := v,
                      deletionQueue := .destroyImage :: self.deletionQueue }, w1)) ∨
      ((dataSource = none ∨ asTexture = false) ∧
        ∃ w1, self.create dev format tiling msaaSamples usage allocationUsage mipLevels width
            height depth asTexture dataSource w =
          (.ok (),
            { self with image := img, allocation := al, view := v,
                        deletionQueue :=
                          .destroyImageView :: .destroyImage :: self.deletionQueue }, w1)) ∨
      (dataSource ≠ none ∧ asTexture = true ∧
        ∃ t w1, (dev (t ++ [.vkCreateSampler self.linkedRenderEngine.device
            (samplerInfo self.linkedRenderEngine.settings)])).result = VK_SUCCESS ∧
          self.create dev format tiling msaaSamples usage allocationUsage mipLevels width
            height depth asTexture dataSource w =
          (.ok (),
            { self with image := img, allocation := al, view := v,
                        sampler := (dev (t ++ [.vkCreateSampler self.linkedRenderEngine.device
                          (samplerInfo self.linkedRenderEngine.settings)])).handle,
                        deletionQueue :=
                          .destroySampler :: .destroyImageView :: .destroyImage ::
                            self.deletionQueue }, w1)) ∨
      (dataSource ≠ none ∧ asTexture = true ∧
        ∃ h w1, self.create dev format tiling msaaSamples usage allocationUsage mipLevels width
            height depth asTexture dataSource w =
          (.error .failedToCreateSampler,
            { self with image := img, allocation := al, view := v, sampler := h,
                        deletionQueue :=
                          .destroyImageView :: .destroyImage :: self.deletionQueue }, w1)) := by
  unfold AllocatedImage.create
  simp only [issue]
  refine ⟨(dev (w ++ [.vmaCreateImage self.linkedRenderEngine.allocator
      (imageCreateInfo format tiling msaaSamples usage mipLevels width height)
      allocationUsage])).handle,
    (dev (w ++ [.vmaCreateImage self.linkedRenderEngine.allocator
      (imageCreateInfo format tiling msaaSamples usage mipLevels width height)
      allocationUsage])).allocation,
    (dev (w ++ [.vmaCreateImage self.linkedRenderEngine.allocator
      (imageCreateInfo format tiling msaaSamples usage mipLevels width height)
      allocationUsage] ++ [.vkCreateImageView self.linkedRenderEngine.device
        (imageViewCreateInfo (dev (w ++ [.vmaCreateImage self.linkedRenderEngine.allocator
          (imageCreateInfo format tiling msaaSamples usage mipLevels width height)
          allocationUsage])).handle format depth)])).handle,
    ?_⟩
  split_ifs with hv
  · exact Or.inl ⟨_, rfl⟩
  · cases dataSource with
    | none => exact Or.inr (Or.inl ⟨Or.inl rfl, _, rfl⟩)
    | some source =>
      dsimp only
      rcases AllocatedImage_upload_cases dev width height asTexture source _ _ with
        ⟨hk, w1, h⟩ | ⟨hk, t, w1, hs, h⟩ | ⟨hk, hd, w1, h⟩
      · exact Or.inr (Or.inl ⟨Or.inr hk, w1, h⟩)
      · exact Or.inr (Or.inr (Or.inl ⟨by simp, hk, t, w1, hs, h⟩))
      · exact Or.inr (Or.inr (Or.inr ⟨by simp, hk, hd, w1, h⟩))

/-- The outcome of `AllocatedBuffer::create`. -/
theorem AllocatedBuffer_create_cases (dev : Device) (size : Nat) (usage : VkFlags)
    (allocationUsage : Nat) (self : AllocatedBuffer) (w : Trace) :
    ∃ buf al,
      (self.create dev size usage allocationUsage w =
        (.error .failedToCreateBuffer, { self with buffer := buf, allocation := al },
          w ++ [.vmaCreateBuffer self.linkedRenderEngine.allocator size usage
            allocationUsage])) ∨
      (∃ ptr, self.create dev size usage allocationUsage w =
        (.ok ptr,
          { self with buffer := buf, allocation := al, data := ptr,
                      deletionQueue := .unmapMemory :: .destroyBuffer :: self.deletionQueue },
          w ++ [.vmaCreateBuffer self.linkedRenderEngine.allocator size usage allocationUsage,
                .vmaMapMemory self.linkedRenderEngine.allocator al])) := by
  unfold AllocatedBuffer.create
  simp only [issue]
  refine ⟨(dev (w ++ [.vmaCreateBuffer self.linkedRenderEngine.allocator size usage
      allocationUsage])).handle,
    (dev (w ++ [.vmaCreateBuffer self.linkedRenderEngine.allocator size usage
      allocationUsage])).allocation, ?_⟩
  split_ifs with hv
  · exact Or.inl rfl
  · exact Or.inr ⟨(dev (w ++ [.vmaCreateBuffer self.linkedRenderEngine.allocator size usage
        allocationUsage, .vmaMapMemory self.linkedRenderEngine.allocator
          (dev (w ++ [.vmaCreateBuffer self.linkedRenderEngine.allocator size usage
            allocationUsage])).allocation])).handle, by simp⟩

/-- Each teardown closure of `ImageManager` leaves its own handle null. -/
theorem ImageManager_runTeardown_own (dev : Device) (st : ImageManager × Trace) :
    (ImageManager.runTeardown dev .destroyImage st).1.image = VK_NULL_HANDLE ∧
    (ImageManager.runTeardown dev .destroyImageView st).1.view = VK_NULL_HANDLE ∧
    (ImageManager.runTeardown dev .destroySampler st).1.sampler = VK_NULL_HANDLE := by
  refine ⟨?_, by simp [ImageManager.runTeardown, issue], by simp [ImageManager.runTeardown, issue]⟩
  unfold ImageManager.runTeardown
  by_cases h : st.1.image = VK_NULL_HANDLE
  · simp [h]
  · simp [h, issue]

/-- After `ImageManager::destroy` on a queue that starts with the view and image closures, on an
object whose sampler handle is null, the queue is empty and the three handles are null. -/
theorem ImageManager_destroy_null_noSampler (dev : Device) (s : ImageManager) (w : Trace)
    (q0 : List ImageTeardown)
    (hq : s.deletionQueue = .destroyImageView :: .destroyImage :: q0)
    (hs : s.sampler = VK_NULL_HANDLE) :
    (s.destroy dev w).1.deletionQueue = [] ∧ (s.destroy dev w).1.image = VK_NULL_HANDLE ∧
    (s.destroy dev w).1.view = VK_NULL_HANDLE ∧
    (s.destroy dev w).1.sampler = VK_NULL_HANDLE := by
  unfold ImageManager.destroy
  rw [hq]
  simp only [List.foldl_cons]
  have hV := ImageManager_runTeardown_own dev (s, w)
  have hVn := ImageManager_runTeardown_null dev .destroyImageView (s, w)
  have hI := ImageManager_runTeardown_own dev (ImageManager.runTeardown dev .destroyImageView (s, w))
  have hIn := ImageManager_runTeardown_null dev .destroyImage
    (ImageManager.runTeardown dev .destroyImageView (s, w))
  have hR := ImageManager_runAll_null dev q0
    (ImageManager.runTeardown dev .destroyImage (ImageManager.runTeardown dev .destroyImageView (s, w)))
  exact ⟨trivial, hR.1 hI.1, hR.2.1 (hIn.2.1 hV.2.1), hR.2.2 (hIn.2.2 (hVn.2.2 hs))⟩

/-- After `ImageManager::destroy` on a queue that starts with the sampler, view and image closures,
the queue is empty and the three handles are null. -/
theorem ImageManager_destroy_null_sampler (dev : Device) (s : ImageManager) (w : Trace)
    (q0 : List ImageTeardown)
    (hq : s.deletionQueue = .destroySampler :: .destroyImageView :: .destroyImage :: q0) :
    (s.destroy dev w).1.deletionQueue = [] ∧ (s.destroy dev w).1.image = VK_NULL_HANDLE ∧
    (s.destroy dev w).1.view = VK_NULL_HANDLE ∧
    (s.destroy dev w).1.sampler = VK_NULL_HANDLE := by
  unfold ImageManager.destroy
  rw [hq]
  simp only [List.foldl_cons]
  have hS := ImageManager_runTeardown_own dev (s, w)
  have hV := ImageManager_runTeardown_own dev (ImageManager.runTeardown dev .destroySampler (s, w))
  have hVn := ImageManager_runTeardown_null dev .destroyImageView
    (ImageManager.runTeardown dev .destroySampler (s, w))
  have hI := ImageManager_runTeardown_own dev
    (ImageManager.runTeardown dev .destroyImageView (ImageManager.runTeardown dev .destroySampler (s, w)))
  have hIn := ImageManager_runTeardown_null dev .destroyImage
    (ImageManager.runTeardown dev .destroyImageView (ImageManager.runTeardown dev .destroySampler (s, w)))
  have hR := ImageManager_runAll_null dev q0
    (ImageManager.runTeardown dev .destroyImage
      (ImageManager.runTeardown dev .destroyImageView (ImageManager.runTeardown dev .destroySampler (s, w))))
  exact ⟨trivial, hR.1 hI.1, hR.2.1 (hIn.2.1 hV.2.1), hR.2.2 (hIn.2.2 (hVn.2.2 hS.2.2))⟩

/-- Each teardown closure of `AllocatedImage` leaves its own handle null. -/
theorem AllocatedImage_runTeardown_own (dev : Device) (st : AllocatedImage × Trace) :
    (AllocatedImage.runTeardown dev .destroyImage st).1.image = VK_NULL_HANDLE ∧
    (AllocatedImage.runTeardown dev .destroyImageView st).1.view = VK_NULL_HANDLE ∧
    (AllocatedImage.runTeardown dev .destroySampler st).1.sampler = VK_NULL_HANDLE := by
  refine ⟨?_, by simp [AllocatedImage.runTeardown, issue], by simp [AllocatedImage.runTeardown, issue]⟩
  unfold AllocatedImage.runTeardown
  by_cases h : st.1.image = VK_NULL_HANDLE
  · simp [h]
  · simp [h, issue]

/-- After `AllocatedImage::destroy` on a queue that starts with the view and image closures, on an
object whose sampler handle is null, the queue is empty and the three handles are null. -/
theorem AllocatedImage_destroy_null_noSampler (dev : Device) (s : AllocatedImage) (w : Trace)
    (q0 : List ImageTeardown)
    (hq : s.deletionQueue = .destroyImageView :: .destroyImage :: q0)
    (hs : s.sampler = VK_NULL_HANDLE) :
    (s.destroy dev w).1.deletionQueue = [] ∧ (s.destroy dev w).1.image = VK_NULL_HANDLE ∧
    (s.destroy dev w).1.view = VK_NULL_HANDLE ∧
    (s.destroy dev w).1.sampler = VK_NULL_HANDLE := by
  unfold AllocatedImage.destroy
  rw [hq]
  simp only [List.foldl_cons]
  have hV := AllocatedImage_runTeardown_own dev (s, w)
  have hVn := AllocatedImage_runTeardown_null dev .destroyImageView (s, w)
  have hI := AllocatedImage_runTeardown_own dev (AllocatedImage.runTeardown dev .destroyImageView (s, w))
  have hIn := AllocatedImage_runTeardown_null dev .destroyImage
    (AllocatedImage.runTeardown dev .destroyImageView (s, w))
  have hR := AllocatedImage_runAll_null dev q0
    (AllocatedImage.runTeardown dev .destroyImage (AllocatedImage.runTeardown dev .destroyImageView (s, w)))
  exact ⟨trivial, hR.1 hI.1, hR.2.1 (hIn.2.1 hV.2.1), hR.2.2 (hIn.2.2 (hVn.2.2 hs))⟩

/-- After `AllocatedImage::destroy` on a queue that starts with the sampler, view and image closures,
the queue is empty and the three handles are null. -/
theorem AllocatedImage_destroy_null_sampler (dev : Device) (s : AllocatedImage) (w : Trace)
    (q0 : List ImageTeardown)
    (hq : s.deletionQueue = .destroySampler :: .destroyImageView :: .destroyImage :: q0) :
    (s.destroy dev w).1.deletionQueue = [] ∧ (s.destroy dev w).1.image = VK_NULL_HANDLE ∧
    (s.destroy dev w).1.view = VK_NULL_HANDLE ∧
    (s.destroy dev w).1.sampler = VK_NULL_HANDLE := by
  unfold AllocatedImage.destroy
  rw [hq]
  simp only [List.foldl_cons]
  have hS := AllocatedImage_runTeardown_own dev (s, w)
  have hV := AllocatedImage_runTeardown_own dev (AllocatedImage.runTeardown dev .destroySampler (s, w))
  have hVn := AllocatedImage_runTeardown_null dev .destroyImageView
    (AllocatedImage.runTeardown dev .destroySampler (s, w))
  have hI := AllocatedImage_runTeardown_own dev
    (AllocatedImage.runTeardown dev .destroyImageView (AllocatedImage.runTeardown dev .destroySampler (s, w)))
  have hIn := AllocatedImage_runTeardown_null dev .destroyImage
    (AllocatedImage.runTeardown dev .destroyImageView (AllocatedImage.runTeardown dev .destroySampler (s, w)))
  have hR := AllocatedImage_runAll_null dev q0
    (AllocatedImage.runTeardown dev .destroyImage
      (AllocatedImage.runTeardown dev .destroyImageView (AllocatedImage.runTeardown dev .destroySampler (s, w))))
  exact ⟨trivial, hR.1 hI.1, hR.2.1 (hIn.2.1 hV.2.1), hR.2.2 (hIn.2.2 (hVn.2.2 hS.2.2))⟩

/-- After `AllocatedBuffer::destroy` on a queue that starts with the unmap and buffer closures,
the queue is empty and the buffer handle and the mapped pointer are null. -/
theorem AllocatedBuffer_destroy_null (dev : Device) (s : AllocatedBuffer) (w : Trace)
    (q0 : List BufferTeardown)
    (hq : s.deletionQueue = .unmapMemory :: .destroyBuffer :: q0) :
    (s.destroy dev w).1.deletionQueue = [] ∧ (s.destroy dev w).1.buffer = VK_NULL_HANDLE ∧
    (s.destroy dev w).1.data = VK_NULL_HANDLE := by
  unfold AllocatedBuffer.destroy
  rw [hq]
  simp only [List.foldl_cons]
  refine ⟨trivial, ?_, trivial⟩
  apply AllocatedBuffer_runAll_null
  unfold AllocatedBuffer.runTeardown
  by_cases h : s.buffer = VK_NULL_HANDLE
  · simp [h, issue]
  · simp [h, issue]

/-- C5: after `destroy` on a resource on which `create` returned normally, the deletion queue
is empty and every guarded native handle is the null sentinel: the buffer handle and the mapped
pointer for `AllocatedBuffer` (from any prior state); the image, view and sampler handles for
`ImageManager` and `AllocatedImage`, for every kind and with or without a data source, the
sampler handle being null before `create` as it is on a fresh resource. -/
theorem C5_destroy_after_create (dev : Device) (w : Trace) :
    (∀ (size : Nat) (usage : VkFlags) (allocationUsage : Nat) (b : AllocatedBuffer)
        (ptr : Handle),
      (b.create dev size usage allocationUsage w).1 = .ok ptr →
        (AllocatedBuffer.destroy dev (b.create dev size usage allocationUsage w).2.1
            (b.create dev size usage allocationUsage w).2.2).1.deletionQueue = [] ∧
        (AllocatedBuffer.destroy dev (b.create dev size usage allocationUsage w).2.1
            (b.create dev size usage allocationUsage w).2.2).1.buffer = VK_NULL_HANDLE ∧
        (AllocatedBuffer.destroy dev (b.create dev size usage allocationUsage w).2.1
            (b.create dev size usage allocationUsage w).2.2).1.data = VK_NULL_HANDLE) ∧
    (∀ (format tiling msaaSamples : Nat) (usage : VkFlags) (allocationUsage : Nat)
        (mipLevels width height : Int) (imageType : ImageType)
        (dataSource : Option BufferManager) (m : ImageManager),
      m.sampler = VK_NULL_HANDLE →
      (m.create dev format tiling msaaSamples usage allocationUsage mipLevels width height
        imageType dataSource w).1 = .ok () →
        (ImageManager.destroy dev
          (m.create dev format tiling msaaSamples usage allocationUsage mipLevels width height
            imageType dataSource w).2.1
          (m.create dev format tiling msaaSamples usage allocationUsage mipLevels width height
            imageType dataSource w).2.2).1.deletionQueue = [] ∧
        (ImageManager.destroy dev
          (m.create dev format tiling msaaSamples usage allocationUsage mipLevels width height
            imageType dataSource w).2.1
          (m.create dev format tiling msaaSamples usage allocationUsage mipLevels width height
            imageType dataSource w).2.2).1.image = VK_NULL_HANDLE ∧
        (ImageManager.destroy dev
          (m.create dev format tiling msaaSamples usage allocationUsage mipLevels width height
            imageType dataSource w).2.1
          (m.create dev format tiling msaaSamples usage allocationUsage mipLevels width height
            imageType dataSource w).2.2).1.view = VK_NULL_HANDLE ∧
        (ImageManager.destroy dev
          (m.create dev format tiling msaaSamples usage allocationUsage mipLevels width height
            imageType dataSource w).2.1
          (m.create dev format tiling msaaSamples usage allocationUsage mipLevels width height
            imageType dataSource w).2.2).1.sampler = VK_NULL_HANDLE) ∧
    (∀ (format tiling msaaSamples : Nat) (usage : VkFlags) (allocationUsage : Nat)
        (mipLevels width height : Int) (depth asTexture : Bool)
        (dataSource : Option AllocatedBuffer) (a : AllocatedImage),
      a.sampler = VK_NULL_HANDLE →
      (a.create dev format tiling msaaSamples usage allocationUsage mipLevels width height
        depth asTexture dataSource w).1 = .ok () →
        (AllocatedImage.destroy dev
          (a.create dev format tiling msaaSamples usage allocationUsage mipLevels width height
            depth asTexture dataSource w).2.1
          (a.create dev format tiling msaaSamples usage allocationUsage mipLevels width height
            depth asTexture dataSource w).2.2).1.deletionQueue = [] ∧
        (AllocatedImage.destroy dev
          (a.create dev format tiling msaaSamples usage allocationUsage mipLevels width height
            depth asTexture dataSource w).2.1
          (a.create dev format tiling msaaSamples usage allocationUsage mipLevels width height
            depth asTexture dataSource w).2.2).1.image = VK_NULL_HANDLE ∧
        (AllocatedImage.destroy dev
          (a.create dev format tiling msaaSamples usage allocationUsage mipLevels width height
            depth asTexture dataSource w).2.1
          (a.create dev format tiling msaaSamples usage allocationUsage mipLevels width height
            depth asTexture dataSource w).2.2).1.view = VK_NULL_HANDLE ∧
        (AllocatedImage.destroy dev
          (a.create dev format tiling msaaSamples usage allocationUsage mipLevels width height
            depth asTexture dataSource w).2.1
          (a.create dev format tiling msaaSamples usage allocationUsage mipLevels width height
            depth asTexture dataSource w).2.2).1.sampler = VK_NULL_HANDLE) := by
  refine ⟨?_, ?_, ?_⟩
  · intro size usage allocationUsage b ptr hok
    obtain ⟨buf, al, h | ⟨p, h⟩⟩ := AllocatedBuffer_create_cases dev size usage allocationUsage b w
    · rw [h] at hok
      simp at hok
    · rw [h]
      exact AllocatedBuffer_destroy_null dev _ _ b.deletionQueue rfl
  · intro format tiling msaaSamples usage allocationUsage mipLevels width height imageType
      dataSource m hs hok
    obtain ⟨img, al, v, ⟨w1, h⟩ | ⟨_, w1, h⟩ | ⟨_, _, w1, h⟩ | ⟨_, _, t, w1, _, h⟩ |
        ⟨_, _, hd, w1, h⟩ | ⟨s1, w1, h⟩⟩ :=
      ImageManager_create_cases dev format tiling msaaSamples usage allocationUsage mipLevels
        width height imageType dataSource m w
    · rw [h] at hok
      simp at hok
    · rw [h]
      exact ImageManager_destroy_null_noSampler dev _ _ m.deletionQueue rfl hs
    · rw [h]
      exact ImageManager_destroy_null_noSampler dev _ _ m.deletionQueue rfl hs
    · rw [h]
      exact ImageManager_destroy_null_sampler dev _ _ m.deletionQueue rfl
    · rw [h] at hok
      simp at hok
    · rw [h] at hok
      simp at hok
  · intro format tiling msaaSamples usage allocationUsage mipLevels width height depth
      asTexture dataSource a hs hok
    obtain ⟨img, al, v, ⟨w1, h⟩ | ⟨_, w1, h⟩ | ⟨_, _, t, w1, _, h⟩ | ⟨_, _, hd, w1, h⟩⟩ :=
      AllocatedImage_create_cases dev format tiling msaaSamples usage allocationUsage mipLevels
        width height depth asTexture dataSource a w
    · rw [h] at hok
      simp at hok
    · rw [h]
      exact AllocatedImage_destroy_null_noSampler dev _ _ a.deletionQueue rfl hs
    · rw [h]
      exact AllocatedImage_destroy_null_sampler dev _ _ a.deletionQueue rfl
    · rw [h] at hok
      simp at hok

/-- C5 at concrete inputs: on `okDevice`, a fresh buffer, a fresh `ImageManager` created as a
texture from a data source, and a fresh `AllocatedImage` created as a depth image. -/
theorem C5_destroy_after_create_witness :
    ((AllocatedBuffer.destroy okDevice
        ((AllocatedBuffer.fresh sampleRenderLink).create okDevice 64 0 0 []).2.1
        ((AllocatedBuffer.fresh sampleRenderLink).create okDevice 64 0 0 []).2.2).1.deletionQueue
        = [] ∧
      (AllocatedBuffer.destroy okDevice
        ((AllocatedBuffer.fresh sampleRenderLink).create okDevice 64 0 0 []).2.1
        ((AllocatedBuffer.fresh sampleRenderLink).create okDevice 64 0 0 []).2.2).1.buffer
        = VK_NULL_HANDLE ∧
      (AllocatedBuffer.destroy okDevice
        ((AllocatedBuffer.fresh sampleRenderLink).create okDevice 64 0 0 []).2.1
        ((AllocatedBuffer.fresh sampleRenderLink).create okDevice 64 0 0 []).2.2).1.data
        = VK_NULL_HANDLE) ∧
    ((ImageManager.destroy okDevice
        ((ImageManager.fresh sampleVulkanLink).create okDevice 37 0 1 6 1 1 2 2 .TEXTURE
          (some sampleSource) []).2.1
        ((ImageManager.fresh sampleVulkanLink).create okDevice 37 0 1 6 1 1 2 2 .TEXTURE
          (some sampleSource) []).2.2).1.deletionQueue = [] ∧
      (ImageManager.destroy okDevice
        ((ImageManager.fresh sampleVulkanLink).create okDevice 37 0 1 6 1 1 2 2 .TEXTURE
          (some sampleSource) []).2.1
        ((ImageManager.fresh sampleVulkanLink).create okDevice 37 0 1 6 1 1 2 2 .TEXTURE
          (some sampleSource) []).2.2).1.image = VK_NULL_HANDLE ∧
      (ImageManager.destroy okDevice
        ((ImageManager.fresh sampleVulkanLink).create okDevice 37 0 1 6 1 1 2 2 .TEXTURE
          (some sampleSource) []).2.1
        ((ImageManager.fresh sampleVulkanLink).create okDevice 37 0 1 6 1 1 2 2 .TEXTURE
          (some sampleSource) []).2.2).1.view = VK_NULL_HANDLE ∧
      (ImageManager.destroy okDevice
        ((ImageManager.fresh sampleVulkanLink).create okDevice 37 0 1 6 1 1 2 2 .TEXTURE
          (some sampleSource) []).2.1
        ((ImageManager.fresh sampleVulkanLink).create okDevice 37 0 1 6 1 1 2 2 .TEXTURE
          (some sampleSource) []).2.2).1.sampler = VK_NULL_HANDLE) ∧
    ((AllocatedImage.destroy okDevice
        ((AllocatedImage.fresh sampleRenderLink).create okDevice 126 0 1 32 1 1 2 2 true false
          none []).2.1
        ((AllocatedImage.fresh sampleRenderLink).create okDevice 126 0 1 32 1 1 2 2 true false
          none []).2.2).1.deletionQueue = [] ∧
      (AllocatedImage.destroy okDevice
        ((AllocatedImage.fresh sampleRenderLink).create okDevice 126 0 1 32 1 1 2 2 true false
          none []).2.1
        ((AllocatedImage.fresh sampleRenderLink).create okDevice 126 0 1 32 1 1 2 2 true false
          none []).2.2).1.image = VK_NULL_HANDLE ∧
      (AllocatedImage.destroy okDevice
        ((AllocatedImage.fresh sampleRenderLink).create okDevice 126 0 1 32 1 1 2 2 true false
          none []).2.1
        ((AllocatedImage.fresh sampleRenderLink).create okDevice 126 0 1 32 1 1 2 2 true false
          none []).2.2).1.view = VK_NULL_HANDLE ∧
      (AllocatedImage.destroy okDevice
        ((AllocatedImage.fresh sampleRenderLink).create okDevice 126 0 1 32 1 1 2 2 true false
          none []).2.1
        ((AllocatedImage.fresh sampleRenderLink).create okDevice 126 0 1 32 1 1 2 2 true false
          none []).2.2).1.sampler = VK_NULL_HANDLE) :=
  ⟨(C5_destroy_after_create okDevice []).1 64 0 0 (AllocatedBuffer.fresh sampleRenderLink) 2 rfl,
   (C5_destroy_after_create okDevice []).2.1 37 0 1 6 1 1 2 2 .TEXTURE (some sampleSource)
     (ImageManager.fresh sampleVulkanLink) rfl rfl,
   (C5_destroy_after_create okDevice []).2.2 126 0 1 32 1 1 2 2 true false none
     (AllocatedImage.fresh sampleRenderLink) rfl rfl⟩

/-- The driver calls of `ImageManager::destroy` when the queue holds the view and image closures and
the image handle is not null. -/
theorem ImageManager_destroy_trace_noSampler (dev : Device) (s : ImageManager) (w : Trace)
    (hq : s.deletionQueue = [.destroyImageView, .destroyImage])
    (hi : s.image ≠ VK_NULL_HANDLE) :
    (s.destroy dev w).2 =
      w ++ [.vkDestroyImageView s.linkedRenderEngine.device s.view,
            .vmaDestroyImage s.linkedRenderEngine.allocator s.image s.allocation] := by
  unfold ImageManager.destroy
  rw [hq]
  simp [ImageManager.runTeardown, issue, hi]

/-- The driver calls of `ImageManager::destroy` when the queue holds the sampler, view and image
closures and the image handle is not null. -/
theorem ImageManager_destroy_trace_sampler (dev : Device) (s : ImageManager) (w : Trace)
    (hq : s.deletionQueue = [.destroySampler, .destroyImageView, .destroyImage])
    (hi : s.image ≠ VK_NULL_HANDLE) :
    (s.destroy dev w).2 =
      w ++ [.vkDestroySampler s.linkedRenderEngine.device s.sampler,
            .vkDestroyImageView s.linkedRenderEngine.device s.view,
            .vmaDestroyImage s.linkedRenderEngine.allocator s.image s.allocation] := by
  unfold ImageManager.destroy
  rw [hq]
  simp [ImageManager.runTeardown, issue, hi]

/-- The driver calls of `ImageManager::destroy` when the queue holds only the image closure and the
image handle is not null. -/
theorem ImageManager_destroy_trace_imageOnly (dev : Device) (s : ImageManager) (w : Trace)
    (hq : s.deletionQueue = [.destroyImage])
    (hi : s.image ≠ VK_NULL_HANDLE) :
    (s.destroy dev w).2 =
      w ++ [.vmaDestroyImage s.linkedRenderEngine.allocator s.image s.allocation] := by
  unfold ImageManager.destroy
  rw [hq]
  simp [ImageManager.runTeardown, issue, hi]

/-- The driver calls of `AllocatedImage::destroy` when the queue holds the view and image closures and
the image handle is not null. -/
theorem AllocatedImage_destroy_trace_noSampler (dev : Device) (s : AllocatedImage) (w : Trace)
    (hq : s.deletionQueue = [.destroyImageView, .destroyImage])
    (hi : s.image ≠ VK_NULL_HANDLE) :
    (s.destroy dev w).2 =
      w ++ [.vkDestroyImageView s.linkedRenderEngine.device s.view,
            .vmaDestroyImage s.linkedRenderEngine.allocator s.image s.allocation] := by
  unfold AllocatedImage.destroy
  rw [hq]
  simp [AllocatedImage.runTeardown, issue, hi]

/-- The driver calls of `AllocatedImage::destroy` when the queue holds the sampler, view and image
closures and the image handle is not null. -/
theorem AllocatedImage_destroy_trace_sampler (dev : Device) (s : AllocatedImage) (w : Trace)
    (hq : s.deletionQueue = [.destroySampler, .destroyImageView, .destroyImage])
    (hi : s.image ≠ VK_NULL_HANDLE) :
    (s.destroy dev w).2 =
      w ++ [.vkDestroySampler s.linkedRenderEngine.device s.sampler,
            .vkDestroyImageView s.linkedRenderEngine.device s.view,
            .vmaDestroyImage s.linkedRenderEngine.allocator s.image s.allocation] := by
  unfold AllocatedImage.destroy
  rw [hq]
  simp [AllocatedImage.runTeardown, issue, hi]

/-- The driver calls of `AllocatedImage::destroy` when the queue holds only the image closure and the
image handle is not null. -/
theorem AllocatedImage_destroy_trace_imageOnly (dev : Device) (s : AllocatedImage) (w : Trace)
    (hq : s.deletionQueue = [.destroyImage])
    (hi : s.image ≠ VK_NULL_HANDLE) :
    (s.destroy dev w).2 =
      w ++ [.vmaDestroyImage s.linkedRenderEngine.allocator s.image s.allocation] := by
  unfold AllocatedImage.destroy
  rw [hq]
  simp [AllocatedImage.runTeardown, issue, hi]

/-- The driver calls of `AllocatedBuffer::destroy` when the queue holds the unmap and buffer
closures and the buffer handle is not null. -/
theorem AllocatedBuffer_destroy_trace (dev : Device) (s : AllocatedBuffer) (w : Trace)
    (hq : s.deletionQueue = [.unmapMemory, .destroyBuffer])
    (hb : s.buffer ≠ VK_NULL_HANDLE) :
    (s.destroy dev w).2 =
      w ++ [.vmaUnmapMemory s.linkedRenderEngine.allocator s.allocation,
            .vmaDestroyBuffer s.linkedRenderEngine.allocator s.buffer s.allocation] := by
  unfold AllocatedBuffer.destroy
  rw [hq]
  simp [AllocatedBuffer.runTeardown, issue, hb]

/-- C6: `create` pushes each teardown closure to the front of the queue and `destroy` runs the
queue front to back, so the closures run in reverse order of registration.  For a resource whose
queue was empty before `create` (a fresh one), after a `create` that returned normally with a
non-null image (buffer) handle: an image created as a texture from a data source has queue
sampler, view, image and `destroy` issues exactly destroy-sampler, destroy-view,
destroy-image+allocation; an image without sampler has queue view, image and `destroy` issues
exactly destroy-view, destroy-image+allocation; a buffer has queue unmap, destroy-buffer and
`destroy` issues exactly unmap, destroy-buffer+allocation. -/
theorem C6_destroy_reverse_order (dev : Device) (w : Trace) :
    (∀ (format tiling msaaSamples : Nat) (usage : VkFlags) (allocationUsage : Nat)
        (mipLevels width height : Int) (imageType : ImageType)
        (dataSource : Option BufferManager) (m : ImageManager),
      m.deletionQueue = [] →
      (m.create dev format tiling msaaSamples usage allocationUsage mipLevels width height
          imageType dataSource w).1 = .ok () →
      (m.create dev format tiling msaaSamples usage allocationUsage mipLevels width height
          imageType dataSource w).2.1.image ≠ VK_NULL_HANDLE →
        (m.create dev format tiling msaaSamples usage allocationUsage mipLevels width height
          imageType dataSource w).2.1.deletionQueue =
          (if dataSource.isSome = true ∧ imageType = ImageType.TEXTURE
            then [ImageTeardown.destroySampler] else []) ++
            [.destroyImageView, .destroyImage] ∧
        (ImageManager.destroy dev
          (m.create dev format tiling msaaSamples usage allocationUsage mipLevels width height
          imageType dataSource w).2.1
          (m.create dev format tiling msaaSamples usage allocationUsage mipLevels width height
          imageType dataSource w).2.2).2 =
          (m.create dev format tiling msaaSamples usage allocationUsage mipLevels width height
          imageType dataSource w).2.2 ++
          ((if dataSource.isSome = true ∧ imageType = ImageType.TEXTURE
            then [DeviceCall.vkDestroySampler m.linkedRenderEngine.device
              (m.create dev format tiling msaaSamples usage allocationUsage mipLevels width height
          imageType dataSource w).2.1.sampler]
            else []) ++
            [.vkDestroyImageView m.linkedRenderEngine.device
              (m.create dev format tiling msaaSamples usage allocationUsage mipLevels width height
          imageType dataSource w).2.1.view,
             .vmaDestroyImage m.linkedRenderEngine.allocator
              (m.create dev format tiling msaaSamples usage allocationUsage mipLevels width height
          imageType dataSource w).2.1.image
              (m.create dev format tiling msaaSamples usage allocationUsage mipLevels width height
          imageType dataSource w).2.1.allocation])) ∧
    (∀ (format tiling msaaSamples : Nat) (usage : VkFlags) (allocationUsage : Nat)
        (mipLevels width height : Int) (depth asTexture : Bool)
        (dataSource : Option AllocatedBuffer) (a : AllocatedImage),
      a.deletionQueue = [] →
      (a.create dev format tiling msaaSamples usage allocationUsage mipLevels width height
          depth asTexture dataSource w).1 = .ok () →
      (a.create dev format tiling msaaSamples usage allocationUsage mipLevels width height
          depth asTexture dataSource w).2.1.image ≠ VK_NULL_HANDLE →
        (a.create dev format tiling msaaSamples usage allocationUsage mipLevels width height
          depth asTexture dataSource w).2.1.deletionQueue =
          (if dataSource.isSome = true ∧ asTexture = true
            then [ImageTeardown.destroySampler] else []) ++
            [.destroyImageView, .destroyImage] ∧
        (AllocatedImage.destroy dev
          (a.create dev format tiling msaaSamples usage allocationUsage mipLevels width height
          depth asTexture dataSource w).2.1
          (a.create dev format tiling msaaSamples usage allocationUsage mipLevels width height
          depth asTexture dataSource w).2.2).2 =
          (a.create dev format tiling msaaSamples usage allocationUsage mipLevels width height
          depth asTexture dataSource w).2.2 ++
          ((if dataSource.isSome = true ∧ asTexture = true
            then [DeviceCall.vkDestroySampler a.linkedRenderEngine.device
              (a.create dev format tiling msaaSamples usage allocationUsage mipLevels width height
          depth asTexture dataSource w).2.1.sampler]
            else []) ++
            [.vkDestroyImageView a.linkedRenderEngine.device
              (a.create dev format tiling msaaSamples usage allocationUsage mipLevels width height
          depth asTexture dataSource w).2.1.view,
             .vmaDestroyImage a.linkedRenderEngine.allocator
              (a.create dev format tiling msaaSamples usage allocationUsage mipLevels width height
          depth asTexture dataSource w).2.1.image
              (a.create dev format tiling msaaSamples usage allocationUsage mipLevels width height
          depth asTexture dataSource w).2.1.allocation])) ∧
    (∀ (size : Nat) (usage : VkFlags) (allocationUsage : Nat) (b : AllocatedBuffer)
        (ptr : Handle),
      b.deletionQueue = [] →
      (b.create dev size usage allocationUsage w).1 = .ok ptr →
      (b.create dev size usage allocationUsage w).2.1.buffer ≠ VK_NULL_HANDLE →
        (b.create dev size usage allocationUsage w).2.1.deletionQueue = [.unmapMemory, .destroyBuffer] ∧
        (AllocatedBuffer.destroy dev (b.create dev size usage allocationUsage w).2.1
          (b.create dev size usage allocationUsage w).2.2).2 =
          (b.create dev size usage allocationUsage w).2.2 ++
            [.vmaUnmapMemory b.linkedRenderEngine.allocator
              (b.create dev size usage allocationUsage w).2.1.allocation,
             .vmaDestroyBuffer b.linkedRenderEngine.allocator
              (b.create dev size usage allocationUsage w).2.1.buffer
              (b.create dev size usage allocationUsage w).2.1.allocation]) := by
  refine ⟨?_, ?_, ?_⟩
  · intro format tiling msaaSamples usage allocationUsage mipLevels width height imageType
      dataSource m hq hok himg
    obtain ⟨img, al, v, ⟨w1, h⟩ | ⟨hd, w1, h⟩ | ⟨hd, hk, w1, h⟩ | ⟨hd, hk, t, w1, _, h⟩ |
        ⟨_, _, hh, w1, h⟩ | ⟨s1, w1, h⟩⟩ :=
      ImageManager_create_cases dev format tiling msaaSamples usage allocationUsage mipLevels
        width height imageType dataSource m w
    · rw [h] at hok
      simp at hok
    · rw [h] at himg ⊢
      refine ⟨by simp [hq, hd], ?_⟩
      rw [ImageManager_destroy_trace_noSampler dev _ _ (by simp [hq]) (by simpa using himg)]
      simp [hd]
    · rw [h] at himg ⊢
      refine ⟨by simp [hq, hk], ?_⟩
      rw [ImageManager_destroy_trace_noSampler dev _ _ (by simp [hq]) (by simpa using himg)]
      simp [hk]
    · have hsome : dataSource.isSome = true := by
        cases dataSource with
        | none => exact absurd rfl hd
        | some x => rfl
      rw [h] at himg ⊢
      refine ⟨by simp [hq, hk, hsome], ?_⟩
      rw [ImageManager_destroy_trace_sampler dev _ _ (by simp [hq]) (by simpa using himg)]
      simp [hk, hsome]
    · rw [h] at hok
      simp at hok
    · rw [h] at hok
      simp at hok
  · intro format tiling msaaSamples usage allocationUsage mipLevels width height depth
      asTexture dataSource a hq hok himg
    obtain ⟨img, al, v, ⟨w1, h⟩ | ⟨hd, w1, h⟩ | ⟨hd, hk, t, w1, _, h⟩ | ⟨_, _, hh, w1, h⟩⟩ :=
      AllocatedImage_create_cases dev format tiling msaaSamples usage allocationUsage mipLevels
        width height depth asTexture dataSource a w
    · rw [h] at hok
      simp at hok
    · have hcond : ¬ (dataSource.isSome = true ∧ asTexture = true) := by
        rcases hd with hd | hd
        · simp [hd]
        · simp [hd]
      rw [h] at himg ⊢
      refine ⟨by simp [hq, hcond], ?_⟩
      rw [AllocatedImage_destroy_trace_noSampler dev _ _ (by simp [hq]) (by simpa using himg)]
      simp [hcond]
    · have hsome : dataSource.isSome = true := by
        cases dataSource with
        | none => exact absurd rfl hd
        | some x => rfl
      rw [h] at himg ⊢
      refine ⟨by simp [hq, hk, hsome], ?_⟩
      rw [AllocatedImage_destroy_trace_sampler dev _ _ (by simp [hq]) (by simpa using himg)]
      simp [hk, hsome]
    · rw [h] at hok
      simp at hok
  · intro size usage allocationUsage b ptr hq hok hbuf
    obtain ⟨buf, al, h | ⟨p, h⟩⟩ := AllocatedBuffer_create_cases dev size usage allocationUsage b w
    · rw [h] at hok
      simp at hok
    · rw [h] at hbuf ⊢
      refine ⟨by simp [hq], ?_⟩
      rw [AllocatedBuffer_destroy_trace dev _ _ (by simp [hq]) (by simpa using hbuf)]

/-- C6 at concrete inputs: on `okDevice`, a fresh `ImageManager` created as a texture from a
data source (sampler 17, view 2, image 1), a fresh `AllocatedImage` created as a depth image
without data source, and a fresh buffer. -/
theorem C6_destroy_reverse_order_witness :
    (((ImageManager.fresh sampleVulkanLink).create okDevice 37 0 1 6 1 1 2 2 .TEXTURE
        (some sampleSource) []).2.1.deletionQueue = [.destroySampler, .destroyImageView, .destroyImage] ∧
      (ImageManager.destroy okDevice ((ImageManager.fresh sampleVulkanLink).create okDevice 37 0 1 6 1 1 2 2 .TEXTURE
        (some sampleSource) []).2.1
        ((ImageManager.fresh sampleVulkanLink).create okDevice 37 0 1 6 1 1 2 2 .TEXTURE
        (some sampleSource) []).2.2).2 =
        ((ImageManager.fresh sampleVulkanLink).create okDevice 37 0 1 6 1 1 2 2 .TEXTURE
        (some sampleSource) []).2.2 ++
          [.vkDestroySampler 1 17, .vkDestroyImageView 1 2, .vmaDestroyImage 4 1 101]) ∧
    (((AllocatedImage.fresh sampleRenderLink).create okDevice 126 0 1 32 1 1 2 2 true false
        none []).2.1.deletionQueue = [.destroyImageView, .destroyImage] ∧
      (AllocatedImage.destroy okDevice ((AllocatedImage.fresh sampleRenderLink).create okDevice 126 0 1 32 1 1 2 2 true false
        none []).2.1
        ((AllocatedImage.fresh sampleRenderLink).create okDevice 126 0 1 32 1 1 2 2 true false
        none []).2.2).2 =
        ((AllocatedImage.fresh sampleRenderLink).create okDevice 126 0 1 32 1 1 2 2 true false
        none []).2.2 ++
          [.vkDestroyImageView 1 2, .vmaDestroyImage 4 1 101]) ∧
    (((AllocatedBuffer.fresh sampleRenderLink).create okDevice 64 0 0 []).2.1.deletionQueue =
        [.unmapMemory, .destroyBuffer] ∧
      (AllocatedBuffer.destroy okDevice
        ((AllocatedBuffer.fresh sampleRenderLink).create okDevice 64 0 0 []).2.1
        ((AllocatedBuffer.fresh sampleRenderLink).create okDevice 64 0 0 []).2.2).2 =
        ((AllocatedBuffer.fresh sampleRenderLink).create okDevice 64 0 0 []).2.2 ++
          [.vmaUnmapMemory 4 101, .vmaDestroyBuffer 4 1 101]) :=
  ⟨(C6_destroy_reverse_order okDevice []).1 37 0 1 6 1 1 2 2 .TEXTURE (some sampleSource)
      (ImageManager.fresh sampleVulkanLink) rfl rfl (by decide),
   (C6_destroy_reverse_order okDevice []).2.1 126 0 1 32 1 1 2 2 true false none
      (AllocatedImage.fresh sampleRenderLink) rfl rfl (by decide),
   (C6_destroy_reverse_order okDevice []).2.2 64 0 0 (AllocatedBuffer.fresh sampleRenderLink) 2
      rfl rfl (by decide)⟩

/-! ## Teardown closures and the null sentinel -/

/-- C7, the code at its failing inputs: only the buffer and image closures compare their handle
with `VK_NULL_HANDLE`; the view, sampler and unmap closures issue their driver call
unconditionally, and the unmap closure resets nothing.
(1) On a driver whose `vmaMapMemory` fails, `AllocatedBuffer::create` returns the null pointer
and `destroy` still issues `vmaUnmapMemory`.
(2) Run on a fresh object, whose view and sampler handles are null, the view and sampler
closures of `ImageManager` and of `AllocatedImage` issue `vkDestroyImageView` and
`vkDestroySampler` on the null handle.
(3) After two successive `create` calls on one `ImageManager` (texture with data source),
`destroy` runs the older sampler and view closures on handles the newer ones have just reset:
it issues `vkDestroySampler` and `vkDestroyImageView` on the null handle, while the guarded
image closure issues nothing the second time. -/
theorem C7_teardown_unguarded :
    (((AllocatedBuffer.fresh sampleRenderLink).create mapFailDevice 64 0 0 []).1 =
        .ok VK_NULL_HANDLE ∧
      (AllocatedBuffer.destroy mapFailDevice
        ((AllocatedBuffer.fresh sampleRenderLink).create mapFailDevice 64 0 0 []).2.1
        ((AllocatedBuffer.fresh sampleRenderLink).create mapFailDevice 64 0 0 []).2.2).2 =
        [.vmaCreateBuffer 4 64 0 0, .vmaMapMemory 4 101, .vmaUnmapMemory 4 101,
         .vmaDestroyBuffer 4 1 101]) ∧
    (ImageManager.runTeardown okDevice .destroyImageView
        (ImageManager.fresh sampleVulkanLink, []) =
      (ImageManager.fresh sampleVulkanLink, [.vkDestroyImageView 1 VK_NULL_HANDLE]) ∧
     ImageManager.runTeardown okDevice .destroySampler
        (ImageManager.fresh sampleVulkanLink, []) =
      (ImageManager.fresh sampleVulkanLink, [.vkDestroySampler 1 VK_NULL_HANDLE]) ∧
     AllocatedImage.runTeardown okDevice .destroyImageView
        (AllocatedImage.fresh sampleRenderLink, []) =
      (AllocatedImage.fresh sampleRenderLink, [.vkDestroyImageView 1 VK_NULL_HANDLE]) ∧
     AllocatedImage.runTeardown okDevice .destroySampler
        (AllocatedImage.fresh sampleRenderLink, []) =
      (AllocatedImage.fresh sampleRenderLink, [.vkDestroySampler 1 VK_NULL_HANDLE]) ∧
     ImageManager.runTeardown okDevice .destroyImage
        (ImageManager.fresh sampleVulkanLink, []) =
      (ImageManager.fresh sampleVulkanLink, [])) ∧
    ((ImageManager.destroy okDevice
        (ImageManager.create okDevice 37 0 1 6 1 1 2 2 .TEXTURE (some sampleSource)
          ((ImageManager.fresh sampleVulkanLink).create okDevice 37 0 1 6 1 1 2 2 .TEXTURE
            (some sampleSource) []).2.1
          ((ImageManager.fresh sampleVulkanLink).create okDevice 37 0 1 6 1 1 2 2 .TEXTURE
            (some sampleSource) []).2.2).2.1
        (ImageManager.create okDevice 37 0 1 6 1 1 2 2 .TEXTURE (some sampleSource)
          ((ImageManager.fresh sampleVulkanLink).create okDevice 37 0 1 6 1 1 2 2 .TEXTURE
            (some sampleSource) []).2.1
          ((ImageManager.fresh sampleVulkanLink).create okDevice 37 0 1 6 1 1 2 2 .TEXTURE
            (some sampleSource) []).2.2).2.2).2.drop 48 =
      [.vkDestroySampler 1 41, .vkDestroyImageView 1 26, .vmaDestroyImage 4 25 125,
       .vkDestroySampler 1 VK_NULL_HANDLE, .vkDestroyImageView 1 VK_NULL_HANDLE]) := by
  refine ⟨⟨rfl, rfl⟩, ⟨rfl, rfl, rfl, rfl, rfl⟩, ?_⟩
  decide

/-! ## Partial construction -/

/-- C8: when image `create` fails part-way on a resource whose queue was empty (a fresh one), a
subsequent `destroy` frees only what was created.  If the driver fails view creation, `create`
throws the view-creation `runtime_error`; whenever it throws that error only the
image+allocation closure is registered and, the image handle being non-null, `destroy` issues
exactly one driver call, destroy-image+allocation.  Whenever `create` throws the
sampler-creation `runtime_error`, the view and image closures are registered and `destroy`
issues exactly destroy-view then destroy-image+allocation, no destroy-sampler.  Both for
`ImageManager` and for `AllocatedImage`. -/
theorem C8_partial_create_destroy (dev : Device) (w : Trace) :
    (∀ (format tiling msaaSamples : Nat) (usage : VkFlags) (allocationUsage : Nat)
        (mipLevels width height : Int) (imageType : ImageType) (dataSource : Option BufferManager) (m : ImageManager),
      m.deletionQueue = [] →
      ((dev (w ++
          [.vmaCreateImage m.linkedRenderEngine.allocator
            (imageCreateInfo format tiling msaaSamples usage mipLevels width height)
            allocationUsage,
           .vkCreateImageView m.linkedRenderEngine.device
            (imageViewCreateInfo
              (dev (w ++ [.vmaCreateImage m.linkedRenderEngine.allocator
                (imageCreateInfo format tiling msaaSamples usage mipLevels width height)
                allocationUsage])).handle
              format (decide (imageType = ImageType.DEPTH)))])).result ≠ VK_SUCCESS →
        (m.create dev format tiling msaaSamples usage allocationUsage mipLevels width height
          imageType dataSource w).1 = .error .failedToCreateImageView) ∧
      ((m.create dev format tiling msaaSamples usage allocationUsage mipLevels width height
          imageType dataSource w).1 = .error .failedToCreateImageView →
        (m.create dev format tiling msaaSamples usage allocationUsage mipLevels width height
          imageType dataSource w).2.1.deletionQueue = [.destroyImage] ∧
        ((m.create dev format tiling msaaSamples usage allocationUsage mipLevels width height
          imageType dataSource w).2.1.image ≠ VK_NULL_HANDLE →
          (ImageManager.destroy dev
            (m.create dev format tiling msaaSamples usage allocationUsage mipLevels width height
          imageType dataSource w).2.1
            (m.create dev format tiling msaaSamples usage allocationUsage mipLevels width height
          imageType dataSource w).2.2).2 =
          (m.create dev format tiling msaaSamples usage allocationUsage mipLevels width height
          imageType dataSource w).2.2 ++
            [.vmaDestroyImage m.linkedRenderEngine.allocator
              (m.create dev format tiling msaaSamples usage allocationUsage mipLevels width height
          imageType dataSource w).2.1.image
              (m.create dev format tiling msaaSamples usage allocationUsage mipLevels width height
          imageType dataSource w).2.1.allocation])) ∧
      ((m.create dev format tiling msaaSamples usage allocationUsage mipLevels width height
          imageType dataSource w).1 = .error .failedToCreateSampler →
        (m.create dev format tiling msaaSamples usage allocationUsage mipLevels width height
          imageType dataSource w).2.1.deletionQueue = [.destroyImageView, .destroyImage] ∧
        ((m.create dev format tiling msaaSamples usage allocationUsage mipLevels width height
          imageType dataSource w).2.1.image ≠ VK_NULL_HANDLE →
          (ImageManager.destroy dev
            (m.create dev format tiling msaaSamples usage allocationUsage mipLevels width height
          imageType dataSource w).2.1
            (m.create dev format tiling msaaSamples usage allocationUsage mipLevels width height
          imageType dataSource w).2.2).2 =
          (m.create dev format tiling msaaSamples usage allocationUsage mipLevels width height
          imageType dataSource w).2.2 ++
            [.vkDestroyImageView m.linkedRenderEngine.device
              (m.create dev format tiling msaaSamples usage allocationUsage mipLevels width height
          imageType dataSource w).2.1.view,
             .vmaDestroyImage m.linkedRenderEngine.allocator
              (m.create dev format tiling msaaSamples usage allocationUsage mipLevels width height
          imageType dataSource w).2.1.image
              (m.create dev format tiling msaaSamples usage allocationUsage mipLevels width height
          imageType dataSource w).2.1.allocation]))) ∧
    (∀ (format tiling msaaSamples : Nat) (usage : VkFlags) (allocationUsage : Nat)
        (mipLevels width height : Int) (depth asTexture : Bool) (dataSource : Option AllocatedBuffer) (a : AllocatedImage),
      a.deletionQueue = [] →
      ((dev (w ++
          [.vmaCreateImage a.linkedRenderEngine.allocator
            (imageCreateInfo format tiling msaaSamples usage mipLevels width height)
            allocationUsage,
           .vkCreateImageView a.linkedRenderEngine.device
            (imageViewCreateInfo
              (dev (w ++ [.vmaCreateImage a.linkedRenderEngine.allocator
                (imageCreateInfo format tiling msaaSamples usage mipLevels width height)
                allocationUsage])).handle
              format depth)])).result ≠ VK_SUCCESS →
        (a.create dev format tiling msaaSamples usage allocationUsage mipLevels width height
          depth asTexture dataSource w).1 = .error .failedToCreateImageView) ∧
      ((a.create dev format tiling msaaSamples usage allocationUsage mipLevels width height
          depth asTexture dataSource w).1 = .error .failedToCreateImageView →
        (a.create dev format tiling msaaSamples usage allocationUsage mipLevels width height
          depth asTexture dataSource w).2.1.deletionQueue = [.destroyImage] ∧
        ((a.create dev format tiling msaaSamples usage allocationUsage mipLevels width height
          depth asTexture dataSource w).2.1.image ≠ VK_NULL_HANDLE →
          (AllocatedImage.destroy dev
            (a.create dev format tiling msaaSamples usage allocationUsage mipLevels width height
          depth asTexture dataSource w).2.1
            (a.create dev format tiling msaaSamples usage allocationUsage mipLevels width height
          depth asTexture dataSource w).2.2).2 =
          (a.create dev format tiling msaaSamples usage allocationUsage mipLevels width height
          depth asTexture dataSource w).2.2 ++
            [.vmaDestroyImage a.linkedRenderEngine.allocator
              (a.create dev format tiling msaaSamples usage allocationUsage mipLevels width height
          depth asTexture dataSource w).2.1.image
              (a.create dev format tiling msaaSamples usage allocationUsage mipLevels width height
          depth asTexture dataSource w).2.1.allocation])) ∧
      ((a.create dev format tiling msaaSamples usage allocationUsage mipLevels width height
          depth asTexture dataSource w).1 = .error .failedToCreateSampler →
        (a.create dev format tiling msaaSamples usage allocationUsage mipLevels width height
          depth asTexture dataSource w).2.1.deletionQueue = [.destroyImageView, .destroyImage] ∧
        ((a.create dev format tiling msaaSamples usage allocationUsage mipLevels width height
          depth asTexture dataSource w).2.1.image ≠ VK_NULL_HANDLE →
          (AllocatedImage.destroy dev
            (a.create dev format tiling msaaSamples usage allocationUsage mipLevels width height
          depth asTexture dataSource w).2.1
            (a.create dev format tiling msaaSamples usage allocationUsage mipLevels width height
          depth asTexture dataSource w).2.2).2 =
          (a.create dev format tiling msaaSamples usage allocationUsage mipLevels width height
          depth asTexture dataSource w).2.2 ++
            [.vkDestroyImageView a.linkedRenderEngine.device
              (a.create dev format tiling msaaSamples usage allocationUsage mipLevels width height
          depth asTexture dataSource w).2.1.view,
             .vmaDestroyImage a.linkedRenderEngine.allocator
              (a.create dev format tiling msaaSamples usage allocationUsage mipLevels width height
          depth asTexture dataSource w).2.1.image
              (a.create dev format tiling msaaSamples usage allocationUsage mipLevels width height
          depth asTexture dataSource w).2.1.allocation]))) := by
  refine ⟨?_, ?_⟩
  · intro format tiling msaaSamples usage allocationUsage mipLevels width height imageType
      dataSource m hq
    refine ⟨fun hfail => ?_, ?_⟩
    · simp only [ImageManager.create, issue, List.append_assoc, List.singleton_append,
        List.cons_append, List.nil_append]
      rw [if_pos hfail]
    · obtain ⟨img, al, v, ⟨w1, h⟩ | ⟨hd, w1, h⟩ | ⟨hd, hk, w1, h⟩ | ⟨hd, hk, t, w1, _, h⟩ |
          ⟨_, _, hh, w1, h⟩ | ⟨s1, w1, h⟩⟩ :=
        ImageManager_create_cases dev format tiling msaaSamples usage allocationUsage mipLevels
          width height imageType dataSource m w
      all_goals rw [h]
      · refine ⟨fun _ => ⟨by simp [hq], fun himg => ?_⟩, fun hc => by simp at hc⟩
        rw [ImageManager_destroy_trace_imageOnly dev _ _ (by simp [hq]) (by simpa using himg)]
      · exact ⟨fun hc => by simp at hc, fun hc => by simp at hc⟩
      · exact ⟨fun hc => by simp at hc, fun hc => by simp at hc⟩
      · exact ⟨fun hc => by simp at hc, fun hc => by simp at hc⟩
      · refine ⟨fun hc => by simp at hc, fun _ => ⟨by simp [hq], fun himg => ?_⟩⟩
        rw [ImageManager_destroy_trace_noSampler dev _ _ (by simp [hq]) (by simpa using himg)]
      · exact ⟨fun hc => by simp at hc, fun hc => by simp at hc⟩
  · intro format tiling msaaSamples usage allocationUsage mipLevels width height depth
      asTexture dataSource a hq
    refine ⟨fun hfail => ?_, ?_⟩
    · simp only [AllocatedImage.create, issue, List.append_assoc, List.singleton_append,
        List.cons_append, List.nil_append]
      rw [if_pos hfail]
    · obtain ⟨img, al, v, ⟨w1, h⟩ | ⟨hd, w1, h⟩ | ⟨hd, hk, t, w1, _, h⟩ | ⟨_, _, hh, w1, h⟩⟩ :=
        AllocatedImage_create_cases dev format tiling msaaSamples usage allocationUsage
          mipLevels width height depth asTexture dataSource a w
      all_goals rw [h]
      · refine ⟨fun _ => ⟨by simp [hq], fun himg => ?_⟩, fun hc => by simp at hc⟩
        rw [AllocatedImage_destroy_trace_imageOnly dev _ _ (by simp [hq]) (by simpa using himg)]
      · exact ⟨fun hc => by simp at hc, fun hc => by simp at hc⟩
      · exact ⟨fun hc => by simp at hc, fun hc => by simp at hc⟩
      · refine ⟨fun hc => by simp at hc, fun _ => ⟨by simp [hq], fun himg => ?_⟩⟩
        rw [AllocatedImage_destroy_trace_noSampler dev _ _ (by simp [hq]) (by simpa using himg)]

/-- C8 at concrete inputs: fresh images created as textures from a data source, on a driver
that fails view creation and on a driver that fails sampler creation. -/
theorem C8_partial_create_destroy_witness :
    (((ImageManager.fresh sampleVulkanLink).create viewFailDevice 37 0 1 6 1 1 2 2 .TEXTURE
        (some sampleSource) []).1 = .error .failedToCreateImageView ∧
      (ImageManager.destroy viewFailDevice ((ImageManager.fresh sampleVulkanLink).create viewFailDevice 37 0 1 6 1 1 2 2 .TEXTURE
        (some sampleSource) []).2.1
        ((ImageManager.fresh sampleVulkanLink).create viewFailDevice 37 0 1 6 1 1 2 2 .TEXTURE
        (some sampleSource) []).2.2).2 =
        ((ImageManager.fresh sampleVulkanLink).create viewFailDevice 37 0 1 6 1 1 2 2 .TEXTURE
        (some sampleSource) []).2.2 ++ [.vmaDestroyImage 4 1 101] ∧
      (ImageManager.destroy samplerFailDevice ((ImageManager.fresh sampleVulkanLink).create samplerFailDevice 37 0 1 6 1 1 2 2 .TEXTURE
        (some sampleSource) []).2.1
        ((ImageManager.fresh sampleVulkanLink).create samplerFailDevice 37 0 1 6 1 1 2 2 .TEXTURE
        (some sampleSource) []).2.2).2 =
        ((ImageManager.fresh sampleVulkanLink).create samplerFailDevice 37 0 1 6 1 1 2 2 .TEXTURE
        (some sampleSource) []).2.2 ++
          [.vkDestroyImageView 1 2, .vmaDestroyImage 4 1 101]) ∧
    (((AllocatedImage.fresh sampleRenderLink).create viewFailDevice 37 0 1 6 1 1 2 2 false true
        (some sampleAllocatedSource) []).1 = .error .failedToCreateImageView ∧
      (AllocatedImage.destroy viewFailDevice ((AllocatedImage.fresh sampleRenderLink).create viewFailDevice 37 0 1 6 1 1 2 2 false true
        (some sampleAllocatedSource) []).2.1
        ((AllocatedImage.fresh sampleRenderLink).create viewFailDevice 37 0 1 6 1 1 2 2 false true
        (some sampleAllocatedSource) []).2.2).2 =
        ((AllocatedImage.fresh sampleRenderLink).create viewFailDevice 37 0 1 6 1 1 2 2 false true
        (some sampleAllocatedSource) []).2.2 ++ [.vmaDestroyImage 4 1 101] ∧
      (AllocatedImage.destroy samplerFailDevice ((AllocatedImage.fresh sampleRenderLink).create samplerFailDevice 37 0 1 6 1 1 2 2 false true
        (some sampleAllocatedSource) []).2.1
        ((AllocatedImage.fresh sampleRenderLink).create samplerFailDevice 37 0 1 6 1 1 2 2 false true
        (some sampleAllocatedSource) []).2.2).2 =
        ((AllocatedImage.fresh sampleRenderLink).create samplerFailDevice 37 0 1 6 1 1 2 2 false true
        (some sampleAllocatedSource) []).2.2 ++
          [.vkDestroyImageView 1 2, .vmaDestroyImage 4 1 101]) :=
  ⟨⟨((C8_partial_create_destroy viewFailDevice []).1 37 0 1 6 1 1 2 2 .TEXTURE (some sampleSource)
      (ImageManager.fresh sampleVulkanLink) rfl).1 (by decide),
    (((C8_partial_create_destroy viewFailDevice []).1 37 0 1 6 1 1 2 2 .TEXTURE (some sampleSource)
      (ImageManager.fresh sampleVulkanLink) rfl).2.1 rfl).2 (by decide),
    (((C8_partial_create_destroy samplerFailDevice []).1 37 0 1 6 1 1 2 2 .TEXTURE (some sampleSource)
      (ImageManager.fresh sampleVulkanLink) rfl).2.2 rfl).2 (by decide)⟩,
   ⟨((C8_partial_create_destroy viewFailDevice []).2 37 0 1 6 1 1 2 2 false true (some sampleAllocatedSource)
      (AllocatedImage.fresh sampleRenderLink) rfl).1 (by decide),
    (((C8_partial_create_destroy viewFailDevice []).2 37 0 1 6 1 1 2 2 false true (some sampleAllocatedSource)
      (AllocatedImage.fresh sampleRenderLink) rfl).2.1 rfl).2 (by decide),
    (((C8_partial_create_destroy samplerFailDevice []).2 37 0 1 6 1 1 2 2 false true (some sampleAllocatedSource)
      (AllocatedImage.fresh sampleRenderLink) rfl).2.2 rfl).2 (by decide)⟩⟩

/-! ## Layout after creation -/

/-- The barrier selected by the `if` chain carries the two layouts it was asked for. -/
theorem selectBarrier_layouts (image : Handle) (oldLayout newLayout : VkImageLayout)
    (barrier : VkImageMemoryBarrier) (sourceStage destinationStage : VkFlags)
    (h : selectBarrier image oldLayout newLayout = .ok (barrier, sourceStage, destinationStage)) :
    barrier.oldLayout = oldLayout ∧ barrier.newLayout = newLayout := by
  unfold selectBarrier initialBarrier at h
  simp only at h
  split_ifs at h <;>
    (simp only [Except.ok.injEq, Prod.mk.injEq] at h
     obtain ⟨hb, _, _⟩ := h
     subst hb
     exact ⟨rfl, rfl⟩)

/-- A normal return of `ImageManager::transition` adds one barrier step. -/
theorem ImageManager_transition_ok_steps (dev : Device) (oldLayout newLayout : VkImageLayout)
    (self : ImageManager) (w : Trace)
    (hok : (self.transition dev oldLayout newLayout w).1 = .ok ()) :
    steps (self.transition dev oldLayout newLayout w).2.2 =
      steps w ++ [.barrier oldLayout newLayout] := by
  cases hsel : selectBarrier self.image oldLayout newLayout with
  | error e =>
    rw [ImageManager_transition_of_select_error dev _ _ self w e hsel] at hok
    simp at hok
  | ok b =>
    obtain ⟨barrier, sourceStage, destinationStage⟩ := b
    obtain ⟨ho, hn⟩ := selectBarrier_layouts _ _ _ _ _ _ hsel
    rw [ImageManager_transition_of_select dev _ _ self w _ _ _ hsel] at hok ⊢
    split_ifs at hok ⊢
    simp [steps, roundTrip, allocateCall, DeviceCall.step, ho, hn]

/-- A normal return of the spec-modelled `BufferManager::toImage` adds one copy step. -/
theorem BufferManager_toImage_ok_steps (dev : Device) (self : BufferManager) (image : Handle)
    (width height : Nat) (w : Trace)
    (hok : (self.toImage dev image width height w).1 = .ok ()) :
    steps (self.toImage dev image width height w).2 = steps w ++ [.copyBufferToImage] := by
  unfold BufferManager.toImage at hok ⊢
  simp only [VulkanGraphicsEngineLink_begin_eq, issue] at hok ⊢
  by_cases h1 : (dev (w ++ [allocateCall self.linkedRenderEngine.device
      self.linkedRenderEngine.commandPool])).result = VK_SUCCESS
  · rw [if_pos h1] at hok ⊢
    dsimp only at hok ⊢
    rw [VulkanGraphicsEngineLink_end_eq] at hok ⊢
    split_ifs at hok ⊢
    simp [steps, allocateCall, DeviceCall.step]
  · rw [if_neg h1] at hok
    simp at hok

/-- A normal return of the sampler part of `ImageManager::create` adds the sampler creation and
the barrier to shader-read-only. -/
theorem ImageManager_createSampler_ok_steps (dev : Device) (self : ImageManager) (w : Trace)
    (hok : (self.createSampler dev w).1 = .ok ()) :
    steps (self.createSampler dev w).2.2 =
      steps w ++ [.createSampler,
        .barrier VK_IMAGE_LAYOUT_TRANSFER_DST_OPTIMAL
          VK_IMAGE_LAYOUT_SHADER_READ_ONLY_OPTIMAL] := by
  unfold ImageManager.createSampler at hok ⊢
  simp only [issue] at hok ⊢
  split_ifs at hok ⊢ with h1
  rw [ImageManager_transition_ok_steps dev _ _ _ _ hok]
  simp [steps, DeviceCall.step]

/-- A normal return of the upload part of `ImageManager::create` adds the barrier to
transfer-destination and the copy, then for a texture the sampler creation and the barrier to
shader-read-only. -/
theorem ImageManager_upload_ok_steps (dev : Device) (width height : Int) (imageType : ImageType)
    (dataSource : BufferManager) (self : ImageManager) (w : Trace)
    (hok : (self.upload dev width height imageType dataSource w).1 = .ok ()) :
    steps (self.upload dev width height imageType dataSource w).2.2 =
      steps w ++
        [.barrier VK_IMAGE_LAYOUT_UNDEFINED VK_IMAGE_LAYOUT_TRANSFER_DST_OPTIMAL,
         .copyBufferToImage] ++
        (if imageType = ImageType.TEXTURE then
          [.createSampler,
           .barrier VK_IMAGE_LAYOUT_TRANSFER_DST_OPTIMAL
             VK_IMAGE_LAYOUT_SHADER_READ_ONLY_OPTIMAL]
         else []) := by
  unfold ImageManager.upload at hok ⊢
  rcases hT : self.transition dev VK_IMAGE_LAYOUT_UNDEFINED
      VK_IMAGE_LAYOUT_TRANSFER_DST_OPTIMAL w with ⟨r1, s1, w1⟩
  have hT1 := ImageManager_transition_ok_steps dev VK_IMAGE_LAYOUT_UNDEFINED
    VK_IMAGE_LAYOUT_TRANSFER_DST_OPTIMAL self w
  rw [hT] at hT1 hok
  cases r1 with
  | error e => simp at hok
  | ok u =>
    dsimp only at hok hT1 ⊢
    rcases hC : dataSource.toImage dev s1.image (toUInt32 width) (toUInt32 height) w1 with
      ⟨r2, w2⟩
    have hC1 := BufferManager_toImage_ok_steps dev dataSource s1.image (toUInt32 width)
      (toUInt32 height) w1
    rw [hC] at hC1 hok
    cases r2 with
    | error e => simp at hok
    | ok u2 =>
      dsimp only at hok hC1 ⊢
      by_cases hk : imageType = ImageType.TEXTURE
      · simp only [if_pos hk] at hok ⊢
        rw [ImageManager_createSampler_ok_steps dev s1 w2 hok, hC1 rfl, hT1 rfl]
        simp
      · simp only [if_neg hk] at hok ⊢
        simp only [hC1 rfl, hT1 rfl]
        simp

/-- A normal return of `ImageManager::create` adds no step without a data source, and the steps
of the upload with one. -/
theorem ImageManager_create_ok_steps (dev : Device) (format tiling msaaSamples : Nat)
    (usage : VkFlags) (allocationUsage : Nat) (mipLevels width height : Int)
    (imageType : ImageType) (dataSource : Option BufferManager) (self : ImageManager)
    (w : Trace)
    (hok : (self.create dev format tiling msaaSamples usage allocationUsage mipLevels width
      height imageType dataSource w).1 = .ok ()) :
    steps (self.create dev format tiling msaaSamples usage allocationUsage mipLevels width
      height imageType dataSource w).2.2 =
      steps w ++
        (if dataSource.isSome = true then
          [.barrier VK_IMAGE_LAYOUT_UNDEFINED VK_IMAGE_LAYOUT_TRANSFER_DST_OPTIMAL,
           .copyBufferToImage] ++
          (if imageType = ImageType.TEXTURE then
            [.createSampler,
             .barrier VK_IMAGE_LAYOUT_TRANSFER_DST_OPTIMAL
               VK_IMAGE_LAYOUT_SHADER_READ_ONLY_OPTIMAL]
           else [])
         else []) := by
  unfold ImageManager.create at hok ⊢
  simp only [issue] at hok ⊢
  split_ifs at hok with hv
  rw [if_neg hv]
  cases dataSource with
  | none => simp [steps, DeviceCall.step]
  | some source =>
    dsimp only at hok ⊢
    rw [ImageManager_upload_ok_steps dev width height imageType source _ _ hok]
    simp [steps, DeviceCall.step]

/-- C9: whenever `ImageManager::create` returns normally (on a fresh resource or any other),
the tracked layout on return is determined by the data source and the kind.  Without data
source it is undefined and no barrier, copy or sampler creation was issued.  With a data source
and a kind other than TEXTURE it is transfer-destination, after exactly one barrier undefined
to transfer-destination followed by the buffer copy.  With a data source and kind TEXTURE it is
shader-read-only, after the same two steps, then the sampler creation, then the barrier
transfer-destination to shader-read-only. -/
theorem C9_create_tracked_layout (dev : Device) (w : Trace) (format tiling msaaSamples : Nat)
    (usage : VkFlags) (allocationUsage : Nat) (mipLevels width height : Int)
    (imageType : ImageType) (dataSource : Option BufferManager) (m : ImageManager)
    (hok : (m.create dev format tiling msaaSamples usage allocationUsage mipLevels width height
        imageType dataSource w).1 = .ok ()) :
    (dataSource = none →
      (m.create dev format tiling msaaSamples usage allocationUsage mipLevels width height
        imageType dataSource w).2.1.imageLayout = VK_IMAGE_LAYOUT_UNDEFINED ∧
      steps (m.create dev format tiling msaaSamples usage allocationUsage mipLevels width height
        imageType dataSource w).2.2 = steps w) ∧
    (dataSource ≠ none → imageType ≠ ImageType.TEXTURE →
      (m.create dev format tiling msaaSamples usage allocationUsage mipLevels width height
        imageType dataSource w).2.1.imageLayout = VK_IMAGE_LAYOUT_TRANSFER_DST_OPTIMAL ∧
      steps (m.create dev format tiling msaaSamples usage allocationUsage mipLevels width height
        imageType dataSource w).2.2 =
        steps w ++
          [.barrier VK_IMAGE_LAYOUT_UNDEFINED VK_IMAGE_LAYOUT_TRANSFER_DST_OPTIMAL,
           .copyBufferToImage]) ∧
    (dataSource ≠ none → imageType = ImageType.TEXTURE →
      (m.create dev format tiling msaaSamples usage allocationUsage mipLevels width height
        imageType dataSource w).2.1.imageLayout = VK_IMAGE_LAYOUT_SHADER_READ_ONLY_OPTIMAL ∧
      steps (m.create dev format tiling msaaSamples usage allocationUsage mipLevels width height
        imageType dataSource w).2.2 =
        steps w ++
          [.barrier VK_IMAGE_LAYOUT_UNDEFINED VK_IMAGE_LAYOUT_TRANSFER_DST_OPTIMAL,
           .copyBufferToImage, .createSampler,
           .barrier VK_IMAGE_LAYOUT_TRANSFER_DST_OPTIMAL
             VK_IMAGE_LAYOUT_SHADER_READ_ONLY_OPTIMAL]) := by
  have hsteps := ImageManager_create_ok_steps dev format tiling msaaSamples usage
    allocationUsage mipLevels width height imageType dataSource m w hok
  obtain ⟨img, al, v, ⟨w1, h⟩ | ⟨hd, w1, h⟩ | ⟨hd, hk, w1, h⟩ | ⟨hd, hk, t, w1, _, h⟩ |
      ⟨_, _, hh, w1, h⟩ | ⟨s1, w1, h⟩⟩ :=
    ImageManager_create_cases dev format tiling msaaSamples usage allocationUsage mipLevels
      width height imageType dataSource m w
  · rw [h] at hok
    simp at hok
  · refine ⟨fun _ => ⟨by rw [h], ?_⟩, fun hn => absurd hd hn, fun hn => absurd hd hn⟩
    rw [hsteps]
    simp [hd]
  · have hsome : dataSource.isSome = true := by
      cases dataSource with
      | none => exact absurd rfl hd
      | some x => rfl
    refine ⟨fun hn => absurd hn hd, fun _ _ => ⟨by rw [h], ?_⟩, fun _ hn => absurd hn hk⟩
    rw [hsteps]
    simp [hsome, hk]
  · have hsome : dataSource.isSome = true := by
      cases dataSource with
      | none => exact absurd rfl hd
      | some x => rfl
    refine ⟨fun hn => absurd hn hd, fun _ hn => absurd hk hn, fun _ _ => ⟨by rw [h], ?_⟩⟩
    rw [hsteps]
    simp [hsome, hk]
  · rw [h] at hok
    simp at hok
  · rw [h] at hok
    simp at hok

/-- C9 at concrete inputs: a fresh `ImageManager` on `okDevice`, created as a color image
without data source, as a depth image from a data source, and as a texture from a data
source. -/
theorem C9_create_tracked_layout_witness :
    (((ImageManager.fresh sampleVulkanLink).create okDevice 37 0 1 6 1 1 2 2 .COLOR
        none []).2.1.imageLayout = VK_IMAGE_LAYOUT_UNDEFINED ∧
      steps ((ImageManager.fresh sampleVulkanLink).create okDevice 37 0 1 6 1 1 2 2 .COLOR
        none []).2.2 = steps []) ∧
    (((ImageManager.fresh sampleVulkanLink).create okDevice 37 0 1 6 1 1 2 2 .DEPTH
        (some sampleSource) []).2.1.imageLayout = VK_IMAGE_LAYOUT_TRANSFER_DST_OPTIMAL ∧
      steps ((ImageManager.fresh sampleVulkanLink).create okDevice 37 0 1 6 1 1 2 2 .DEPTH
        (some sampleSource) []).2.2 =
        steps [] ++
          [.barrier VK_IMAGE_LAYOUT_UNDEFINED VK_IMAGE_LAYOUT_TRANSFER_DST_OPTIMAL,
           .copyBufferToImage]) ∧
    (((ImageManager.fresh sampleVulkanLink).create okDevice 37 0 1 6 1 1 2 2 .TEXTURE
        (some sampleSource) []).2.1.imageLayout =
        VK_IMAGE_LAYOUT_SHADER_READ_ONLY_OPTIMAL ∧
      steps ((ImageManager.fresh sampleVulkanLink).create okDevice 37 0 1 6 1 1 2 2 .TEXTURE
        (some sampleSource) []).2.2 =
        steps [] ++
          [.barrier VK_IMAGE_LAYOUT_UNDEFINED VK_IMAGE_LAYOUT_TRANSFER_DST_OPTIMAL,
           .copyBufferToImage, .createSampler,
           .barrier VK_IMAGE_LAYOUT_TRANSFER_DST_OPTIMAL
             VK_IMAGE_LAYOUT_SHADER_READ_ONLY_OPTIMAL]) :=
  ⟨(C9_create_tracked_layout okDevice [] 37 0 1 6 1 1 2 2 .COLOR none
      (ImageManager.fresh sampleVulkanLink) rfl).1 rfl,
   (C9_create_tracked_layout okDevice [] 37 0 1 6 1 1 2 2 .DEPTH (some sampleSource)
      (ImageManager.fresh sampleVulkanLink) rfl).2.1 (by decide) (by decide),
   (C9_create_tracked_layout okDevice [] 37 0 1 6 1 1 2 2 .TEXTURE (some sampleSource)
      (ImageManager.fresh sampleVulkanLink) rfl).2.2 (by decide) rfl⟩

/-! ## Sampler handle after creation -/

/-- C10: on a driver whose successful sampler creation returns a non-null handle, after
`create` has returned normally the sampler handle is non-null when the kind is TEXTURE and a
data source was supplied, and is the null sentinel when the kind is DEPTH, with or without a
data source, the sampler handle being null before `create` as it is on a fresh resource.  For
`AllocatedImage` the kind is the pair of flags: `asTexture` with a data source gives a non-null
sampler, and without `asTexture` (a depth image in particular) the sampler stays null. -/
theorem C10_sampler_after_create (dev : Device) (w : Trace)
    (hdev : ∀ (t : Trace) (device : Handle) (createInfo : VkSamplerCreateInfo),
      (dev (t ++ [.vkCreateSampler device createInfo])).result = VK_SUCCESS →
        (dev (t ++ [.vkCreateSampler device createInfo])).handle ≠ VK_NULL_HANDLE) :
    (∀ (format tiling msaaSamples : Nat) (usage : VkFlags) (allocationUsage : Nat)
        (mipLevels width height : Int) (source : BufferManager) (m : ImageManager),
      (m.create dev format tiling msaaSamples usage allocationUsage mipLevels width height
          ImageType.TEXTURE (some source) w).1 = .ok () →
        (m.create dev format tiling msaaSamples usage allocationUsage mipLevels width height
          ImageType.TEXTURE (some source) w).2.1.sampler ≠ VK_NULL_HANDLE) ∧
    (∀ (format tiling msaaSamples : Nat) (usage : VkFlags) (allocationUsage : Nat)
        (mipLevels width height : Int) (dataSource : Option BufferManager) (m : ImageManager),
      m.sampler = VK_NULL_HANDLE →
      (m.create dev format tiling msaaSamples usage allocationUsage mipLevels width height
          ImageType.DEPTH dataSource w).1 = .ok () →
        (m.create dev format tiling msaaSamples usage allocationUsage mipLevels width height
          ImageType.DEPTH dataSource w).2.1.sampler = VK_NULL_HANDLE) ∧
    (∀ (format tiling msaaSamples : Nat) (usage : VkFlags) (allocationUsage : Nat)
        (mipLevels width height : Int) (depth : Bool) (source : AllocatedBuffer)
        (a : AllocatedImage),
      (a.create dev format tiling msaaSamples usage allocationUsage mipLevels width height
          depth true (some source) w).1 = .ok () →
        (a.create dev format tiling msaaSamples usage allocationUsage mipLevels width height
          depth true (some source) w).2.1.sampler ≠ VK_NULL_HANDLE) ∧
    (∀ (format tiling msaaSamples : Nat) (usage : VkFlags) (allocationUsage : Nat)
        (mipLevels width height : Int) (depth : Bool) (dataSource : Option AllocatedBuffer)
        (a : AllocatedImage),
      a.sampler = VK_NULL_HANDLE →
      (a.create dev format tiling msaaSamples usage allocationUsage mipLevels width height
          depth false dataSource w).1 = .ok () →
        (a.create dev format tiling msaaSamples usage allocationUsage mipLevels width height
          depth false dataSource w).2.1.sampler = VK_NULL_HANDLE) := by
  refine ⟨?_, ?_, ?_, ?_⟩
  · intro format tiling msaaSamples usage allocationUsage mipLevels width height source m hok
    obtain ⟨img, al, v, ⟨w1, h⟩ | ⟨hd, w1, h⟩ | ⟨hd, hk, w1, h⟩ | ⟨hd, hk, t, w1, hs, h⟩ |
        ⟨_, _, hh, w1, h⟩ | ⟨s1, w1, h⟩⟩ :=
      ImageManager_create_cases dev format tiling msaaSamples usage allocationUsage mipLevels
        width height ImageType.TEXTURE (some source) m w
    · rw [h] at hok
      simp at hok
    · simp at hd
    · exact absurd rfl hk
    · rw [h]
      exact hdev t _ _ hs
    · rw [h] at hok
      simp at hok
    · rw [h] at hok
      simp at hok
  · intro format tiling msaaSamples usage allocationUsage mipLevels width height dataSource m
      hs hok
    obtain ⟨img, al, v, ⟨w1, h⟩ | ⟨hd, w1, h⟩ | ⟨hd, hk, w1, h⟩ | ⟨hd, hk, t, w1, _, h⟩ |
        ⟨_, hk, hh, w1, h⟩ | ⟨s1, w1, h⟩⟩ :=
      ImageManager_create_cases dev format tiling msaaSamples usage allocationUsage mipLevels
        width height ImageType.DEPTH dataSource m w
    · rw [h] at hok
      simp at hok
    · rw [h]
      exact hs
    · rw [h]
      exact hs
    · simp at hk
    · simp at hk
    · rw [h] at hok
      simp at hok
  · intro format tiling msaaSamples usage allocationUsage mipLevels width height depth source
      a hok
    obtain ⟨img, al, v, ⟨w1, h⟩ | ⟨hd, w1, h⟩ | ⟨hd, hk, t, w1, hs, h⟩ | ⟨_, _, hh, w1, h⟩⟩ :=
      AllocatedImage_create_cases dev format tiling msaaSamples usage allocationUsage mipLevels
        width height depth true (some source) a w
    · rw [h] at hok
      simp at hok
    · simp at hd
    · rw [h]
      exact hdev t _ _ hs
    · rw [h] at hok
      simp at hok
  · intro format tiling msaaSamples usage allocationUsage mipLevels width height depth
      dataSource a hs hok
    obtain ⟨img, al, v, ⟨w1, h⟩ | ⟨hd, w1, h⟩ | ⟨hd, hk, t, w1, _, h⟩ | ⟨_, hk, hh, w1, h⟩⟩ :=
      AllocatedImage_create_cases dev format tiling msaaSamples usage allocationUsage mipLevels
        width height depth false dataSource a w
    · rw [h] at hok
      simp at hok
    · rw [h]
      exact hs
    · simp at hk
    · simp at hk

/-- C10 at concrete inputs: fresh images on `okDevice`, created as a texture from a data source
(sampler handle 17) and as a depth image. -/
theorem C10_sampler_after_create_witness :
    ((ImageManager.fresh sampleVulkanLink).create okDevice 37 0 1 6 1 1 2 2 .TEXTURE
        (some sampleSource) []).2.1.sampler ≠ VK_NULL_HANDLE ∧
    ((ImageManager.fresh sampleVulkanLink).create okDevice 126 0 1 32 1 1 2 2 .DEPTH
        none []).2.1.sampler = VK_NULL_HANDLE ∧
    ((AllocatedImage.fresh sampleRenderLink).create okDevice 37 0 1 6 1 1 2 2 false true
        (some sampleAllocatedSource) []).2.1.sampler ≠ VK_NULL_HANDLE ∧
    ((AllocatedImage.fresh sampleRenderLink).create okDevice 126 0 1 32 1 1 2 2 true false
        none []).2.1.sampler = VK_NULL_HANDLE :=
  ⟨(C10_sampler_after_create okDevice []
      (fun _ _ _ _ => by simp [okDevice, VK_NULL_HANDLE])).1 37 0 1 6 1 1 2 2
      sampleSource (ImageManager.fresh sampleVulkanLink) rfl,
   (C10_sampler_after_create okDevice []
      (fun _ _ _ _ => by simp [okDevice, VK_NULL_HANDLE])).2.1 126 0 1 32 1 1 2 2
      none (ImageManager.fresh sampleVulkanLink) rfl rfl,
   (C10_sampler_after_create okDevice []
      (fun _ _ _ _ => by simp [okDevice, VK_NULL_HANDLE])).2.2.1 37 0 1 6 1 1 2 2
      false sampleAllocatedSource (AllocatedImage.fresh sampleRenderLink) rfl,
   (C10_sampler_after_create okDevice []
      (fun _ _ _ _ => by simp [okDevice, VK_NULL_HANDLE])).2.2.2 126 0 1 32 1 1 2 2
      true none (AllocatedImage.fresh sampleRenderLink) rfl rfl⟩

/-! ## Buffer creation -/

/-- C11: `AllocatedBuffer::create(size, usage, policy)`, from every object state and trace, does
one of two things according to what the allocator answers to `vmaCreateBuffer`.  When the
buffer cannot be created it throws the allocation `runtime_error`: the only driver call issued
is `vmaCreateBuffer` (nothing is mapped) and the deletion queue and the data pointer are as
before.  Otherwise it registers the buffer+allocation closure, issues `vmaMapMemory` on the new
allocation and registers the unmap closure, so the queue has exactly two more entries, unmap at
the front; it returns the pointer the map call left, which is also the stored `data` member. -/
theorem C11_buffer_create (dev : Device) (size : Nat) (usage : VkFlags) (allocationUsage : Nat)
    (b : AllocatedBuffer) (w : Trace) :
    let created := dev (w ++ [.vmaCreateBuffer b.linkedRenderEngine.allocator size usage
      allocationUsage])
    let mapped := dev (w ++ [.vmaCreateBuffer b.linkedRenderEngine.allocator size usage
      allocationUsage, .vmaMapMemory b.linkedRenderEngine.allocator created.allocation])
    b.create dev size usage allocationUsage w =
      if created.result ≠ VK_SUCCESS then
        (.error .failedToCreateBuffer,
          { data := b.data, buffer := created.handle, deletionQueue := b.deletionQueue,
            linkedRenderEngine := b.linkedRenderEngine, allocation := created.allocation },
          w ++ [.vmaCreateBuffer b.linkedRenderEngine.allocator size usage allocationUsage])
      else
        (.ok mapped.handle,
          { data := mapped.handle, buffer := created.handle,
            deletionQueue := .unmapMemory :: .destroyBuffer :: b.deletionQueue,
            linkedRenderEngine := b.linkedRenderEngine, allocation := created.allocation },
          w ++ [.vmaCreateBuffer b.linkedRenderEngine.allocator size usage allocationUsage,
                .vmaMapMemory b.linkedRenderEngine.allocator created.allocation]) := by
  intro created mapped
  unfold AllocatedBuffer.create
  simp only [issue]
  split_ifs with h
  · rfl
  · simp [mapped, created]

/-! ## Image allocation failure -/

/-- C12, the code at its failing input: neither image `create` looks at the result of
`vmaCreateImage`.  Without a data source, for every driver, the driver calls are exactly
`vmaCreateImage` then `vkCreateImageView` and the outcome depends on the view creation alone.
On `imageAllocFailDevice`, whose `vmaCreateImage` fails and leaves the image handle null, a
fresh `ImageManager` and a fresh `AllocatedImage` created as textures from a data source go on
to create a view of the null image, record both transitions, the copy and the sampler creation,
and return normally. -/
theorem C12_image_allocation_failure_ignored :
    (∀ (dev : Device) (format tiling msaaSamples : Nat) (usage : VkFlags)
        (allocationUsage : Nat) (mipLevels width height : Int) (imageType : ImageType)
        (m : ImageManager) (w : Trace),
      (m.create dev format tiling msaaSamples usage allocationUsage mipLevels width height
          imageType none w).2.2 =
        w ++ [.vmaCreateImage m.linkedRenderEngine.allocator
                (imageCreateInfo format tiling msaaSamples usage mipLevels width height)
                allocationUsage,
              .vkCreateImageView m.linkedRenderEngine.device
                (imageViewCreateInfo
                  (dev (w ++ [.vmaCreateImage m.linkedRenderEngine.allocator
                    (imageCreateInfo format tiling msaaSamples usage mipLevels width height)
                    allocationUsage])).handle
                  format (decide (imageType = ImageType.DEPTH)))] ∧
      (m.create dev format tiling msaaSamples usage allocationUsage mipLevels width height
          imageType none w).1 =
        if (dev (w ++ [.vmaCreateImage m.linkedRenderEngine.allocator
                (imageCreateInfo format tiling msaaSamples usage mipLevels width height)
                allocationUsage,
              .vkCreateImageView m.linkedRenderEngine.device
                (imageViewCreateInfo
                  (dev (w ++ [.vmaCreateImage m.linkedRenderEngine.allocator
                    (imageCreateInfo format tiling msaaSamples usage mipLevels width height)
                    allocationUsage])).handle
                  format (decide (imageType = ImageType.DEPTH)))])).result ≠ VK_SUCCESS
        then .error .failedToCreateImageView else .ok ()) ∧
    (∀ (dev : Device) (format tiling msaaSamples : Nat) (usage : VkFlags)
        (allocationUsage : Nat) (mipLevels width height : Int) (depth asTexture : Bool)
        (a : AllocatedImage) (w : Trace),
      (a.create dev format tiling msaaSamples usage allocationUsage mipLevels width height
          depth asTexture none w).2.2 =
        w ++ [.vmaCreateImage a.linkedRenderEngine.allocator
                (imageCreateInfo format tiling msaaSamples usage mipLevels width height)
                allocationUsage,
              .vkCreateImageView a.linkedRenderEngine.device
                (imageViewCreateInfo
                  (dev (w ++ [.vmaCreateImage a.linkedRenderEngine.allocator
                    (imageCreateInfo format tiling msaaSamples usage mipLevels width height)
                    allocationUsage])).handle
                  format depth)] ∧
      (a.create dev format tiling msaaSamples usage allocationUsage mipLevels width height
          depth asTexture none w).1 =
        if (dev (w ++ [.vmaCreateImage a.linkedRenderEngine.allocator
                (imageCreateInfo format tiling msaaSamples usage mipLevels width height)
                allocationUsage,
              .vkCreateImageView a.linkedRenderEngine.device
                (imageViewCreateInfo
                  (dev (w ++ [.vmaCreateImage a.linkedRenderEngine.allocator
                    (imageCreateInfo format tiling msaaSamples usage mipLevels width height)
                    allocationUsage])).handle
                  format depth)])).result ≠ VK_SUCCESS
        then .error .failedToCreateImageView else .ok ()) ∧
    ((imageAllocFailDevice
        [.vmaCreateImage 4 (imageCreateInfo 37 0 1 6 1 2 2) 1]).result ≠ VK_SUCCESS ∧
      ((ImageManager.fresh sampleVulkanLink).create imageAllocFailDevice 37 0 1 6 1 1 2 2
        .TEXTURE (some sampleSource) []).1 = .ok () ∧
      ((ImageManager.fresh sampleVulkanLink).create imageAllocFailDevice 37 0 1 6 1 1 2 2
        .TEXTURE (some sampleSource) []).2.2.take 2 =
        [.vmaCreateImage 4 (imageCreateInfo 37 0 1 6 1 2 2) 1,
         .vkCreateImageView 1 (imageViewCreateInfo VK_NULL_HANDLE 37 false)] ∧
      steps ((ImageManager.fresh sampleVulkanLink).create imageAllocFailDevice 37 0 1 6 1 1 2 2
        .TEXTURE (some sampleSource) []).2.2 =
        [.barrier VK_IMAGE_LAYOUT_UNDEFINED VK_IMAGE_LAYOUT_TRANSFER_DST_OPTIMAL,
         .copyBufferToImage, .createSampler,
         .barrier VK_IMAGE_LAYOUT_TRANSFER_DST_OPTIMAL
           VK_IMAGE_LAYOUT_SHADER_READ_ONLY_OPTIMAL] ∧
      ((AllocatedImage.fresh sampleRenderLink).create imageAllocFailDevice 37 0 1 6 1 1 2 2
        false true (some sampleAllocatedSource) []).1 = .ok () ∧
      ((AllocatedImage.fresh sampleRenderLink).create imageAllocFailDevice 37 0 1 6 1 1 2 2
        false true (some sampleAllocatedSource) []).2.2.take 2 =
        [.vmaCreateImage 4 (imageCreateInfo 37 0 1 6 1 2 2) 1,
         .vkCreateImageView 1 (imageViewCreateInfo VK_NULL_HANDLE 37 false)] ∧
      steps ((AllocatedImage.fresh sampleRenderLink).create imageAllocFailDevice 37 0 1 6 1 1 2 2
        false true (some sampleAllocatedSource) []).2.2 =
        [.barrier VK_IMAGE_LAYOUT_UNDEFINED VK_IMAGE_LAYOUT_TRANSFER_DST_OPTIMAL,
         .copyBufferToImage, .createSampler,
         .barrier VK_IMAGE_LAYOUT_TRANSFER_DST_OPTIMAL
           VK_IMAGE_LAYOUT_SHADER_READ_ONLY_OPTIMAL]) := by
  refine ⟨?_, ?_, ?_⟩
  · intro dev format tiling msaaSamples usage allocationUsage mipLevels width height imageType
      m w
    simp only [ImageManager.create, issue, List.append_assoc, List.singleton_append,
      List.cons_append, List.nil_append]
    split_ifs <;> exact ⟨rfl, rfl⟩
  · intro dev format tiling msaaSamples usage allocationUsage mipLevels width height depth
      asTexture a w
    simp only [AllocatedImage.create, issue, List.append_assoc, List.singleton_append,
      List.cons_append, List.nil_append]
    split_ifs <;> exact ⟨rfl, rfl⟩
  · refine ⟨by decide, rfl, ?_, ?_, rfl, ?_, ?_⟩ <;> decide

/-! ## One-shot command executor -/

/-- C13, counterexample: on `commandFailDevice`, whose command buffer allocation, queue
submission and queue wait all fail, `beginSingleTimeCommands` returns the (null) handle,
`AllocatedImage::transition(undefined, transfer-destination)` returns normally after the
complete round trip on the null command buffer, and `AllocatedBuffer::toImage` likewise issues
its complete round trip and returns. -/
theorem C13_executor_failure_swallowed :
    (commandFailDevice [allocateCall 1 3]).result ≠ VK_SUCCESS ∧
    sampleRenderLink.beginSingleTimeCommands commandFailDevice [] =
      (VK_NULL_HANDLE,
        [allocateCall 1 3,
         .vkBeginCommandBuffer VK_NULL_HANDLE VK_COMMAND_BUFFER_USAGE_ONE_TIME_SUBMIT_BIT]) ∧
    (commandFailDevice
      ((roundTrip 1 2 3 VK_NULL_HANDLE
        (.vkCmdCopyBufferToImage VK_NULL_HANDLE 77 9 VK_IMAGE_LAYOUT_TRANSFER_DST_OPTIMAL
          (copyRegion 2 2))).take 5)).result ≠ VK_SUCCESS ∧
    (commandFailDevice
      ((roundTrip 1 2 3 VK_NULL_HANDLE
        (.vkCmdCopyBufferToImage VK_NULL_HANDLE 77 9 VK_IMAGE_LAYOUT_TRANSFER_DST_OPTIMAL
          (copyRegion 2 2))).take 6)).result ≠ VK_SUCCESS ∧
    ((AllocatedImage.fresh sampleRenderLink).transition commandFailDevice
        VK_IMAGE_LAYOUT_UNDEFINED VK_IMAGE_LAYOUT_TRANSFER_DST_OPTIMAL []).1 = .ok () ∧
    ((AllocatedImage.fresh sampleRenderLink).transition commandFailDevice
        VK_IMAGE_LAYOUT_UNDEFINED VK_IMAGE_LAYOUT_TRANSFER_DST_OPTIMAL []).2.length = 7 ∧
    sampleAllocatedSource.toImage commandFailDevice 9 2 2 [] =
      roundTrip 1 2 3 VK_NULL_HANDLE
        (.vkCmdCopyBufferToImage VK_NULL_HANDLE 77 9 VK_IMAGE_LAYOUT_TRANSFER_DST_OPTIMAL
          (copyRegion 2 2)) := by
  refine ⟨by decide, rfl, by decide, by decide, rfl, rfl, rfl⟩

/-- C13 as amended: the executor of `RenderEngineLink` discards every result code.  For every
driver, `beginSingleTimeCommands` issues allocate and begin and returns the handle the
allocation left; `endSingleTimeCommands` issues end, submit, wait and free and returns;
`AllocatedImage::transition` either throws the unsupported-transition error chosen by the `if`
chain, with no driver call, or issues the complete round trip recording the barrier and returns
normally; `AllocatedBuffer::toImage` issues the complete round trip recording the copy and
returns. -/
theorem C13_executor_discards_results (dev : Device) (w : Trace) :
    (∀ link : RenderEngineLink,
      link.beginSingleTimeCommands dev w =
        (allocatedCommandBuffer dev link.device link.commandPool w,
          w ++ [allocateCall link.device link.commandPool,
                .vkBeginCommandBuffer (allocatedCommandBuffer dev link.device link.commandPool w)
                  VK_COMMAND_BUFFER_USAGE_ONE_TIME_SUBMIT_BIT])) ∧
    (∀ (link : RenderEngineLink) (commandBuffer : Handle),
      link.endSingleTimeCommands dev commandBuffer w =
        w ++ [.vkEndCommandBuffer commandBuffer,
              .vkQueueSubmit link.graphicsQueue commandBuffer,
              .vkQueueWaitIdle link.graphicsQueue,
              .vkFreeCommandBuffers link.device link.commandPool commandBuffer]) ∧
    (∀ (a : AllocatedImage) (oldLayout newLayout : VkImageLayout),
      a.transition dev oldLayout newLayout w =
        match selectBarrier a.image oldLayout newLayout with
        | .error e => (.error e, w)
        | .ok (barrier, sourceStage, destinationStage) =>
          (.ok (),
            w ++ roundTrip a.linkedRenderEngine.device a.linkedRenderEngine.graphicsQueue
              a.linkedRenderEngine.commandPool
              (allocatedCommandBuffer dev a.linkedRenderEngine.device
                a.linkedRenderEngine.commandPool w)
              (.vkCmdPipelineBarrier
                (allocatedCommandBuffer dev a.linkedRenderEngine.device
                  a.linkedRenderEngine.commandPool w)
                sourceStage destinationStage barrier))) ∧
    (∀ (b : AllocatedBuffer) (image : Handle) (width height : Nat),
      b.toImage dev image width height w =
        w ++ roundTrip b.linkedRenderEngine.device b.linkedRenderEngine.graphicsQueue
          b.linkedRenderEngine.commandPool
          (allocatedCommandBuffer dev b.linkedRenderEngine.device
            b.linkedRenderEngine.commandPool w)
          (.vkCmdCopyBufferToImage
            (allocatedCommandBuffer dev b.linkedRenderEngine.device
              b.linkedRenderEngine.commandPool w)
            b.buffer image VK_IMAGE_LAYOUT_TRANSFER_DST_OPTIMAL
            (copyRegion width height))) := by
  refine ⟨fun link => ?_, fun link commandBuffer => ?_, fun a oldLayout newLayout => ?_,
    fun b image width height => ?_⟩
  · simp [RenderEngineLink.beginSingleTimeCommands, issue, allocatedCommandBuffer, allocateCall]
  · simp [RenderEngineLink.endSingleTimeCommands, issue]
  · cases hsel : selectBarrier a.image oldLayout newLayout with
    | error e => exact AllocatedImage_transition_of_select_error dev _ _ a w e hsel
    | ok r =>
      obtain ⟨barrier, sourceStage, destinationStage⟩ := r
      exact AllocatedImage_transition_of_select dev _ _ a w _ _ _ hsel
  · simp [AllocatedBuffer.toImage, RenderEngineLink.beginSingleTimeCommands,
      RenderEngineLink.endSingleTimeCommands, issue, roundTrip, allocatedCommandBuffer,
      allocateCall]

/-! ## Vertex attribute descriptions -/

/-- C14: `Vertex::getAttributeDescriptions` assigns to indices 0, 1, 2 and 3 of a container of
three elements, so the four assignments to index 3 fall outside its bounds.  Slots 0, 1, 2
describe `pos`, `color`, `texCoord` at locations 0, 1, 2, binding 0, with the 3-, 3- and
2-component float formats and their own byte offsets (0, 12, 24).  The stores to the fourth
slot give location 3, the 2-component float format and the byte offset of `texCoord` (24),
not that of `normal` (32), a 3-component member. -/
theorem C14_attribute_descriptions :
    Vertex.getAttributeDescriptions.elements.length = 3 ∧
    Vertex.attributeAssignments.map (fun s => s.index) =
      [0, 0, 0, 0, 1, 1, 1, 1, 2, 2, 2, 2, 3, 3, 3, 3] ∧
    Vertex.getAttributeDescriptions.elements =
      [ { location := 0, binding := 0, format := VK_FORMAT_R32G32B32_SFLOAT,
          offset := Vertex.offsetof .pos },
        { location := 1, binding := 0, format := VK_FORMAT_R32G32B32_SFLOAT,
          offset := Vertex.offsetof .color },
        { location := 2, binding := 0, format := VK_FORMAT_R32G32_SFLOAT,
          offset := Vertex.offsetof .texCoord } ] ∧
    Vertex.getAttributeDescriptions.outOfBounds =
      [ { index := 3, member := .binding, value := 0 },
        { index := 3, member := .location, value := 3 },
        { index := 3, member := .format, value := VK_FORMAT_R32G32_SFLOAT },
        { index := 3, member := .offset, value := Vertex.offsetof .texCoord } ] ∧
    (Vertex.offsetof .pos = 0 ∧ Vertex.offsetof .color = 12 ∧
      Vertex.offsetof .texCoord = 24 ∧ Vertex.offsetof .normal = 32) ∧
    Vertex.offsetof .texCoord ≠ Vertex.offsetof .normal ∧
    VertexMember.components .normal = 3 := by
  refine ⟨by decide, by decide, by decide, by decide, by decide, by decide, rfl⟩

end GameEngine
